import Mathlib

/-!
# BLE time synchronisation: peripheral drift tracker and gateway clock handoff

A shallow embedding of `src/ble_time_sync_peripheral.c` (the peripheral node) and of the
parts of `examples/ble_wsn_ap/ble_time_sync/ble_time_sync_gateway.c` (the gateway) that
the verified properties are about.

Conventions.
* A `uint8_t`, `uint16_t` or `uint32_t` is a `Nat`; a `uint32_t` operation that can wrap is
  reduced with `u32`.
* An `int32_t` is an `Int`; a conversion to `int32_t` and every signed operation is reduced
  with `i32` (two's complement wrap-around, which is what the Cortex-M target does).
* `sl_sleeptimer_get_tick_count()`, the status codes returned by the Bluetooth stack and
  the values the stack writes through output pointers are inputs, collected in an
  environment record.
* `app_assert_status(sc)` stops the firmware when `sc` is not `SL_STATUS_OK`: a handler
  returns an `Outcome` whose `halted` flag says so, and nothing after a failed assertion
  is executed.
-/

namespace BleTimeSync

/-! ## Machine integers -/

/-- Value of an integer expression stored in a `uint32_t`. -/
def u32 (x : Int) : Nat := (x % 4294967296).toNat

/-- Value of an integer expression stored in an `int32_t` (two's complement). -/
def i32 (x : Int) : Int := (x + 2147483648) % 4294967296 - 2147483648

/-- The four bytes of a `uint32_t` in memory order (little endian). -/
def le32_bytes (x : Nat) : List Nat :=
  [x % 256, x / 256 % 256, x / 65536 % 256, x / 16777216 % 256]

/-- Byte `i` of a received value buffer; a byte past the received length reads as 0. -/
def byte_at (data : List Nat) (i : Nat) : Nat := data.getD i 0 % 256

/-- The `uint32_t` read by `*(uint32_t*)data` (little endian). -/
def read_u32 (data : List Nat) : Nat :=
  byte_at data 0 + 256 * byte_at data 1 + 65536 * byte_at data 2 + 16777216 * byte_at data 3

/-! ## Constants of `ble_time_sync.h` and of the Bluetooth API -/

def SL_STATUS_OK : Nat := 0
def SL_BT_INVALID_CONNECTION_HANDLE : Nat := 0xFF
def SL_BT_INVALID_SYNC_HANDLE : Nat := 0xFFFF
def sl_bt_gatt_write_request : Nat := 0x12

def INVALID_NODE_CHAR_HANDLE : Nat := 0
def INVALID_NODE_SERV_HANDLE : Nat := 0
def INVALID_TABLE_INDEX : Nat := 255
def PAWR_SYNC_SKIP : Nat := 0x00
def PAWR_SYNC_MAX_TIMEOUT : Nat := 0x2000
def PAWR_MIN_SYNC_TIMEOUT : Nat := 0x0a
def PAWR_MAX_SYNC_TIMEOUT : Nat := 0x4000
def PAWR_MAX_SYNC_LOST : Nat := 3
def INVALID_NODE_ID : Nat := 255

/-- Result of an event handler: the state it leaves, the stack commands it issued, in
order, and whether an `app_assert_status` failed. -/
structure Outcome (σ : Type) (κ : Type) where
  state : σ
  cmds : List κ
  halted : Bool

/-- Continue with `f` unless the firmware has halted. -/
def Outcome.andThen {σ κ : Type} (o : Outcome σ κ) (f : σ → Outcome σ κ) : Outcome σ κ :=
  if o.halted then o
  else
    let o2 := f o.state
    { state := o2.state, cmds := o.cmds ++ o2.cmds, halted := o2.halted }

/-- A handler step that issues no command. -/
def Outcome.pure {σ κ : Type} (s : σ) : Outcome σ κ :=
  { state := s, cmds := [], halted := false }

/-- The state left by an outcome satisfies `P` and every command it issued satisfies `Q`. -/
def Outcome.satisfies {σ κ : Type} (P : σ → Prop) (Q : κ → Prop) (o : Outcome σ κ) : Prop :=
  P o.state ∧ ∀ c ∈ o.cmds, Q c

/-! ## Peripheral node (`src/ble_time_sync_peripheral.c`) -/

/-- The `time_sync_handle_t` record of `ble_time_sync.h`. -/
structure time_sync_handle_t where
  id : Nat
  connection_handle : Nat
  subevent_id : Nat
  clock_offset : Int
  pawr_interval_ticks : Nat
  sync_handle : Nat
deriving DecidableEq, Repr

/-- The file-scope variables of the peripheral. -/
structure PeripheralState where
  time_sync_handle : time_sync_handle_t
  advertising_set_handle : Nat
  last_subevent_timestamp : Nat
  tick_error_max : Int
  last_subevent_tick_error : Int
deriving DecidableEq, Repr

/-- The static initialisers (variables without one start at zero). -/
def PeripheralState.init : PeripheralState :=
  { time_sync_handle :=
      { id := INVALID_NODE_ID
        connection_handle := SL_BT_INVALID_CONNECTION_HANDLE
        subevent_id := INVALID_NODE_ID
        clock_offset := 0
        pawr_interval_ticks := 0
        sync_handle := SL_BT_INVALID_SYNC_HANDLE }
    advertising_set_handle := 0
    last_subevent_timestamp := 0
    tick_error_max := 0
    last_subevent_tick_error := 0 }

/-- The attribute identifiers of the generated `gatt_db.h`, which is not part of the
sources: they are parameters. -/
structure gatt_db where
  gattdb_wall_clock_time : Nat
  gattdb_clock_correction : Nat
  gattdb_peripheral_node_id : Nat
  gattdb_subevent_id : Nat
deriving DecidableEq, Repr

/-- The four attribute identifiers are pairwise different, as in every generated GATT
database. -/
def gatt_db.distinct (db : gatt_db) : Prop :=
  db.gattdb_wall_clock_time ≠ db.gattdb_clock_correction ∧
  db.gattdb_wall_clock_time ≠ db.gattdb_peripheral_node_id ∧
  db.gattdb_wall_clock_time ≠ db.gattdb_subevent_id ∧
  db.gattdb_clock_correction ≠ db.gattdb_peripheral_node_id ∧
  db.gattdb_clock_correction ≠ db.gattdb_subevent_id ∧
  db.gattdb_peripheral_node_id ≠ db.gattdb_subevent_id

instance (db : gatt_db) : Decidable db.distinct := by
  unfold gatt_db.distinct; infer_instance

/-- Stack commands issued by the peripheral (constant mode arguments are left out). -/
inductive PeripheralCmd where
  | advertiser_create_set
  | legacy_advertiser_generate_data (advertising_set : Nat)
  | advertiser_set_timing (advertising_set interval_min interval_max duration maxevents : Nat)
  | legacy_advertiser_start (advertising_set : Nat)
  | past_receiver_set_sync_receive_parameters (connection skip timeout : Nat)
  | gatt_server_send_user_write_response (connection characteristic att_errorcode : Nat)
  | sync_update_sync_parameters (sync skip timeout : Nat)
  | pawr_sync_set_sync_subevents (sync : Nat) (subevents : List Nat)
deriving DecidableEq, Repr

/-- What the peripheral reads from its surroundings while it handles one event. -/
structure PeripheralEnv where
  /-- Value returned by `sl_sleeptimer_get_tick_count()`. -/
  tick_count : Nat
  /-- Status returned by the stack for a command. -/
  status : PeripheralCmd → Nat
  /-- Handle written by `sl_bt_advertiser_create_set`. -/
  created_set : Nat
  /-- Content of `*tick` after `sl_sleeptimer_ms32_to_tick(time_ms, tick)`. -/
  ms32_to_tick : Nat → Nat

/-- Events of the Bluetooth stack, with the fields the peripheral reads. -/
inductive PeripheralEvent where
  | system_boot
  | connection_parameters (connection : Nat)
  | connection_opened (connection : Nat)
  | gatt_server_user_write_request (connection characteristic att_opcode : Nat)
      (value : List Nat)
  | pawr_sync_transfer_received (status sync adv_interval : Nat)
  | pawr_sync_subevent_report (data_status : Nat)
  | connection_closed
  | sync_closed
  | other
deriving DecidableEq, Repr

abbrev POutcome := Outcome PeripheralState PeripheralCmd

/-- Issue a command whose status is checked with `app_assert_status`. -/
def p_call (env : PeripheralEnv) (s : PeripheralState) (c : PeripheralCmd) : POutcome :=
  { state := s, cmds := [c], halted := decide (env.status c ≠ SL_STATUS_OK) }

/-- The `get_timestamp` query: local tick count plus clock offset, as a `uint32_t`. -/
def get_timestamp (env : PeripheralEnv) (s : PeripheralState) : Nat :=
  u32 (env.tick_count + s.time_sync_handle.clock_offset)

/-- The timeout that `pawr_update_sync_parameters` passes to the stack. -/
def pawr_sync_timeout (timeout skip : Nat) : Nat :=
  let pawr_sync_timeout :=
    if timeout ≠ 0 then
      let t := (PAWR_MAX_SYNC_LOST * timeout % 4294967296 + PAWR_MIN_SYNC_TIMEOUT)
                 % 4294967296 / 10
      if t < PAWR_MIN_SYNC_TIMEOUT then PAWR_MIN_SYNC_TIMEOUT
      else if t > PAWR_MAX_SYNC_TIMEOUT then PAWR_MAX_SYNC_TIMEOUT
      else t
    else timeout
  let t := pawr_sync_timeout * (skip + 1) % 4294967296
  if t > PAWR_SYNC_MAX_TIMEOUT then PAWR_SYNC_MAX_TIMEOUT else t

/-- The commands of `pawr_update_sync_parameters`; its status is ignored by its caller. -/
def pawr_update_sync_parameters (s : PeripheralState) (timeout skip : Nat) :
    List PeripheralCmd :=
  if s.time_sync_handle.sync_handle ≠ SL_BT_INVALID_SYNC_HANDLE then
    [PeripheralCmd.sync_update_sync_parameters s.time_sync_handle.sync_handle skip
      (pawr_sync_timeout timeout skip)]
  else []

def peripheral_node_bt_boot (env : PeripheralEnv) (s : PeripheralState) : POutcome :=
  let s1 := { s with advertising_set_handle := env.created_set }
  (((p_call env s1 PeripheralCmd.advertiser_create_set).andThen fun s =>
    p_call env s (PeripheralCmd.legacy_advertiser_generate_data s.advertising_set_handle)).andThen
    fun s => p_call env s
      (PeripheralCmd.advertiser_set_timing s.advertising_set_handle 160 160 0 0)).andThen
    fun s => p_call env s (PeripheralCmd.legacy_advertiser_start s.advertising_set_handle)

def peripheral_node_bt_connection_parameters (env : PeripheralEnv) (s : PeripheralState)
    (connection : Nat) : POutcome :=
  p_call env s (PeripheralCmd.past_receiver_set_sync_receive_parameters connection
    PAWR_SYNC_SKIP PAWR_SYNC_MAX_TIMEOUT)

/-- State change of `peripheral_node_bt_write_request`: the four `if`s, in order. -/
def write_request_update (db : gatt_db) (env : PeripheralEnv) (s : PeripheralState)
    (characteristic : Nat) (value : List Nat) : PeripheralState :=
  let h0 := s.time_sync_handle
  let h1 :=
    if characteristic = db.gattdb_wall_clock_time then
      let wall_clock_time := read_u32 value
      { h0 with clock_offset := i32 (u32 (i32 wall_clock_time - env.tick_count)) }
    else h0
  let h2 :=
    if characteristic = db.gattdb_clock_correction then
      let clock_correction := read_u32 value
      { h1 with clock_offset := i32 (u32 (h1.clock_offset + clock_correction)) }
    else h1
  let h3 :=
    if characteristic = db.gattdb_peripheral_node_id then
      { h2 with id := byte_at value 0 }
    else h2
  let h4 :=
    if characteristic = db.gattdb_subevent_id then
      { h3 with subevent_id := byte_at value 0 }
    else h3
  { s with time_sync_handle := h4 }

def peripheral_node_bt_write_request (db : gatt_db) (env : PeripheralEnv)
    (s : PeripheralState) (connection characteristic att_opcode : Nat) (value : List Nat) :
    POutcome :=
  let s1 := write_request_update db env s characteristic value
  if att_opcode = sl_bt_gatt_write_request then
    p_call env s1
      (PeripheralCmd.gatt_server_send_user_write_response connection characteristic SL_STATUS_OK)
  else Outcome.pure s1

/-- The "correction with 36 ppm": `pawr_interval_ticks -= (36 * pawr_interval_ticks /
1000000U)` in `uint32_t` arithmetic. -/
def correct_36_ppm (pawr_interval_ticks : Nat) : Nat :=
  u32 ((pawr_interval_ticks : Int)
    - (36 * pawr_interval_ticks % 4294967296 / 1000000 : Nat))

/-- The "calculation of tick error (max. 20 ppm)": `20 * pawr_interval_ticks / 1000000U`
in `uint32_t` arithmetic, stored in the `int32_t` `tick_error_max`. -/
def tick_error_20_ppm (pawr_interval_ticks : Nat) : Int :=
  i32 ((20 * pawr_interval_ticks % 4294967296 / 1000000 : Nat) : Int)

def peripheral_node_bt_sync_transfer_received (env : PeripheralEnv) (s : PeripheralState)
    (status sync adv_interval : Nat) : POutcome :=
  if status = SL_STATUS_OK then
    let pawr_interval_ms := 10 * adv_interval / 8
    let s1 := { s with
      last_subevent_timestamp := env.tick_count
      time_sync_handle := { s.time_sync_handle with sync_handle := sync } }
    let cmds1 := pawr_update_sync_parameters s1 pawr_interval_ms PAWR_SYNC_SKIP
    let pawr_interval_ticks := correct_36_ppm (env.ms32_to_tick pawr_interval_ms)
    let s2 := { s1 with
      tick_error_max := tick_error_20_ppm pawr_interval_ticks
      time_sync_handle := { s1.time_sync_handle with pawr_interval_ticks := pawr_interval_ticks } }
    let o := p_call env s2
      (PeripheralCmd.pawr_sync_set_sync_subevents s2.time_sync_handle.sync_handle
        [s2.time_sync_handle.subevent_id])
    { o with cmds := cmds1 ++ o.cmds }
  else Outcome.pure s

/-- The `ticks_elapsed` of the report handler: the `uint32_t` difference, negated (as a
`uint32_t`) when it reads as a negative `int32_t`. -/
def ticks_elapsed (tick_now last_subevent_timestamp : Nat) : Nat :=
  let d := u32 ((tick_now : Int) - last_subevent_timestamp)
  if i32 d < 0 then u32 (-(d : Int)) else d

def peripheral_node_bt_sync_subevent_report (env : PeripheralEnv) (s : PeripheralState)
    (data_status : Nat) : PeripheralState :=
  if data_status = 0 then
    let tick_now := env.tick_count
    let elapsed := ticks_elapsed tick_now s.last_subevent_timestamp
    let tick_error := i32 (u32 ((elapsed : Int) - s.time_sync_handle.pawr_interval_ticks))
    if tick_error > s.tick_error_max ∨ tick_error < i32 (-s.tick_error_max) then
      { s with
        time_sync_handle := { s.time_sync_handle with
          clock_offset := i32 (s.time_sync_handle.clock_offset - s.last_subevent_tick_error) }
        last_subevent_timestamp := tick_now }
    else
      { s with
        time_sync_handle := { s.time_sync_handle with
          clock_offset := i32 (s.time_sync_handle.clock_offset - tick_error) }
        last_subevent_tick_error := tick_error
        last_subevent_timestamp := tick_now }
  else s

def peripheral_node_bt_connection_closed (env : PeripheralEnv) (s : PeripheralState) :
    POutcome :=
  let s1 := { s with
    time_sync_handle :=
      { s.time_sync_handle with connection_handle := SL_BT_INVALID_CONNECTION_HANDLE } }
  (p_call env s1
    (PeripheralCmd.legacy_advertiser_generate_data s1.advertising_set_handle)).andThen
    fun s => p_call env s (PeripheralCmd.legacy_advertiser_start s.advertising_set_handle)

/-- The event dispatcher of the peripheral. -/
def peripheral_node_on_bt_event (db : gatt_db) (env : PeripheralEnv) (s : PeripheralState) :
    PeripheralEvent → POutcome
  | .system_boot => peripheral_node_bt_boot env s
  | .connection_parameters connection =>
      peripheral_node_bt_connection_parameters env s connection
  | .connection_opened connection =>
      Outcome.pure
        { s with time_sync_handle := { s.time_sync_handle with connection_handle := connection } }
  | .gatt_server_user_write_request connection characteristic att_opcode value =>
      peripheral_node_bt_write_request db env s connection characteristic att_opcode value
  | .pawr_sync_transfer_received status sync adv_interval =>
      peripheral_node_bt_sync_transfer_received env s status sync adv_interval
  | .pawr_sync_subevent_report data_status =>
      Outcome.pure (peripheral_node_bt_sync_subevent_report env s data_status)
  | .connection_closed => peripheral_node_bt_connection_closed env s
  | .sync_closed =>
      Outcome.pure
        { s with time_sync_handle :=
            { s.time_sync_handle with sync_handle := SL_BT_INVALID_SYNC_HANDLE } }
  | .other => Outcome.pure s

/-- Handle the events of a list one after the other, each with its own environment; a
halted firmware handles nothing more. -/
def peripheral_run (db : gatt_db) (s : PeripheralState) :
    List (PeripheralEnv × PeripheralEvent) → POutcome
  | [] => Outcome.pure s
  | (env, evt) :: rest =>
      (peripheral_node_on_bt_event db env s evt).andThen fun s1 => peripheral_run db s1 rest

/-! ### Concrete inputs used in the examples -/

/-- An environment at local tick `t`: every command succeeds and the sleeptimer runs at
32768 Hz. -/
def env_at (t : Nat) : PeripheralEnv :=
  { tick_count := t
    status := fun _ => SL_STATUS_OK
    created_set := 0
    ms32_to_tick := fun ms => (ms * 32768 + 999) / 1000 }

/-- A GATT database with attribute identifiers 21, 23, 25 and 27. -/
def db_example : gatt_db :=
  { gattdb_wall_clock_time := 21
    gattdb_clock_correction := 23
    gattdb_peripheral_node_id := 25
    gattdb_subevent_id := 27 }

/-- The state of the worked example: `N = 32767`, `M = 1`, last report at tick 0, last
accepted error 0. -/
def state_example : PeripheralState :=
  { PeripheralState.init with
    time_sync_handle := { PeripheralState.init.time_sync_handle with
      pawr_interval_ticks := 32767 }
    tick_error_max := 1 }

/-- Tick count of `ms` milliseconds on a 32768 Hz timer, rounded up. -/
def ms_to_tick_32768 (ms : Nat) : Nat := (ms * 32768 + 999) / 1000

/-- The bound the specification gives for the tick error: 20 parts per million of the
nominal interval, rounded to the nearest integer. -/
def tick_error_max_rounded (nominal_interval_ticks : Nat) : Nat :=
  (nominal_interval_ticks * 20 + 500000) / 1000000

/-! ## Gateway (`examples/ble_wsn_ap/ble_time_sync/ble_time_sync_gateway.c`) -/

/-- The `bt_connection_state_enum` of `ble_time_sync.h`. -/
inductive bt_connection_state_enum where
  | inactive
  | scanning
  | discover_service
  | set_peripheral_node_id
  | set_subevent_id
  | set_wall_clock_time
  | set_clock_correction
  | sync_process_finished
  | sensor_network_full
deriving DecidableEq, Repr

/-- The `peripheral_node_t` record of `ble_time_sync.h`. -/
structure peripheral_node_t where
  id : Nat
  device_address : Nat
  connection_handle : Nat
  pawr_configuration_service_handle : Nat
  subevent_id_characteristic_handle : Nat
  wall_clock_time_characteristic_handle : Nat
  clock_correction_characteristic_handle : Nat
  peripheral_node_id_characteristic_handle : Nat
  is_synchronized : Bool
deriving DecidableEq, Repr

/-- The file-scope variables of the gateway. `peripheral_nodes` is the table of
`MAX_NUM_PERIPHERAL_NODES` slots; `sync_ready_callback` says whether a callback is
registered. -/
structure GatewayState where
  active_connections_num : Nat
  peripheral_node_id : Nat
  subevent_id : Nat
  wall_clock_time : Nat
  offset : Nat
  connection_state : bt_connection_state_enum
  ble_time_sync_initialized : Bool
  evt_counter : Nat
  advertising_set_handle : Nat
  connection_handle : Nat
  peripheral_nodes : List peripheral_node_t
  sync_ready_callback : Bool
deriving DecidableEq, Repr

/-- Stack commands issued by the gateway, in the order of issue (constant mode and PHY
arguments are left out). `sync_ready_callback` records a call of the registered
callback. -/
inductive GatewayCmd where
  | gatt_write_characteristic_value (connection characteristic : Nat) (value : List Nat)
  | advertiser_create_set
  | pawr_advertiser_start (advertising_set interval_min interval_max response_slots : Nat)
  | scanner_start
  | scanner_stop
  | connection_open (address : List Nat) (address_type : Nat)
  | gatt_discover_primary_services_by_uuid (connection : Nat) (uuid : List Nat)
  | gatt_discover_characteristics (connection service : Nat)
  | advertiser_past_transfer (connection service_data advertising_set : Nat)
  | pawr_advertiser_set_subevent_data
      (advertising_set subevent response_slot_start response_slot_count : Nat)
      (data : List Nat)
  | sync_ready_callback (connection : Nat)
deriving DecidableEq, Repr

/-- What the gateway reads from its surroundings while it handles one event. -/
structure GatewayEnv where
  /-- Value returned by `sl_sleeptimer_get_tick_count()`. -/
  tick_count : Nat
  /-- Status returned by the stack for a command. -/
  status : GatewayCmd → Nat
  /-- Handle written by `sl_bt_advertiser_create_set`. -/
  created_set : Nat
  /-- Handle written by `sl_bt_connection_open`. -/
  opened_connection : Nat
  /-- The byte that follows `evt_counter` in memory: the data request sends
  `PAWR_PACKET_SIZE = 2` bytes starting at the one-byte `evt_counter`. -/
  byte_after_evt_counter : Nat

/-- The constants of `ble_time_sync_config.h` and of the stack configuration, which are
not part of the sources: they are parameters. `MAX_NUM_PERIPHERAL_NODES` is the number of
slots of `peripheral_nodes`; the `uint8_t` loop indices of the table require it to be at
most 255. `pawr_interval_units` is the value of `PAWR_INTERVAL * 1000 * 8 / 10`. -/
structure gateway_config where
  MAX_NUM_PERIPHERAL_NODES : Nat
  SL_BT_CONFIG_MAX_CONNECTIONS : Nat
  pawr_interval_units : Nat
deriving DecidableEq, Repr

abbrev GOutcome := Outcome GatewayState GatewayCmd

/-- Issue a command whose status is checked with `app_assert_status`. -/
def g_call (env : GatewayEnv) (s : GatewayState) (c : GatewayCmd) : GOutcome :=
  { state := s, cmds := [c], halted := decide (env.status c ≠ SL_STATUS_OK) }

/-- The loop of `find_index_by_connection_handle` from index `i`, with `n` iterations
left (`n = active_connections_num - i`). A slot outside the table never matches. -/
def find_index_from (nodes : List peripheral_node_t) (connection : Nat) : Nat → Nat → Nat
  | 0, _ => INVALID_TABLE_INDEX
  | n + 1, i =>
      match nodes[i]? with
      | some node =>
          if node.connection_handle = connection then i
          else find_index_from nodes connection n (i + 1)
      | none => find_index_from nodes connection n (i + 1)

def find_index_by_connection_handle (s : GatewayState) (connection : Nat) : Nat :=
  find_index_from s.peripheral_nodes connection s.active_connections_num 0

/-- The value `gateway_node_bt_set_clock_correction` leaves in `offset`: the `uint32_t`
tick difference, halved, plus one when it is odd. -/
def clock_correction (tick_count wall_clock_time : Nat) : Nat :=
  let offset := u32 ((tick_count : Int) - wall_clock_time)
  if offset % 2 ≠ 0 then (offset / 2 + 1) % 4294967296 else offset / 2

/-- Handler of a procedure-completed event (for `connection`, with status `result`) in
state `set_clock_correction`. -/
def gateway_node_bt_set_clock_correction (env : GatewayEnv) (s : GatewayState)
    (connection result : Nat) : GOutcome :=
  let table_index := find_index_by_connection_handle s connection
  if table_index ≠ INVALID_TABLE_INDEX then
    match s.peripheral_nodes[table_index]? with
    | some node =>
        if node.clock_correction_characteristic_handle ≠ INVALID_NODE_CHAR_HANDLE then
          let s1 := { s with offset := clock_correction env.tick_count s.wall_clock_time }
          if result ≠ SL_STATUS_OK then { state := s1, cmds := [], halted := true }
          else
            (g_call env s1
              (GatewayCmd.gatt_write_characteristic_value connection
                node.clock_correction_characteristic_handle (le32_bytes s1.offset))).andThen
              fun s2 => Outcome.pure
                { s2 with connection_state := bt_connection_state_enum.sync_process_finished }
        else Outcome.pure s
    | none => Outcome.pure s
  else Outcome.pure s

/-! ### Constants of the gateway -/

def SL_STATUS_INVALID_HANDLE : Nat := 0x0025
def SL_BT_SCANNER_EVENT_FLAG_CONNECTABLE : Nat := 0x1
def SL_BT_SCANNER_EVENT_FLAG_SCANNABLE : Nat := 0x2
def PAWR_PACKET_SIZE : Nat := 0x02
def SUBEVENT_ID : Nat := 0

def pawr_configuration_service_uuid : List Nat := [0xC7, 0x98]
def pawr_subevent_id_characteristic_uuid : List Nat := [0xA5, 0xB8]
def pawr_peripheral_node_id_characteristic_uuid : List Nat := [0x0B, 0x69]
def pawr_wall_clock_time_characteristic_uuid : List Nat := [0x9A, 0x50]
def pawr_clock_correction_characteristic_uuid : List Nat := [0xC6, 0x9A]

/-- The static initialisers of the gateway, with a zeroed table of
`MAX_NUM_PERIPHERAL_NODES` slots. -/
def GatewayState.init (cfg : gateway_config) : GatewayState :=
  { active_connections_num := 0
    peripheral_node_id := 0
    subevent_id := 0
    wall_clock_time := 0
    offset := 0
    connection_state := bt_connection_state_enum.inactive
    ble_time_sync_initialized := false
    evt_counter := 0
    advertising_set_handle := 0xFF
    connection_handle := 0xFF
    peripheral_nodes := List.replicate cfg.MAX_NUM_PERIPHERAL_NODES
      { id := 0
        device_address := 0
        connection_handle := 0
        pawr_configuration_service_handle := 0
        subevent_id_characteristic_handle := 0
        wall_clock_time_characteristic_handle := 0
        clock_correction_characteristic_handle := 0
        peripheral_node_id_characteristic_handle := 0
        is_synchronized := false }
    sync_ready_callback := false }

/-- A command whose status is not checked. -/
def g_issue (s : GatewayState) (c : GatewayCmd) : GOutcome :=
  { state := s, cmds := [c], halted := false }

/-- A failed `app_assert`. -/
def g_halt (s : GatewayState) : GOutcome :=
  { state := s, cmds := [], halted := true }

/-! ### The table of peripheral nodes -/

/-- The assignment `peripheral_nodes[i] = f(peripheral_nodes[i])`. A write outside the
table is not modelled: it leaves the table unchanged. -/
def set_node (nodes : List peripheral_node_t) (i : Nat)
    (f : peripheral_node_t → peripheral_node_t) : List peripheral_node_t :=
  match nodes[i]? with
  | some node => nodes.set i (f node)
  | none => nodes

/-- The seven assignments that reset a slot; `id` and `device_address` are not reset. -/
def reset_node (node : peripheral_node_t) : peripheral_node_t :=
  { node with
    pawr_configuration_service_handle := INVALID_NODE_SERV_HANDLE
    peripheral_node_id_characteristic_handle := INVALID_NODE_CHAR_HANDLE
    subevent_id_characteristic_handle := INVALID_NODE_CHAR_HANDLE
    wall_clock_time_characteristic_handle := INVALID_NODE_CHAR_HANDLE
    clock_correction_characteristic_handle := INVALID_NODE_CHAR_HANDLE
    connection_handle := SL_BT_INVALID_CONNECTION_HANDLE
    is_synchronized := false }

/-- A loop that resets `n` slots from index `i` on. -/
def clear_entries (nodes : List peripheral_node_t) : Nat → Nat → List peripheral_node_t
  | 0, _ => nodes
  | n + 1, i => clear_entries (set_node nodes i reset_node) n (i + 1)

def init_sensor_nodes (cfg : gateway_config) (s : GatewayState) : GatewayState :=
  { s with
    peripheral_nodes := clear_entries s.peripheral_nodes cfg.MAX_NUM_PERIPHERAL_NODES 0 }

/-- The `ble_time_sync_init` entry point; `callback` says whether the argument is a
function (not `NULL`). -/
def ble_time_sync_init (cfg : gateway_config) (s : GatewayState) (callback : Bool) :
    GatewayState :=
  { init_sensor_nodes cfg s with
    sync_ready_callback := callback
    ble_time_sync_initialized := true }

def add_connection (s : GatewayState) (connection address : Nat) : GatewayState :=
  { s with
    peripheral_nodes := set_node s.peripheral_nodes s.active_connections_num
      (fun node => { node with
        connection_handle := connection
        device_address := address
        id := s.active_connections_num })
    active_connections_num := (s.active_connections_num + 1) % 256 }

/-- The shifting loop of `remove_connection`: `n` iterations of
`peripheral_nodes[i] = peripheral_nodes[i + 1]` from index `i` on. A read outside the
table is not modelled: it leaves the slot unchanged. -/
def shift_entries (nodes : List peripheral_node_t) : Nat → Nat → List peripheral_node_t
  | 0, _ => nodes
  | n + 1, i =>
      match nodes[i + 1]? with
      | some next => shift_entries (nodes.set i next) n (i + 1)
      | none => shift_entries nodes n (i + 1)

/-- The `remove_connection` function. The shifting loop runs from `table_index` while the
index is below the decremented `active_connections_num`; the clearing loop runs from there
to `MAX_NUM_PERIPHERAL_NODES`. (The entry read for the log message is not modelled.) -/
def remove_connection (cfg : gateway_config) (s : GatewayState) (connection : Nat) :
    GatewayState :=
  let table_index := find_index_by_connection_handle s connection
  let active :=
    if s.active_connections_num > 0 then s.active_connections_num - 1
    else s.active_connections_num
  let shifted := shift_entries s.peripheral_nodes (active - table_index) table_index
  { s with
    active_connections_num := active
    peripheral_nodes := clear_entries shifted (cfg.MAX_NUM_PERIPHERAL_NODES - active) active }

/-! ### Advertisement parsing -/

/-- The loop of `find_service_by_uuid` with its `uint8_t` index `i`. The index takes at most
256 values and the loop body depends on nothing else, so a loop that has not ended after
256 tests of its condition never ends: that is the result `none`. -/
def find_service_by_uuid_loop (data : List Nat) (len : Nat) : Nat → Nat → Option Nat
  | 0, _ => none
  | fuel + 1, i =>
      if i < len then
        let ad_field_length := byte_at data i
        let ad_field_type := byte_at data (i + 1)
        if (ad_field_type = 0x02 ∨ ad_field_type = 0x03) ∧
            byte_at data (i + 2) = 0xC7 ∧ byte_at data (i + 3) = 0x98 then some 1
        else find_service_by_uuid_loop data len fuel ((i + ad_field_length + 1) % 256)
      else some 0

def find_service_by_uuid (data : List Nat) (len : Nat) : Option Nat :=
  find_service_by_uuid_loop data len 256 0

/-! ### Event handlers of the gateway -/

/-- Events of the Bluetooth stack, with the fields the gateway reads. -/
inductive GatewayEvent where
  | system_boot
  | scanner_legacy_advertisement_report (event_flags : Nat) (address : List Nat)
      (address_type : Nat) (data : List Nat)
  | connection_opened (connection : Nat) (address : List Nat)
  | gatt_service (connection service : Nat)
  | gatt_characteristic (connection characteristic : Nat) (uuid : List Nat)
  | gatt_procedure_completed (connection result : Nat)
  | pawr_advertiser_subevent_data_request
  | connection_closed (connection : Nat)
  | other
deriving DecidableEq, Repr

def gateway_node_bt_boot (cfg : gateway_config) (env : GatewayEnv) (s : GatewayState) :
    GOutcome :=
  (g_call env { s with advertising_set_handle := env.created_set }
      GatewayCmd.advertiser_create_set).andThen fun s1 =>
    let pawr_interval := cfg.pawr_interval_units % 65536
    if pawr_interval > 0x06 then
      ((g_call env s1
          (GatewayCmd.pawr_advertiser_start s1.advertising_set_handle pawr_interval
            pawr_interval cfg.MAX_NUM_PERIPHERAL_NODES)).andThen fun s2 =>
        g_call env s2 GatewayCmd.scanner_start).andThen fun s3 =>
          Outcome.pure
            { init_sensor_nodes cfg s3 with
              connection_state := bt_connection_state_enum.scanning }
    else g_halt s1

def gateway_node_bt_legacy_advertisement_report (cfg : gateway_config) (env : GatewayEnv)
    (s : GatewayState) (event_flags : Nat) (address : List Nat) (address_type : Nat)
    (data : List Nat) : GOutcome :=
  if event_flags
      = SL_BT_SCANNER_EVENT_FLAG_CONNECTABLE + SL_BT_SCANNER_EVENT_FLAG_SCANNABLE then
    match find_service_by_uuid data data.length with
    | none => g_halt s
    | some found =>
        if found ≠ 0 then
          (g_call env s GatewayCmd.scanner_stop).andThen fun s1 =>
            if s1.active_connections_num < cfg.SL_BT_CONFIG_MAX_CONNECTIONS then
              g_call env { s1 with connection_handle := env.opened_connection }
                (GatewayCmd.connection_open address address_type)
            else Outcome.pure s1
        else Outcome.pure s
  else Outcome.pure s

def gateway_node_bt_connection_opened (env : GatewayEnv) (s : GatewayState)
    (connection : Nat) (address : List Nat) : GOutcome :=
  let discover :=
    GatewayCmd.gatt_discover_primary_services_by_uuid connection
      pawr_configuration_service_uuid
  let o : GOutcome :=
    if env.status discover = SL_STATUS_INVALID_HANDLE then
      (g_issue s discover).andThen fun s1 =>
        (g_call env s1 GatewayCmd.scanner_start).andThen fun s2 =>
          Outcome.pure { s2 with connection_state := bt_connection_state_enum.scanning }
    else g_call env s discover
  o.andThen fun s3 =>
    let addr_value := (byte_at address 1 * 256 % 65536 + byte_at address 0) % 65536
    Outcome.pure
      { add_connection s3 connection addr_value with
        connection_state := bt_connection_state_enum.discover_service }

def gateway_node_bt_service (s : GatewayState) (connection service : Nat) : GatewayState :=
  let table_index := find_index_by_connection_handle s connection
  if table_index ≠ INVALID_TABLE_INDEX ∧
      s.connection_state = bt_connection_state_enum.discover_service then
    { s with
      peripheral_nodes := set_node s.peripheral_nodes table_index fun node =>
        if node.pawr_configuration_service_handle = INVALID_NODE_SERV_HANDLE then
          { node with pawr_configuration_service_handle := service }
        else node }
  else s

/-- The `memcmp` of the first two bytes of a discovered UUID with a reference UUID. -/
def uuid_matches (uuid reference : List Nat) : Prop :=
  byte_at uuid 0 = byte_at reference 0 ∧ byte_at uuid 1 = byte_at reference 1

instance (uuid reference : List Nat) : Decidable (uuid_matches uuid reference) := by
  unfold uuid_matches; infer_instance

/-- The four `if`s of `gateway_node_bt_characteristic` on one table entry, in order. -/
def store_characteristic (uuid : List Nat) (characteristic : Nat) (node : peripheral_node_t) :
    peripheral_node_t :=
  let n1 :=
    if uuid_matches uuid pawr_subevent_id_characteristic_uuid then
      { node with subevent_id_characteristic_handle := characteristic }
    else node
  let n2 :=
    if uuid_matches uuid pawr_peripheral_node_id_characteristic_uuid then
      { n1 with peripheral_node_id_characteristic_handle := characteristic }
    else n1
  let n3 :=
    if uuid_matches uuid pawr_wall_clock_time_characteristic_uuid then
      { n2 with wall_clock_time_characteristic_handle := characteristic }
    else n2
  if uuid_matches uuid pawr_clock_correction_characteristic_uuid then
    { n3 with clock_correction_characteristic_handle := characteristic }
  else n3

def gateway_node_bt_characteristic (s : GatewayState) (connection characteristic : Nat)
    (uuid : List Nat) : GatewayState :=
  let table_index := find_index_by_connection_handle s connection
  if table_index ≠ INVALID_TABLE_INDEX then
    { s with
      peripheral_nodes :=
        set_node s.peripheral_nodes table_index (store_characteristic uuid characteristic) }
  else s

def gateway_node_bt_discover_service (env : GatewayEnv) (s : GatewayState)
    (connection : Nat) : GOutcome :=
  let table_index := find_index_by_connection_handle s connection
  if table_index ≠ INVALID_TABLE_INDEX then
    match s.peripheral_nodes[table_index]? with
    | some node =>
        if node.pawr_configuration_service_handle ≠ INVALID_NODE_SERV_HANDLE then
          (g_call env s
            (GatewayCmd.gatt_discover_characteristics connection
              node.pawr_configuration_service_handle)).andThen fun s1 =>
            Outcome.pure
              { s1 with connection_state := bt_connection_state_enum.set_peripheral_node_id }
        else Outcome.pure s
    | none => Outcome.pure s
  else Outcome.pure s

def gateway_node_bt_set_peripheral_node_id (env : GatewayEnv) (s : GatewayState)
    (connection : Nat) : GOutcome :=
  let table_index := find_index_by_connection_handle s connection
  if table_index ≠ INVALID_TABLE_INDEX then
    match s.peripheral_nodes[table_index]? with
    | some node =>
        if node.peripheral_node_id_characteristic_handle ≠ INVALID_NODE_CHAR_HANDLE then
          (g_issue s GatewayCmd.scanner_stop).andThen fun s1 =>
            let s2 := { s1 with
              peripheral_node_id := u32 ((s1.active_connections_num : Int) - 1) % 256 }
            (g_call env s2
              (GatewayCmd.gatt_write_characteristic_value connection
                node.peripheral_node_id_characteristic_handle
                [s2.peripheral_node_id])).andThen fun s3 =>
              Outcome.pure
                { s3 with connection_state := bt_connection_state_enum.set_subevent_id }
        else Outcome.pure s
    | none => Outcome.pure s
  else Outcome.pure s

def gateway_node_bt_set_subevent_id (env : GatewayEnv) (s : GatewayState)
    (connection : Nat) : GOutcome :=
  let table_index := find_index_by_connection_handle s connection
  if table_index ≠ INVALID_TABLE_INDEX then
    match s.peripheral_nodes[table_index]? with
    | some node =>
        if node.subevent_id_characteristic_handle ≠ INVALID_NODE_CHAR_HANDLE then
          (g_call env s
            (GatewayCmd.gatt_write_characteristic_value connection
              node.subevent_id_characteristic_handle [s.subevent_id])).andThen fun s1 =>
            Outcome.pure
              { s1 with connection_state := bt_connection_state_enum.set_wall_clock_time }
        else Outcome.pure s
    | none => Outcome.pure s
  else Outcome.pure s

def gateway_node_bt_set_wall_clock_time (env : GatewayEnv) (s : GatewayState)
    (connection : Nat) : GOutcome :=
  let table_index := find_index_by_connection_handle s connection
  if table_index ≠ INVALID_TABLE_INDEX then
    match s.peripheral_nodes[table_index]? with
    | some node =>
        if node.wall_clock_time_characteristic_handle ≠ INVALID_NODE_CHAR_HANDLE then
          let s1 := { s with wall_clock_time := env.tick_count }
          (g_call env s1
            (GatewayCmd.gatt_write_characteristic_value connection
              node.wall_clock_time_characteristic_handle
              (le32_bytes s1.wall_clock_time))).andThen fun s2 =>
            Outcome.pure
              { s2 with connection_state := bt_connection_state_enum.set_clock_correction }
        else Outcome.pure s
    | none => Outcome.pure s
  else Outcome.pure s

def gateway_node_bt_sync_process_finished (cfg : gateway_config) (env : GatewayEnv)
    (s : GatewayState) (connection result : Nat) : GOutcome :=
  let table_index := find_index_by_connection_handle s connection
  if table_index ≠ INVALID_TABLE_INDEX then
    if result ≠ SL_STATUS_OK then g_halt s
    else
      ((g_call env s
          (GatewayCmd.advertiser_past_transfer connection 0
            s.advertising_set_handle)).andThen fun s1 =>
        let s2 := { s1 with
          peripheral_nodes := set_node s1.peripheral_nodes table_index fun node =>
            { node with is_synchronized := true } }
        if s2.sync_ready_callback then g_issue s2 (GatewayCmd.sync_ready_callback connection)
        else Outcome.pure s2).andThen fun s3 =>
          if s3.active_connections_num < cfg.SL_BT_CONFIG_MAX_CONNECTIONS then
            (g_call env s3 GatewayCmd.scanner_start).andThen fun s4 =>
              Outcome.pure { s4 with connection_state := bt_connection_state_enum.scanning }
          else
            Outcome.pure
              { s3 with connection_state := bt_connection_state_enum.sensor_network_full }
  else Outcome.pure s

def gateway_node_bt_advertiser_subevent_data_request (cfg : gateway_config)
    (env : GatewayEnv) (s : GatewayState) : GOutcome :=
  g_call env s
    (GatewayCmd.pawr_advertiser_set_subevent_data s.advertising_set_handle SUBEVENT_ID 0
      cfg.MAX_NUM_PERIPHERAL_NODES [s.evt_counter % 256, env.byte_after_evt_counter % 256])

def gateway_node_bt_connection_closed (cfg : gateway_config) (env : GatewayEnv)
    (s : GatewayState) (connection : Nat) : GOutcome :=
  let s1 := remove_connection cfg s connection
  if s1.connection_state ≠ bt_connection_state_enum.scanning then
    (g_call env s1 GatewayCmd.scanner_start).andThen fun s2 =>
      Outcome.pure { s2 with connection_state := bt_connection_state_enum.scanning }
  else Outcome.pure s1

/-- The handler selected by the provisioning state for a procedure-completed event. -/
def gateway_node_bt_procedure_completed (cfg : gateway_config) (env : GatewayEnv)
    (s : GatewayState) (connection result : Nat) : GOutcome :=
  match s.connection_state with
  | .discover_service => gateway_node_bt_discover_service env s connection
  | .set_peripheral_node_id => gateway_node_bt_set_peripheral_node_id env s connection
  | .set_subevent_id => gateway_node_bt_set_subevent_id env s connection
  | .set_wall_clock_time => gateway_node_bt_set_wall_clock_time env s connection
  | .set_clock_correction => gateway_node_bt_set_clock_correction env s connection result
  | .sync_process_finished =>
      gateway_node_bt_sync_process_finished cfg env s connection result
  | _ => Outcome.pure s

/-- The event dispatcher of the gateway; it asserts that `ble_time_sync_init` has run. -/
def gateway_node_on_bt_event (cfg : gateway_config) (env : GatewayEnv) (s : GatewayState)
    (evt : GatewayEvent) : GOutcome :=
  if s.ble_time_sync_initialized = true then
    match evt with
    | .system_boot => gateway_node_bt_boot cfg env s
    | .scanner_legacy_advertisement_report event_flags address address_type data =>
        gateway_node_bt_legacy_advertisement_report cfg env s event_flags address
          address_type data
    | .connection_opened connection address =>
        gateway_node_bt_connection_opened env s connection address
    | .gatt_service connection service =>
        Outcome.pure (gateway_node_bt_service s connection service)
    | .gatt_characteristic connection characteristic uuid =>
        Outcome.pure (gateway_node_bt_characteristic s connection characteristic uuid)
    | .gatt_procedure_completed connection result =>
        gateway_node_bt_procedure_completed cfg env s connection result
    | .pawr_advertiser_subevent_data_request =>
        gateway_node_bt_advertiser_subevent_data_request cfg env s
    | .connection_closed connection => gateway_node_bt_connection_closed cfg env s connection
    | .other => Outcome.pure s
  else g_halt s

/-- Handle the events of a list one after the other, each with its own environment; a
halted firmware handles nothing more. -/
def gateway_run (cfg : gateway_config) (s : GatewayState) :
    List (GatewayEnv × GatewayEvent) → GOutcome
  | [] => Outcome.pure s
  | (env, evt) :: rest =>
      (gateway_node_on_bt_event cfg env s evt).andThen fun s1 => gateway_run cfg s1 rest

/-! ### The directory of peripheral nodes as a sequence of operations -/

/-- The sentinel state of a slot: nothing discovered, no connection, not synchronised. -/
def is_sentinel (node : peripheral_node_t) : Prop :=
  node.pawr_configuration_service_handle = INVALID_NODE_SERV_HANDLE ∧
  node.peripheral_node_id_characteristic_handle = INVALID_NODE_CHAR_HANDLE ∧
  node.subevent_id_characteristic_handle = INVALID_NODE_CHAR_HANDLE ∧
  node.wall_clock_time_characteristic_handle = INVALID_NODE_CHAR_HANDLE ∧
  node.clock_correction_characteristic_handle = INVALID_NODE_CHAR_HANDLE ∧
  node.connection_handle = SL_BT_INVALID_CONNECTION_HANDLE ∧
  node.is_synchronized = false

instance (node : peripheral_node_t) : Decidable (is_sentinel node) := by
  unfold is_sentinel; infer_instance

/-- The operations on the directory. A service-discovery event is handled in whatever
provisioning state the gateway is in at that time, which is a parameter of the
operation. -/
inductive DirectoryOp where
  | add (connection address : Nat)
  | remove (connection : Nat)
  | service (connection_state : bt_connection_state_enum) (connection service : Nat)
  | characteristic (connection characteristic : Nat) (uuid : List Nat)
deriving DecidableEq, Repr

def directory_step (cfg : gateway_config) (s : GatewayState) : DirectoryOp → GatewayState
  | .add connection address => add_connection s connection address
  | .remove connection => remove_connection cfg s connection
  | .service connection_state connection service =>
      gateway_node_bt_service { s with connection_state := connection_state } connection service
  | .characteristic connection characteristic uuid =>
      gateway_node_bt_characteristic s connection characteristic uuid

def directory_run (cfg : gateway_config) (s : GatewayState) : List DirectoryOp → GatewayState
  | [] => s
  | op :: rest => directory_run cfg (directory_step cfg s op) rest

/-- Every `add` of the sequence is applied with the active length below the capacity. -/
def adds_within_capacity (cfg : gateway_config) (s : GatewayState) : List DirectoryOp → Prop
  | [] => True
  | .add connection address :: rest =>
      s.active_connections_num < cfg.MAX_NUM_PERIPHERAL_NODES ∧
      adds_within_capacity cfg (add_connection s connection address) rest
  | op :: rest => adds_within_capacity cfg (directory_step cfg s op) rest

/-- The tail of the directory is in the sentinel state: every slot at an index not below
the active length. -/
def tail_is_sentinel (s : GatewayState) : Prop :=
  ∀ i node, s.active_connections_num ≤ i → s.peripheral_nodes[i]? = some node →
    is_sentinel node

/-- The heartbeat counter of the state is `k`. -/
def evt_counter_is (k : Nat) (s : GatewayState) : Prop := s.evt_counter = k

/-- Any first payload byte carried by the command is `k mod 256`. -/
def payload_is (k : Nat) (c : GatewayCmd) : Prop :=
  ∀ data : List Nat, ∀ a b e f : Nat,
    c = GatewayCmd.pawr_advertiser_set_subevent_data a b e f data → data.head? = some (k % 256)

/-- The first payload byte of a periodic-train data command. -/
def payload_byte : GatewayCmd → Option Nat
  | .pawr_advertiser_set_subevent_data _ _ _ _ data => data.head?
  | _ => none

/-- The invariant of the directory: the table has `MAX_NUM_PERIPHERAL_NODES` slots, the
active length is within it, and the tail is in the sentinel state. -/
def directory_invariant (cfg : gateway_config) (s : GatewayState) : Prop :=
  s.peripheral_nodes.length = cfg.MAX_NUM_PERIPHERAL_NODES ∧
  s.active_connections_num ≤ cfg.MAX_NUM_PERIPHERAL_NODES ∧
  tail_is_sentinel s

/-- The operations that add the connections of a list, in order. -/
def add_all (connections : List (Nat × Nat)) : List DirectoryOp :=
  connections.map fun p => DirectoryOp.add p.1 p.2

/-- A configuration with two slots and two connections, and a 1 s broadcast interval. -/
def cfg_example : gateway_config :=
  { MAX_NUM_PERIPHERAL_NODES := 2
    SL_BT_CONFIG_MAX_CONNECTIONS := 2
    pawr_interval_units := 800 }

/-- A configuration with two slots and a stack that allows four connections. -/
def cfg_more_connections : gateway_config :=
  { MAX_NUM_PERIPHERAL_NODES := 2
    SL_BT_CONFIG_MAX_CONNECTIONS := 4
    pawr_interval_units := 800 }

/-- Advertisement data with one field: a complete list of 16-bit identifiers that holds
the configuration-service identifier. -/
def advertisement_example : List Nat := [0x03, 0x03, 0xC7, 0x98]

/-- A configuration with three slots and three connections. -/
def cfg_three : gateway_config :=
  { MAX_NUM_PERIPHERAL_NODES := 3
    SL_BT_CONFIG_MAX_CONNECTIONS := 3
    pawr_interval_units := 800 }

/-- The gateway after `ble_time_sync_init` with a callback, before the boot event. -/
def gateway_initialized (cfg : gateway_config) : GatewayState :=
  ble_time_sync_init cfg (GatewayState.init cfg) true

/-- A directory of three slots after three adds: connections 1, 2, 3 with addresses 11,
12, 13 and node ids 0, 1, 2. -/
def gateway_state_three : GatewayState :=
  directory_run cfg_three (gateway_initialized cfg_three) (add_all [(1, 11), (2, 12), (3, 13)])

/-- A six-byte device address. -/
def address_example : List Nat := [0x34, 0x12, 0, 0, 0, 0]

/-- A gateway environment at local tick `t` in which every command succeeds. -/
def genv_at (t : Nat) : GatewayEnv :=
  { tick_count := t
    status := fun _ => SL_STATUS_OK
    created_set := 0
    opened_connection := 0
    byte_after_evt_counter := 0 }

/-- An environment in which the service-discovery command fails with the invalid-handle
status and every other command succeeds. -/
def genv_invalid_handle : GatewayEnv :=
  { tick_count := 0
    status := fun c =>
      match c with
      | .gatt_discover_primary_services_by_uuid _ _ => SL_STATUS_INVALID_HANDLE
      | _ => SL_STATUS_OK
    created_set := 0
    opened_connection := 0
    byte_after_evt_counter := 0 }

/-- The gateway after `ble_time_sync_init` and the boot event: scanning, empty directory. -/
def gateway_booted (cfg : gateway_config) : GatewayState :=
  (gateway_node_on_bt_event cfg (genv_at 0) (gateway_initialized cfg)
    GatewayEvent.system_boot).state

/-- A provisioned peripheral on connection 1, with all handles discovered. -/
def node_example : peripheral_node_t :=
  { id := 0
    device_address := 0x1234
    connection_handle := 1
    pawr_configuration_service_handle := 10
    subevent_id_characteristic_handle := 27
    wall_clock_time_characteristic_handle := 21
    clock_correction_characteristic_handle := 23
    peripheral_node_id_characteristic_handle := 25
    is_synchronized := false }

/-- A gateway waiting for the acknowledgment of the wall-clock write: one peripheral on
connection 1, a second, empty slot, and wall-clock value 1000 sent. -/
def gateway_state_example : GatewayState :=
  { active_connections_num := 1
    peripheral_node_id := 0
    subevent_id := 0
    wall_clock_time := 1000
    offset := 0
    connection_state := bt_connection_state_enum.set_clock_correction
    ble_time_sync_initialized := true
    evt_counter := 0
    advertising_set_handle := 0
    connection_handle := 1
    peripheral_nodes :=
      [ node_example,
        { id := 0
          device_address := 0
          connection_handle := SL_BT_INVALID_CONNECTION_HANDLE
          pawr_configuration_service_handle := INVALID_NODE_SERV_HANDLE
          subevent_id_characteristic_handle := INVALID_NODE_CHAR_HANDLE
          wall_clock_time_characteristic_handle := INVALID_NODE_CHAR_HANDLE
          clock_correction_characteristic_handle := INVALID_NODE_CHAR_HANDLE
          peripheral_node_id_characteristic_handle := INVALID_NODE_CHAR_HANDLE
          is_synchronized := false } ]
    sync_ready_callback := true }

/-! ### The entry of a connection, for the application -/

/-- The `get_current_peripheral_node` query: the table access `peripheral_nodes[node_id]`
at the index the scan returns. `none` is a read outside the table. -/
def get_current_peripheral_node (s : GatewayState) (connection_handle : Nat) :
    Option peripheral_node_t :=
  let node_id := find_index_by_connection_handle s connection_handle
  s.peripheral_nodes[node_id]?

/-- A configuration whose broadcast interval is 6 units of 1.25 ms (0.0075 s). -/
def cfg_interval_6 : gateway_config :=
  { MAX_NUM_PERIPHERAL_NODES := 2
    SL_BT_CONFIG_MAX_CONNECTIONS := 2
    pawr_interval_units := 6 }

/-- A configuration whose broadcast interval is 7 units of 1.25 ms. -/
def cfg_interval_7 : gateway_config :=
  { MAX_NUM_PERIPHERAL_NODES := 2
    SL_BT_CONFIG_MAX_CONNECTIONS := 2
    pawr_interval_units := 7 }

/-- Advertisement data of two bytes whose first field announces the length 255. -/
def advertisement_length_255 : List Nat := [0xFF, 0x00]

/-- The events that leave the clock offset alone by their kind: every event other than a
periodic report and a write to the wall-clock or clock-correction attribute. -/
def keeps_clock_offset (db : gatt_db) : PeripheralEvent → Prop
  | .gatt_server_user_write_request _ characteristic _ _ =>
      characteristic ≠ db.gattdb_wall_clock_time ∧ characteristic ≠ db.gattdb_clock_correction
  | .pawr_sync_subevent_report _ => False
  | _ => True

/-- Events up to the discovery of the node-id characteristic of connection 1, when two
advertisement reports were queued before the scan stopped: boot, two reports (each answered
with scan-stop and connection-open), link-opened for connections 1 and 2, then the service
and the node-id characteristic of connection 1 are discovered. -/
def trace_two_links_opened : List (GatewayEnv × GatewayEvent) :=
  [ (genv_at 0, GatewayEvent.system_boot),
    (genv_at 10, GatewayEvent.scanner_legacy_advertisement_report 3 address_example 0
      advertisement_example),
    (genv_at 11, GatewayEvent.scanner_legacy_advertisement_report 3 address_example 0
      advertisement_example),
    (genv_at 20, GatewayEvent.connection_opened 1 address_example),
    (genv_at 21, GatewayEvent.connection_opened 2 address_example),
    (genv_at 30, GatewayEvent.gatt_service 1 10),
    (genv_at 40, GatewayEvent.gatt_procedure_completed 1 0),
    (genv_at 50, GatewayEvent.gatt_characteristic 1 25
      pawr_peripheral_node_id_characteristic_uuid) ]

/-- The gateway state after `trace_two_links_opened`. -/
def gateway_two_links_opened : GatewayState :=
  (gateway_run cfg_example (gateway_initialized cfg_example) trace_two_links_opened).state

/-- The successors of a provisioning state in the order of the provisioning steps
(`discover_service → set_peripheral_node_id → set_subevent_id → set_wall_clock_time →
set_clock_correction → sync_process_finished → scanning | sensor_network_full`). -/
def provisioning_successors : bt_connection_state_enum → List bt_connection_state_enum
  | .discover_service => [.set_peripheral_node_id]
  | .set_peripheral_node_id => [.set_subevent_id]
  | .set_subevent_id => [.set_wall_clock_time]
  | .set_wall_clock_time => [.set_clock_correction]
  | .set_clock_correction => [.sync_process_finished]
  | .sync_process_finished => [.scanning, .sensor_network_full]
  | _ => []

/-- The handle that the step taken in a provisioning state needs has been discovered for
the directory entry `node` (the last step, in `sync_process_finished`, needs none). -/
def step_handle_discovered : bt_connection_state_enum → peripheral_node_t → Prop
  | .discover_service, node =>
      node.pawr_configuration_service_handle ≠ INVALID_NODE_SERV_HANDLE
  | .set_peripheral_node_id, node =>
      node.peripheral_node_id_characteristic_handle ≠ INVALID_NODE_CHAR_HANDLE
  | .set_subevent_id, node =>
      node.subevent_id_characteristic_handle ≠ INVALID_NODE_CHAR_HANDLE
  | .set_wall_clock_time, node =>
      node.wall_clock_time_characteristic_handle ≠ INVALID_NODE_CHAR_HANDLE
  | .set_clock_correction, node =>
      node.clock_correction_characteristic_handle ≠ INVALID_NODE_CHAR_HANDLE
  | _, _ => True

/-- What one procedure-completed event for `connection` may do from state `s`, as seen on
the outcome `o` of its handler: the provisioning state stays or moves to a successor; it
moves only without halting, for a connection of the directory whose needed handle is
discovered; when it stays and the firmware goes on, no command was issued; when it stays,
every attribute write issued was refused by the stack. -/
def provisioning_step (env : GatewayEnv) (s : GatewayState) (connection : Nat)
    (o : GOutcome) : Prop :=
  (o.state.connection_state = s.connection_state ∨
    o.state.connection_state ∈ provisioning_successors s.connection_state) ∧
  (o.state.connection_state ≠ s.connection_state →
    o.halted = false ∧
    find_index_by_connection_handle s connection ≠ INVALID_TABLE_INDEX ∧
    ∃ node : peripheral_node_t,
      s.peripheral_nodes[find_index_by_connection_handle s connection]? = some node ∧
      node.connection_handle = connection ∧
      step_handle_discovered s.connection_state node) ∧
  (o.state.connection_state = s.connection_state → o.halted = false → o.cmds = []) ∧
  (o.state.connection_state = s.connection_state →
    ∀ c ∈ o.cmds, ∀ link characteristic value,
      c = GatewayCmd.gatt_write_characteristic_value link characteristic value →
      env.status c ≠ SL_STATUS_OK)

/-- Number of sync-acquired events (sync-transfer events with status OK) in a list. -/
def count_acquisitions : List (PeripheralEnv × PeripheralEvent) → Nat
  | [] => 0
  | (_, .pawr_sync_transfer_received status _ _) :: rest =>
      (if status = SL_STATUS_OK then 1 else 0) + count_acquisitions rest
  | _ :: rest => count_acquisitions rest

/-- The invariant of the drift tracker: the last accepted tick error is at most
`tick_error_max` in absolute value, and `tick_error_max` and `clock_offset` are `int32_t`
values. -/
def drift_invariant (s : PeripheralState) : Prop :=
  |s.last_subevent_tick_error| ≤ s.tick_error_max ∧
  s.tick_error_max < 2147483648 ∧
  -2147483648 ≤ s.time_sync_handle.clock_offset ∧
  s.time_sync_handle.clock_offset < 2147483648

/-- The node ids of the active entries are pairwise different. -/
def distinct_node_ids (s : GatewayState) : Prop :=
  ∀ i j a b, i < j → j < s.active_connections_num →
    s.peripheral_nodes[i]? = some a → s.peripheral_nodes[j]? = some b → a.id ≠ b.id

/-- Every `add` of the sequence is applied with the active length below the capacity and
while no active entry has the id that `add_connection` assigns, the active length. -/
def adds_with_fresh_id (cfg : gateway_config) (s : GatewayState) : List DirectoryOp → Prop
  | [] => True
  | .add connection address :: rest =>
      s.active_connections_num < cfg.MAX_NUM_PERIPHERAL_NODES ∧
      (∀ node ∈ s.peripheral_nodes.take s.active_connections_num,
        node.id ≠ s.active_connections_num) ∧
      adds_with_fresh_id cfg (add_connection s connection address) rest
  | op :: rest => adds_with_fresh_id cfg (directory_step cfg s op) rest

/-- Two adds, the removal of the first connection, and a third add. -/
def ops_add_after_remove : List DirectoryOp :=
  [DirectoryOp.add 1 11, DirectoryOp.add 2 12, DirectoryOp.remove 1, DirectoryOp.add 3 13]

/-- Two adds, the removal of the second (last) connection, and a third add. -/
def ops_add_after_remove_last : List DirectoryOp :=
  [DirectoryOp.add 1 11, DirectoryOp.add 2 12, DirectoryOp.remove 2, DirectoryOp.add 3 13]

/-- An advertisement field as the specification describes it: a type byte and data bytes,
sent with a length prefix. -/
structure ad_field where
  type : Nat
  body : List Nat
deriving DecidableEq, Repr

/-- The bytes of a length-prefixed field: the length of what follows (type byte and data),
the type byte, the data. -/
def ad_field.encode (f : ad_field) : List Nat := (f.body.length + 1) :: f.type :: f.body

/-- The payload made of the fields of a list, one after the other: the fields fill it
exactly. -/
def encode_fields : List ad_field → List Nat
  | [] => []
  | f :: rest => f.encode ++ encode_fields rest

/-- Every type byte, length byte and data byte of the fields fits a byte. -/
def well_formed_fields (fields : List ad_field) : Prop :=
  ∀ f ∈ fields, f.type < 256 ∧ f.body.length + 1 < 256 ∧ ∀ b ∈ f.body, b < 256

/-- The data of a field, read as a list of 16-bit identifiers, contains the
configuration-service identifier `C7 98` as one of its entries. -/
def spec_list_contains_identifier (body : List Nat) : Prop :=
  ∃ k, body[2 * k]? = some 0xC7 ∧ body[2 * k + 1]? = some 0x98

/-- Some field is an identifier list (type `0x02` or `0x03`) whose type byte is followed, in
the fields and then the bytes `rest` behind them, by `C7 98`. -/
def first_bytes_match (rest : List Nat) : List ad_field → Prop
  | [] => False
  | f :: post =>
      ((f.type = 0x02 ∨ f.type = 0x03) ∧
        byte_at (f.body ++ encode_fields post ++ rest) 0 = 0xC7 ∧
        byte_at (f.body ++ encode_fields post ++ rest) 1 = 0x98) ∨
      first_bytes_match rest post

/-- One identifier-list field with the identifiers `180A` and `98C7`, in this order. -/
def fields_second_identifier : List ad_field :=
  [{ type := 0x03, body := [0x0A, 0x18, 0xC7, 0x98] }]

/-- One identifier-list field whose only identifier is `98C7`, after a flags field. -/
def fields_first_identifier : List ad_field :=
  [{ type := 0x01, body := [0x06] }, { type := 0x03, body := [0xC7, 0x98] }]

/-- The command is not a call of the sync-ready callback. -/
def not_sync_ready_callback (c : GatewayCmd) : Prop :=
  ∀ connection, c ≠ GatewayCmd.sync_ready_callback connection

/-- No condition on the state. -/
def any_state (_ : GatewayState) : Prop := True

/-- Number of calls of the sync-ready callback for `connection` among the commands. -/
def callbacks_for (connection : Nat) (cmds : List GatewayCmd) : Nat :=
  cmds.count (GatewayCmd.sync_ready_callback connection)

/-- The event is a procedure-completed event for `connection`. -/
def is_completion_for (connection : Nat) : GatewayEvent → Bool
  | .gatt_procedure_completed c _ => c == connection
  | _ => false

/-- Number of procedure-completed events for `connection` that a run handles in state
`sync_process_finished`. -/
def completions_for (cfg : gateway_config) (connection : Nat) :
    GatewayState → List (GatewayEnv × GatewayEvent) → Nat
  | _, [] => 0
  | s, (env, evt) :: rest =>
      (if s.connection_state = bt_connection_state_enum.sync_process_finished ∧
          is_completion_for connection evt = true then 1 else 0)
      + (if (gateway_node_on_bt_event cfg env s evt).halted then 0
         else completions_for cfg connection (gateway_node_on_bt_event cfg env s evt).state rest)

/-- The event is a link-closed event. -/
def is_connection_closed : GatewayEvent → Bool
  | .connection_closed _ => true
  | _ => false

/-- The four characteristic-discovery events of a peripheral on `connection`. -/
def characteristics_discovered (connection : Nat) : List (GatewayEnv × GatewayEvent) :=
  [ (genv_at 0, GatewayEvent.gatt_characteristic connection 25
      pawr_peripheral_node_id_characteristic_uuid),
    (genv_at 0, GatewayEvent.gatt_characteristic connection 27
      pawr_subevent_id_characteristic_uuid),
    (genv_at 0, GatewayEvent.gatt_characteristic connection 21
      pawr_wall_clock_time_characteristic_uuid),
    (genv_at 0, GatewayEvent.gatt_characteristic connection 23
      pawr_clock_correction_characteristic_uuid) ]

/-- The events from an advertisement report to the last attribute write of the provisioning
of a peripheral on `connection`: report, link-opened, service discovered, discovery
completed, characteristics discovered, discovery completed (node-id write), and the
completions of the node-id, subevent-id and wall-clock writes. The gateway is then in state
`sync_process_finished`. -/
def provision_up_to_last_write (connection : Nat) : List (GatewayEnv × GatewayEvent) :=
  [ (genv_at 0, GatewayEvent.scanner_legacy_advertisement_report 3 address_example 0
      advertisement_example),
    (genv_at 0, GatewayEvent.connection_opened connection address_example),
    (genv_at 0, GatewayEvent.gatt_service connection 10),
    (genv_at 0, GatewayEvent.gatt_procedure_completed connection 0) ]
  ++ characteristics_discovered connection ++
  [ (genv_at 0, GatewayEvent.gatt_procedure_completed connection 0),
    (genv_at 0, GatewayEvent.gatt_procedure_completed connection 0),
    (genv_at 1000, GatewayEvent.gatt_procedure_completed connection 0),
    (genv_at 1050, GatewayEvent.gatt_procedure_completed connection 0) ]

/-- Connection 1 is provisioned (its last write completes: first notification), connection 2
is provisioned up to its last write, and then one more procedure-completed event for
connection 1 arrives. No link is closed. -/
def trace_second_notification : List (GatewayEnv × GatewayEvent) :=
  [(genv_at 0, GatewayEvent.system_boot)]
  ++ provision_up_to_last_write 1
  ++ [(genv_at 1100, GatewayEvent.gatt_procedure_completed 1 0)]
  ++ provision_up_to_last_write 2
  ++ [(genv_at 2000, GatewayEvent.gatt_procedure_completed 1 0)]

theorem i32_u32 (x : Int) : i32 (u32 x) = i32 x := by
  unfold i32 u32; omega

theorem i32_sub_i32 (a b : Int) : i32 (a - i32 b) = i32 (a - b) := by
  unfold i32; omega

theorem i32_range (x : Int) : -2147483648 ≤ i32 x ∧ i32 x < 2147483648 := by
  unfold i32; omega

theorem i32_of_range (x : Int) (h : -2147483648 ≤ x ∧ x < 2147483648) : i32 x = x := by
  unfold i32; omega

theorem read_u32_le32_bytes (x : Nat) (h : x < 4294967296) : read_u32 (le32_bytes x) = x := by
  simp only [read_u32, le32_bytes, byte_at, List.getD_cons_zero, List.getD_cons_succ]
  omega

theorem read_u32_lt (data : List Nat) : read_u32 data < 4294967296 := by
  simp only [read_u32, byte_at]
  omega

/-! ## Lemmas on the report handler -/

theorem ticks_elapsed_eq_abs (tick_now last : Nat) :
    (ticks_elapsed tick_now last : Int) = |i32 ((tick_now : Int) - last)| := by
  unfold ticks_elapsed
  simp only [i32_u32]
  rcases abs_cases (i32 ((tick_now : Int) - last)) with ⟨h1, h2⟩ | ⟨h1, h2⟩
  · rw [h1, if_neg (by omega)]; unfold i32 u32 at *; omega
  · rw [h1, if_pos (by omega)]; unfold i32 u32 at *; omega

/-- The handler rejects exactly when the signed tick error exceeds the bound in absolute
value, provided the bound is an `int32_t` other than `INT32_MIN`. -/
theorem reject_iff (te M : Int) (hM : -2147483648 < M ∧ M < 2147483648) :
    (te > M ∨ te < i32 (-M)) ↔ ¬ |te| ≤ M := by
  have h : i32 (-M) = -M := by unfold i32; omega
  rw [h, abs_le]; omega

/-- The complete-report branch of the handler, with the tick error written out. -/
theorem report_complete (env : PeripheralEnv) (s : PeripheralState)
    (hM : -2147483648 < s.tick_error_max ∧ s.tick_error_max < 2147483648) :
    peripheral_node_bt_sync_subevent_report env s 0 =
      if |i32 (|i32 ((env.tick_count : Int) - s.last_subevent_timestamp)|
            - s.time_sync_handle.pawr_interval_ticks)| ≤ s.tick_error_max then
        { s with
          time_sync_handle := { s.time_sync_handle with
            clock_offset := i32 (s.time_sync_handle.clock_offset
              - i32 (|i32 ((env.tick_count : Int) - s.last_subevent_timestamp)|
                  - s.time_sync_handle.pawr_interval_ticks)) }
          last_subevent_tick_error :=
            i32 (|i32 ((env.tick_count : Int) - s.last_subevent_timestamp)|
                  - s.time_sync_handle.pawr_interval_ticks)
          last_subevent_timestamp := env.tick_count }
      else
        { s with
          time_sync_handle := { s.time_sync_handle with
            clock_offset := i32 (s.time_sync_handle.clock_offset - s.last_subevent_tick_error) }
          last_subevent_timestamp := env.tick_count } := by
  unfold peripheral_node_bt_sync_subevent_report
  simp only [if_true, i32_u32, ticks_elapsed_eq_abs]
  by_cases h : |i32 (|i32 ((env.tick_count : Int) - s.last_subevent_timestamp)|
            - s.time_sync_handle.pawr_interval_ticks)| ≤ s.tick_error_max
  · rw [if_pos h, if_neg]
    rw [reject_iff _ _ hM]; exact not_not.mpr h
  · rw [if_neg h, if_pos]
    rw [reject_iff _ _ hM]; exact h

/-! ## Peripheral drift tracker: periodic reports -/

/-- C1. Drift acceptance. For a complete report (`data_status = 0`) handled at tick `now`,
with `E = |now - last_subevent_timestamp|` (the 32-bit difference read as signed, then made
non-negative), `N = pawr_interval_ticks`, `M = tick_error_max` and the signed 32-bit tick
error `E - N`: the handler subtracts `E - N` from `clock_offset` when the tick error is at
most `M` in absolute value, and otherwise subtracts `last_subevent_tick_error`. The
absolute value of the 32-bit tick error is the integer `|E - N|` whenever `N ≤ 2^31`.
`M` is an `int32_t` other than `INT32_MIN`, whose negation is not an `int32_t`. -/
theorem subevent_report_drift_acceptance (env : PeripheralEnv) (s : PeripheralState)
    (hM : -2147483648 < s.tick_error_max ∧ s.tick_error_max < 2147483648) :
    let E : Int := |i32 ((env.tick_count : Int) - s.last_subevent_timestamp)|
    let N : Int := s.time_sync_handle.pawr_interval_ticks
    let M : Int := s.tick_error_max
    let tick_error : Int := i32 (E - N)
    let s' := peripheral_node_bt_sync_subevent_report env s 0
    (|tick_error| ≤ M →
      s'.time_sync_handle.clock_offset = i32 (s.time_sync_handle.clock_offset - (E - N))) ∧
    (¬ |tick_error| ≤ M →
      s'.time_sync_handle.clock_offset =
        i32 (s.time_sync_handle.clock_offset - s.last_subevent_tick_error)) ∧
    (N ≤ 2147483648 → |tick_error| = |E - N|) := by
  intro E N M tick_error s'
  have hs : s' = _ := report_complete env s hM
  refine ⟨fun h => ?_, fun h => ?_, fun h => ?_⟩
  · rw [hs, if_pos h]; exact i32_sub_i32 _ _
  · rw [hs, if_neg h]
  · have hE : 0 ≤ E ∧ E ≤ 2147483648 := by
      refine ⟨abs_nonneg _, ?_⟩
      have := i32_range ((env.tick_count : Int) - s.last_subevent_timestamp)
      exact abs_le.mpr ⟨by omega, by omega⟩
    have hN : (0 : Int) ≤ N := Int.ofNat_nonneg _
    show |i32 (E - N)| = |E - N|
    by_cases hd : E - N = 2147483648
    · rw [hd]; decide
    · have : i32 (E - N) = E - N := by unfold i32; omega
      rw [this]

/-- Witness of C1: a report at tick 32768 after one at tick 0, with `N = 32767`, `M = 1`. -/
theorem subevent_report_drift_acceptance_witness :
    (-2147483648 < state_example.tick_error_max ∧ state_example.tick_error_max < 2147483648) ∧
    (peripheral_node_bt_sync_subevent_report (env_at 32768) state_example
      0).time_sync_handle.clock_offset = -1 := by
  have hM : -2147483648 < state_example.tick_error_max ∧
      state_example.tick_error_max < 2147483648 := by decide
  refine ⟨hM, ?_⟩
  have h := (subevent_report_drift_acceptance (env_at 32768) state_example hM).1 (by decide)
  rw [h]; decide

/-- C3. A report whose `data_status` is not 0 (not complete) leaves `clock_offset`,
`last_subevent_timestamp` and the last accepted tick error unchanged; indeed it leaves
the whole peripheral state unchanged. -/
theorem subevent_report_incomplete (env : PeripheralEnv) (s : PeripheralState)
    (data_status : Nat) (h : data_status ≠ 0) :
    let s' := peripheral_node_bt_sync_subevent_report env s data_status
    s'.time_sync_handle.clock_offset = s.time_sync_handle.clock_offset ∧
    s'.last_subevent_timestamp = s.last_subevent_timestamp ∧
    s'.last_subevent_tick_error = s.last_subevent_tick_error ∧
    s' = s := by
  intro s'
  have hs : s' = s := by
    show peripheral_node_bt_sync_subevent_report env s data_status = s
    unfold peripheral_node_bt_sync_subevent_report
    rw [if_neg h]
  rw [hs]; exact ⟨rfl, rfl, rfl, rfl⟩

/-- Witness of C3: a report with `data_status = 1` at tick 77. -/
theorem subevent_report_incomplete_witness :
    (1 : Nat) ≠ 0 ∧
    peripheral_node_bt_sync_subevent_report (env_at 77) state_example 1 = state_example :=
  ⟨by decide, (subevent_report_incomplete (env_at 77) state_example 1 (by decide)).2.2.2⟩

/-! ## Peripheral attribute writes -/

theorem write_request_state (db : gatt_db) (env : PeripheralEnv) (s : PeripheralState)
    (connection characteristic att_opcode : Nat) (value : List Nat) :
    (peripheral_node_bt_write_request db env s connection characteristic att_opcode value).state
      = write_request_update db env s characteristic value := by
  unfold peripheral_node_bt_write_request
  by_cases h : att_opcode = sl_bt_gatt_write_request
  · simp only [h, if_true, p_call]
  · simp only [h, if_false, Outcome.pure]

theorem wall_clock_offset (w : Nat) (t : Nat) :
    i32 (u32 (i32 (w : Int) - (t : Int))) = i32 ((w : Int) - t) := by
  unfold i32 u32; omega

theorem correction_offset (x : Int) (c : Nat) : i32 (u32 (x + (c : Int))) = i32 (x + c) := by
  unfold i32 u32; omega

theorem write_wall_clock_update (db : gatt_db) (env : PeripheralEnv) (s : PeripheralState)
    (value : List Nat) (hdb : db.distinct) :
    write_request_update db env s db.gattdb_wall_clock_time value =
      { s with time_sync_handle := { s.time_sync_handle with
          clock_offset := i32 ((read_u32 value : Int) - env.tick_count) } } := by
  obtain ⟨h1, h2, h3, -, -, -⟩ := hdb
  unfold write_request_update
  simp only [if_true, if_neg h1, if_neg h2, if_neg h3, wall_clock_offset]

theorem write_clock_correction_update (db : gatt_db) (env : PeripheralEnv)
    (s : PeripheralState) (value : List Nat) (hdb : db.distinct) :
    write_request_update db env s db.gattdb_clock_correction value =
      { s with time_sync_handle := { s.time_sync_handle with
          clock_offset := i32 (s.time_sync_handle.clock_offset + (read_u32 value : Int)) } } := by
  obtain ⟨h1, -, -, h4, h5, -⟩ := hdb
  unfold write_request_update
  simp only [if_true, if_neg (Ne.symm h1), if_neg h4, if_neg h5, correction_offset]

theorem write_node_id_update (db : gatt_db) (env : PeripheralEnv) (s : PeripheralState)
    (value : List Nat) (hdb : db.distinct) :
    write_request_update db env s db.gattdb_peripheral_node_id value =
      { s with time_sync_handle := { s.time_sync_handle with id := byte_at value 0 } } := by
  obtain ⟨-, h2, -, h4, -, h6⟩ := hdb
  unfold write_request_update
  simp only [if_true, if_neg (Ne.symm h2), if_neg (Ne.symm h4), if_neg h6]

theorem write_subevent_id_update (db : gatt_db) (env : PeripheralEnv) (s : PeripheralState)
    (value : List Nat) (hdb : db.distinct) :
    write_request_update db env s db.gattdb_subevent_id value =
      { s with time_sync_handle := { s.time_sync_handle with subevent_id := byte_at value 0 } } := by
  obtain ⟨-, -, h3, -, h5, h6⟩ := hdb
  unfold write_request_update
  simp only [if_true, if_neg (Ne.symm h3), if_neg (Ne.symm h5), if_neg (Ne.symm h6)]

/-- C4. A write of the 4-byte value `W` to the wall-clock characteristic, handled at local
tick `now`, sets `clock_offset` to `W - now` in 32-bit wrap-around arithmetic read as
signed, whatever the previous offset was, and leaves the node id and the subevent id
unchanged. The attribute identifiers of the GATT database are pairwise different. -/
theorem write_wall_clock_sets_offset (db : gatt_db) (env : PeripheralEnv)
    (s : PeripheralState) (connection att_opcode W : Nat) (hdb : db.distinct)
    (hW : W < 4294967296) :
    let o := peripheral_node_on_bt_event db env s
      (PeripheralEvent.gatt_server_user_write_request connection db.gattdb_wall_clock_time
        att_opcode (le32_bytes W))
    o.state.time_sync_handle.clock_offset = i32 ((W : Int) - env.tick_count) ∧
    o.state.time_sync_handle.id = s.time_sync_handle.id ∧
    o.state.time_sync_handle.subevent_id = s.time_sync_handle.subevent_id := by
  intro o
  have ho : o.state = _ := write_request_state db env s connection db.gattdb_wall_clock_time
    att_opcode (le32_bytes W)
  rw [write_wall_clock_update db env s _ hdb, read_u32_le32_bytes W hW] at ho
  rw [ho]; exact ⟨rfl, rfl, rfl⟩

/-- Witness of C4: wall-clock value 1000 written at local tick 400 gives offset 600. -/
theorem write_wall_clock_sets_offset_witness :
    db_example.distinct ∧ (1000 : Nat) < 4294967296 ∧
    (peripheral_node_on_bt_event db_example (env_at 400) state_example
      (PeripheralEvent.gatt_server_user_write_request 1 db_example.gattdb_wall_clock_time
        sl_bt_gatt_write_request (le32_bytes 1000))).state.time_sync_handle.clock_offset
      = 600 := by
  have hdb : db_example.distinct := by decide
  refine ⟨hdb, by decide, ?_⟩
  rw [(write_wall_clock_sets_offset db_example (env_at 400) state_example 1
    sl_bt_gatt_write_request 1000 hdb (by decide)).1]
  decide

/-- Counterexample to C5 as stated: writing the clock correction 1 twice leaves offset 2,
writing it once leaves offset 1, so the clock-correction handler is not idempotent. -/
theorem clock_correction_write_not_idempotent :
    db_example.distinct ∧
    (peripheral_node_bt_write_request db_example (env_at 0)
      (peripheral_node_bt_write_request db_example (env_at 0) PeripheralState.init 1
        db_example.gattdb_clock_correction sl_bt_gatt_write_request (le32_bytes 1)).state 1
      db_example.gattdb_clock_correction sl_bt_gatt_write_request
      (le32_bytes 1)).state.time_sync_handle
    ≠ (peripheral_node_bt_write_request db_example (env_at 0) PeripheralState.init 1
        db_example.gattdb_clock_correction sl_bt_gatt_write_request
        (le32_bytes 1)).state.time_sync_handle := by
  refine ⟨by decide, ?_⟩
  decide

theorem i32_add_twice (x : Int) (c : Nat) : i32 (i32 (x + c) + c) = i32 (x + 2 * c) := by
  unfold i32; omega

theorem i32_add_twice_eq_iff (x : Int) (c : Nat) (hc : c < 4294967296) :
    i32 (x + 2 * c) = i32 (x + c) ↔ c = 0 := by
  unfold i32; omega

/-- C5, amended. With pairwise different attribute identifiers and the local tick count
unchanged, the node-id, subevent-id and wall-clock write handlers are idempotent: handling
the same write twice leaves the same state (hence the same `time_sync_handle`) as handling
it once. The clock-correction handler adds the written value `C` to the offset on every
write: once gives `offset + C`, twice gives `offset + 2·C` (32-bit wrap-around), and the
two handles agree only when `C = 0`. -/
theorem write_handlers_idempotence (db : gatt_db) (env : PeripheralEnv)
    (s : PeripheralState) (connection att_opcode : Nat) (value : List Nat)
    (hdb : db.distinct) :
    let once := fun characteristic =>
      (peripheral_node_bt_write_request db env s connection characteristic att_opcode
        value).state
    let twice := fun characteristic =>
      (peripheral_node_bt_write_request db env (once characteristic) connection
        characteristic att_opcode value).state
    twice db.gattdb_peripheral_node_id = once db.gattdb_peripheral_node_id ∧
    twice db.gattdb_subevent_id = once db.gattdb_subevent_id ∧
    twice db.gattdb_wall_clock_time = once db.gattdb_wall_clock_time ∧
    (once db.gattdb_clock_correction).time_sync_handle.clock_offset
      = i32 (s.time_sync_handle.clock_offset + (read_u32 value : Int)) ∧
    (twice db.gattdb_clock_correction).time_sync_handle.clock_offset
      = i32 (s.time_sync_handle.clock_offset + 2 * (read_u32 value : Int)) ∧
    ((twice db.gattdb_clock_correction).time_sync_handle
        = (once db.gattdb_clock_correction).time_sync_handle ↔ read_u32 value = 0) := by
  intro once twice
  have h1 : ∀ c, once c = write_request_update db env s c value :=
    fun c => write_request_state db env s connection c att_opcode value
  have h2 : ∀ c, twice c = write_request_update db env (once c) c value :=
    fun c => write_request_state db env (once c) connection c att_opcode value
  clear_value once twice
  refine ⟨?_, ?_, ?_, ?_, ?_, ?_⟩
  · rw [h2, h1, write_node_id_update db env s value hdb, write_node_id_update db env _ value hdb]
  · rw [h2, h1, write_subevent_id_update db env s value hdb,
      write_subevent_id_update db env _ value hdb]
  · rw [h2, h1, write_wall_clock_update db env s value hdb,
      write_wall_clock_update db env _ value hdb]
  · rw [h1, write_clock_correction_update db env s value hdb]
  · rw [h2, h1, write_clock_correction_update db env s value hdb,
      write_clock_correction_update db env _ value hdb]
    exact i32_add_twice _ _
  · rw [h2, h1, write_clock_correction_update db env s value hdb,
      write_clock_correction_update db env _ value hdb]
    constructor
    · intro h
      have h' := congrArg time_sync_handle_t.clock_offset h
      have h'' : i32 (i32 (s.time_sync_handle.clock_offset + (read_u32 value : Int))
          + (read_u32 value : Int))
          = i32 (s.time_sync_handle.clock_offset + (read_u32 value : Int)) := h'
      rw [i32_add_twice] at h''
      exact (i32_add_twice_eq_iff _ _ (read_u32_lt value)).mp h''
    · intro h
      rw [h]
      simp only [Nat.cast_zero, add_zero, i32_add_twice, mul_zero]
      have hi : i32 (i32 s.time_sync_handle.clock_offset) = i32 s.time_sync_handle.clock_offset := by
        have := i32_add_twice s.time_sync_handle.clock_offset 0
        simpa using this
      simp only [hi]

/-- Witness of C5 (amended): a node-id write of 7, repeated, from the initial state. -/
theorem write_handlers_idempotence_witness :
    db_example.distinct ∧
    (peripheral_node_bt_write_request db_example (env_at 0)
      (peripheral_node_bt_write_request db_example (env_at 0) PeripheralState.init 1
        db_example.gattdb_peripheral_node_id sl_bt_gatt_write_request [7]).state 1
      db_example.gattdb_peripheral_node_id sl_bt_gatt_write_request [7]).state
    = (peripheral_node_bt_write_request db_example (env_at 0) PeripheralState.init 1
        db_example.gattdb_peripheral_node_id sl_bt_gatt_write_request [7]).state :=
  ⟨by decide, (write_handlers_idempotence db_example (env_at 0) PeripheralState.init 1
    sl_bt_gatt_write_request [7] (by decide)).1⟩

/-! ## Peripheral: acquisition and loss of the periodic-train synchronisation -/

/-- The state left by a sync-transfer event with status OK. -/
theorem sync_transfer_received_ok_state (env : PeripheralEnv) (s : PeripheralState)
    (sync adv_interval : Nat) :
    (peripheral_node_bt_sync_transfer_received env s SL_STATUS_OK sync adv_interval).state =
      { s with
        last_subevent_timestamp := env.tick_count
        tick_error_max :=
          tick_error_20_ppm (correct_36_ppm (env.ms32_to_tick (10 * adv_interval / 8)))
        time_sync_handle := { s.time_sync_handle with
          sync_handle := sync
          pawr_interval_ticks := correct_36_ppm (env.ms32_to_tick (10 * adv_interval / 8)) } } := by
  unfold peripheral_node_bt_sync_transfer_received
  simp only [if_true, p_call]

theorem tick_error_20_ppm_eq (n : Nat) :
    tick_error_20_ppm n = ((20 * n % 4294967296 / 1000000 : Nat) : Int) ∧
    (0 : Int) ≤ tick_error_20_ppm n ∧ tick_error_20_ppm n ≤ 4294 := by
  have hq : 20 * n % 4294967296 / 1000000 ≤ 4294 := by omega
  unfold tick_error_20_ppm
  generalize 20 * n % 4294967296 / 1000000 = q at hq ⊢
  rw [i32_of_range _ (by omega)]
  omega

theorem tick_error_20_ppm_floor (n : Nat) (h : 20 * n < 4294967296) :
    tick_error_20_ppm n = ((20 * n / 1000000 : Nat) : Int) ∧
    tick_error_20_ppm n ≤ (tick_error_max_rounded n : Int) ∧
    (tick_error_max_rounded n : Int) ≤ tick_error_20_ppm n + 1 := by
  have hm : 20 * n % 4294967296 = 20 * n := Nat.mod_eq_of_lt h
  have hr : 20 * n / 1000000 ≤ tick_error_max_rounded n ∧
      tick_error_max_rounded n ≤ 20 * n / 1000000 + 1 := by
    unfold tick_error_max_rounded; omega
  rw [(tick_error_20_ppm_eq n).1, hm]
  omega

/-- Counterexample to C7 as stated: a sync-transfer event with status OK and advertised
interval 800 (1 s) on a 32768 Hz timer stores `pawr_interval_ticks = 32767` and
`tick_error_max = 0`, whereas 32767 × 20 / 1,000,000 rounded to the nearest integer is 1. -/
theorem tick_error_max_not_rounded :
    (peripheral_node_on_bt_event db_example (env_at 0) PeripheralState.init
      (PeripheralEvent.pawr_sync_transfer_received SL_STATUS_OK 5
        800)).state.time_sync_handle.pawr_interval_ticks = 32767 ∧
    (peripheral_node_on_bt_event db_example (env_at 0) PeripheralState.init
      (PeripheralEvent.pawr_sync_transfer_received SL_STATUS_OK 5 800)).state.tick_error_max = 0 ∧
    tick_error_max_rounded 32767 = 1 ∧
    (peripheral_node_on_bt_event db_example (env_at 0) PeripheralState.init
      (PeripheralEvent.pawr_sync_transfer_received SL_STATUS_OK 5 800)).state.tick_error_max
      ≠ (tick_error_max_rounded
          (peripheral_node_on_bt_event db_example (env_at 0) PeripheralState.init
            (PeripheralEvent.pawr_sync_transfer_received SL_STATUS_OK 5
              800)).state.time_sync_handle.pawr_interval_ticks : Int) := by
  decide

/-- C7, amended. After every sync-transfer event with status OK, `tick_error_max` is
`20 × N / 1,000,000` rounded down (the `uint32_t` product divided with truncation), where
`N` is the `pawr_interval_ticks` stored by the same event; it lies between 0 and 4294;
when `20 × N` fits 32 bits it is the rounded-to-nearest value or one less; `N = 32767`
gives `tick_error_max = 0`. -/
theorem tick_error_max_truncated (db : gatt_db) (env : PeripheralEnv) (s : PeripheralState)
    (sync adv_interval : Nat) :
    let o := peripheral_node_on_bt_event db env s
      (PeripheralEvent.pawr_sync_transfer_received SL_STATUS_OK sync adv_interval)
    let N := o.state.time_sync_handle.pawr_interval_ticks
    o.state.tick_error_max = ((20 * N % 4294967296 / 1000000 : Nat) : Int) ∧
    (0 ≤ o.state.tick_error_max ∧ o.state.tick_error_max ≤ 4294) ∧
    (20 * N < 4294967296 →
      o.state.tick_error_max = ((20 * N / 1000000 : Nat) : Int) ∧
      o.state.tick_error_max ≤ (tick_error_max_rounded N : Int) ∧
      (tick_error_max_rounded N : Int) ≤ o.state.tick_error_max + 1) ∧
    (N = 32767 → o.state.tick_error_max = 0) := by
  intro o N
  have ho : o.state = _ := sync_transfer_received_ok_state env s sync adv_interval
  have hN : N = correct_36_ppm (env.ms32_to_tick (10 * adv_interval / 8)) := by
    show o.state.time_sync_handle.pawr_interval_ticks = _
    rw [ho]
  have hM : o.state.tick_error_max = tick_error_20_ppm N := by rw [ho, hN]
  clear_value o N
  rw [hM]
  refine ⟨(tick_error_20_ppm_eq N).1, (tick_error_20_ppm_eq N).2, tick_error_20_ppm_floor N, ?_⟩
  intro h
  rw [h]; decide

/-- Witness of C7 (amended): advertised interval 800 at 32768 Hz, where `20 × N` fits. -/
theorem tick_error_max_truncated_witness :
    20 * (peripheral_node_on_bt_event db_example (env_at 0) PeripheralState.init
      (PeripheralEvent.pawr_sync_transfer_received SL_STATUS_OK 5
        800)).state.time_sync_handle.pawr_interval_ticks < 4294967296 ∧
    (peripheral_node_on_bt_event db_example (env_at 0) PeripheralState.init
      (PeripheralEvent.pawr_sync_transfer_received SL_STATUS_OK 5 800)).state.tick_error_max
      = ((20 * (peripheral_node_on_bt_event db_example (env_at 0) PeripheralState.init
          (PeripheralEvent.pawr_sync_transfer_received SL_STATUS_OK 5
            800)).state.time_sync_handle.pawr_interval_ticks / 1000000 : Nat) : Int) :=
  ⟨by decide, ((tick_error_max_truncated db_example (env_at 0) PeripheralState.init 5
    800).2.2.1 (by decide)).1⟩

theorem correct_36_ppm_no_overflow (t : Nat) (h36 : 36 * t < 4294967296) :
    36 * t / 1000000 ≤ t ∧ correct_36_ppm t = t - 36 * t / 1000000 ∧ correct_36_ppm t ≤ t := by
  have hm : 36 * t % 4294967296 = 36 * t := Nat.mod_eq_of_lt h36
  have hq : 36 * t / 1000000 ≤ t := by omega
  have hc : correct_36_ppm t = t - 36 * t / 1000000 := by
    unfold correct_36_ppm u32
    rw [hm]
    generalize 36 * t / 1000000 = q at hq ⊢
    omega
  rw [hc]
  omega

theorem correct_36_ppm_32768 (ms t : Nat) (hms : ms ≤ 81918) (ht : t ≤ ms_to_tick_32768 ms) :
    t < 4294967296 ∧ 36 * t < 4294967296 ∧ 20 * correct_36_ppm t < 4294967296 := by
  unfold ms_to_tick_32768 at ht
  have ht' : t ≤ 2684290 := by omega
  have h36 : 36 * t < 4294967296 := by omega
  have := (correct_36_ppm_no_overflow t h36).2.2
  omega

/-- C8. On a sync-transfer event with status OK and a 16-bit advertised interval `a` (in
units of 1.25 ms), let `t` be the tick conversion of the integer millisecond value
`⌊10·a / 8⌋` (`10·a` fits 32 bits). Whenever `36·t` fits 32 bits the stored nominal
interval is `N = t − ⌊36·t / 1,000,000⌋`, with `N ≤ t`. On a 32768 Hz timer (`t` is at most
the rounded-up tick count) no 32-bit intermediate overflows: `t`, `36·t` and `20·N` fit,
`⌊36·t / 1,000,000⌋ ≤ t`, and so `N = t − ⌊36·t / 1,000,000⌋ ≤ t` for every 16-bit `a`. -/
theorem nominal_interval_36_ppm (db : gatt_db) (env : PeripheralEnv) (s : PeripheralState)
    (sync a : Nat) (ha : a < 65536) :
    let t := env.ms32_to_tick (10 * a / 8)
    let N := (peripheral_node_on_bt_event db env s
      (PeripheralEvent.pawr_sync_transfer_received SL_STATUS_OK sync
        a)).state.time_sync_handle.pawr_interval_ticks
    10 * a < 2147483648 ∧
    (36 * t < 4294967296 → N = t - 36 * t / 1000000 ∧ N ≤ t) ∧
    (t ≤ ms_to_tick_32768 (10 * a / 8) →
      t < 4294967296 ∧ 36 * t < 4294967296 ∧ 36 * t / 1000000 ≤ t ∧
      20 * N < 4294967296 ∧ N = t - 36 * t / 1000000 ∧ N ≤ t) := by
  intro t N
  have hN : N = correct_36_ppm t := by
    show (peripheral_node_bt_sync_transfer_received env s SL_STATUS_OK sync
      a).state.time_sync_handle.pawr_interval_ticks = _
    rw [sync_transfer_received_ok_state]
  clear_value N
  have hms : 10 * a / 8 ≤ 81918 := by omega
  rw [hN]
  refine ⟨by omega, fun h36 => ?_, fun h32768 => ?_⟩
  · exact ⟨(correct_36_ppm_no_overflow t h36).2.1, (correct_36_ppm_no_overflow t h36).2.2⟩
  · obtain ⟨h1, h2, h3⟩ := correct_36_ppm_32768 (10 * a / 8) t hms h32768
    obtain ⟨h4, h5, h6⟩ := correct_36_ppm_no_overflow t h2
    exact ⟨h1, h2, h4, h3, h5, h6⟩

/-- Witness of C8: advertised interval 800 (1 s) gives `t = 32768` and `N = 32767`. -/
theorem nominal_interval_36_ppm_witness :
    (800 : Nat) < 65536 ∧
    (env_at 0).ms32_to_tick (10 * 800 / 8) ≤ ms_to_tick_32768 (10 * 800 / 8) ∧
    (peripheral_node_on_bt_event db_example (env_at 0) PeripheralState.init
      (PeripheralEvent.pawr_sync_transfer_received SL_STATUS_OK 5
        800)).state.time_sync_handle.pawr_interval_ticks
      = (env_at 0).ms32_to_tick (10 * 800 / 8)
        - 36 * (env_at 0).ms32_to_tick (10 * 800 / 8) / 1000000 :=
  ⟨by decide, by decide, ((nominal_interval_36_ppm db_example (env_at 0) PeripheralState.init 5
    800 (by decide)).2.2 (by decide)).2.2.2.2.1⟩

/-- Counterexample to C9 as stated. From the initial state: synchronisation acquired at
tick 0 (advertised interval 64000, so `N = 2621346`, `M = 52`), a complete report at tick
2621347, then sync-closed: the sync handle is the invalid one, the offset is -1 and the
last report time 2621347. A complete report handled next, at tick 5242694 and before any
new acquisition, moves the offset to -2 and the last report time to 5242694. -/
theorem report_after_sync_closed_not_ignored :
    (peripheral_run db_example PeripheralState.init
      [(env_at 0, PeripheralEvent.pawr_sync_transfer_received SL_STATUS_OK 5 64000),
       (env_at 2621347, PeripheralEvent.pawr_sync_subevent_report 0),
       (env_at 2621347, PeripheralEvent.sync_closed)]).state
      = { time_sync_handle :=
            { id := INVALID_NODE_ID
              connection_handle := SL_BT_INVALID_CONNECTION_HANDLE
              subevent_id := INVALID_NODE_ID
              clock_offset := -1
              pawr_interval_ticks := 2621346
              sync_handle := SL_BT_INVALID_SYNC_HANDLE }
          advertising_set_handle := 0
          last_subevent_timestamp := 2621347
          tick_error_max := 52
          last_subevent_tick_error := 1 } ∧
    (peripheral_run db_example PeripheralState.init
      [(env_at 0, PeripheralEvent.pawr_sync_transfer_received SL_STATUS_OK 5 64000),
       (env_at 2621347, PeripheralEvent.pawr_sync_subevent_report 0),
       (env_at 2621347, PeripheralEvent.sync_closed),
       (env_at 5242694, PeripheralEvent.pawr_sync_subevent_report 0)]).state
      = { time_sync_handle :=
            { id := INVALID_NODE_ID
              connection_handle := SL_BT_INVALID_CONNECTION_HANDLE
              subevent_id := INVALID_NODE_ID
              clock_offset := -2
              pawr_interval_ticks := 2621346
              sync_handle := SL_BT_INVALID_SYNC_HANDLE }
          advertising_set_handle := 0
          last_subevent_timestamp := 5242694
          tick_error_max := 52
          last_subevent_tick_error := 1 } ∧
    (peripheral_run db_example PeripheralState.init
      [(env_at 0, PeripheralEvent.pawr_sync_transfer_received SL_STATUS_OK 5 64000),
       (env_at 2621347, PeripheralEvent.pawr_sync_subevent_report 0),
       (env_at 2621347, PeripheralEvent.sync_closed),
       (env_at 5242694,
         PeripheralEvent.pawr_sync_subevent_report 0)]).state.time_sync_handle.clock_offset
      ≠ (peripheral_run db_example PeripheralState.init
      [(env_at 0, PeripheralEvent.pawr_sync_transfer_received SL_STATUS_OK 5 64000),
       (env_at 2621347, PeripheralEvent.pawr_sync_subevent_report 0),
       (env_at 2621347, PeripheralEvent.sync_closed)]).state.time_sync_handle.clock_offset ∧
    (peripheral_run db_example PeripheralState.init
      [(env_at 0, PeripheralEvent.pawr_sync_transfer_received SL_STATUS_OK 5 64000),
       (env_at 2621347, PeripheralEvent.pawr_sync_subevent_report 0),
       (env_at 2621347, PeripheralEvent.sync_closed),
       (env_at 5242694,
         PeripheralEvent.pawr_sync_subevent_report 0)]).state.last_subevent_timestamp
      ≠ (peripheral_run db_example PeripheralState.init
      [(env_at 0, PeripheralEvent.pawr_sync_transfer_received SL_STATUS_OK 5 64000),
       (env_at 2621347, PeripheralEvent.pawr_sync_subevent_report 0),
       (env_at 2621347, PeripheralEvent.sync_closed)]).state.last_subevent_timestamp := by
  decide

/-- C9, amended. A sync-closed event sets the sync handle to `SL_BT_INVALID_SYNC_HANDLE`
and changes nothing else. The report handler never reads the sync handle: a report
handled afterwards updates `clock_offset`, `last_subevent_timestamp` and the last accepted
tick error exactly as it would have without the sync-closed event, and keeps the sync
handle invalid. -/
theorem sync_closed_then_report (db : gatt_db) (env env2 : PeripheralEnv)
    (s : PeripheralState) (data_status : Nat) :
    let s1 := (peripheral_node_on_bt_event db env s PeripheralEvent.sync_closed).state
    let r1 := (peripheral_node_on_bt_event db env2 s1
      (PeripheralEvent.pawr_sync_subevent_report data_status)).state
    let r := (peripheral_node_on_bt_event db env2 s
      (PeripheralEvent.pawr_sync_subevent_report data_status)).state
    s1 = { s with time_sync_handle :=
            { s.time_sync_handle with sync_handle := SL_BT_INVALID_SYNC_HANDLE } } ∧
    s1.time_sync_handle.sync_handle = SL_BT_INVALID_SYNC_HANDLE ∧
    r1 = { r with time_sync_handle :=
            { r.time_sync_handle with sync_handle := SL_BT_INVALID_SYNC_HANDLE } } ∧
    r1.time_sync_handle.clock_offset = r.time_sync_handle.clock_offset ∧
    r1.last_subevent_timestamp = r.last_subevent_timestamp ∧
    r1.last_subevent_tick_error = r.last_subevent_tick_error := by
  intro s1 r1 r
  have hs1 : s1 = { s with time_sync_handle :=
      { s.time_sync_handle with sync_handle := SL_BT_INVALID_SYNC_HANDLE } } := rfl
  have hr1 : r1 = peripheral_node_bt_sync_subevent_report env2 s1 data_status := rfl
  have hr : r = peripheral_node_bt_sync_subevent_report env2 s data_status := rfl
  clear_value r1 r s1
  have key : r1 = { r with time_sync_handle :=
      { r.time_sync_handle with sync_handle := SL_BT_INVALID_SYNC_HANDLE } } := by
    rw [hr1, hr, hs1]
    unfold peripheral_node_bt_sync_subevent_report
    by_cases hd : data_status = 0
    · simp only [hd, if_true]
      split <;> rfl
    · simp only [hd, if_false]
  refine ⟨hs1, ?_, key, ?_, ?_, ?_⟩
  · rw [hs1]
  · rw [key]
  · rw [key]
  · rw [key]

/-- C10. A sync-transfer event whose status is not OK leaves the sync handle,
`pawr_interval_ticks`, `tick_error_max`, `last_subevent_timestamp`, the last accepted tick
error and `clock_offset` unchanged; it leaves the whole state unchanged and issues no
command. -/
theorem sync_transfer_failed_creates_no_state (db : gatt_db) (env : PeripheralEnv)
    (s : PeripheralState) (status sync adv_interval : Nat) (h : status ≠ SL_STATUS_OK) :
    let o := peripheral_node_on_bt_event db env s
      (PeripheralEvent.pawr_sync_transfer_received status sync adv_interval)
    o.state.time_sync_handle.sync_handle = s.time_sync_handle.sync_handle ∧
    o.state.time_sync_handle.pawr_interval_ticks = s.time_sync_handle.pawr_interval_ticks ∧
    o.state.tick_error_max = s.tick_error_max ∧
    o.state.last_subevent_timestamp = s.last_subevent_timestamp ∧
    o.state.last_subevent_tick_error = s.last_subevent_tick_error ∧
    o.state.time_sync_handle.clock_offset = s.time_sync_handle.clock_offset ∧
    o.state = s ∧ o.cmds = [] ∧ o.halted = false := by
  intro o
  have ho : o = Outcome.pure s := by
    show peripheral_node_bt_sync_transfer_received env s status sync adv_interval = _
    unfold peripheral_node_bt_sync_transfer_received
    rw [if_neg h]
  rw [ho]
  exact ⟨rfl, rfl, rfl, rfl, rfl, rfl, rfl, rfl, rfl⟩

/-- Witness of C10: a sync-transfer event with status 1 in the worked-example state. -/
theorem sync_transfer_failed_creates_no_state_witness :
    (1 : Nat) ≠ SL_STATUS_OK ∧
    (peripheral_node_on_bt_event db_example (env_at 9) state_example
      (PeripheralEvent.pawr_sync_transfer_received 1 5 800)).state = state_example :=
  ⟨by decide, (sync_transfer_failed_creates_no_state db_example (env_at 9) state_example 1 5
    800 (by decide)).2.2.2.2.2.2.1⟩

/-! ## Gateway: clock correction handoff -/

theorem clock_correction_eq (tick_count wall_clock_time : Nat) :
    clock_correction tick_count wall_clock_time
      = (u32 ((tick_count : Int) - wall_clock_time) + 1) / 2 := by
  have hd : u32 ((tick_count : Int) - wall_clock_time) < 4294967296 := by
    unfold u32; omega
  unfold clock_correction
  generalize u32 ((tick_count : Int) - wall_clock_time) = d at hd ⊢
  by_cases h : d % 2 ≠ 0
  · rw [if_pos h]; omega
  · rw [if_neg h]; omega

/-- C6. With `W` the wall-clock value sent before (`wall_clock_time`), `T1` the local tick
at which the gateway handles the write acknowledgment and `d = (T1 − W) mod 2^32`, the
correction is `⌈d/2⌉ = ⌊(d + 1)/2⌋`, so `2·correction − d` is 0 or 1; it fits 4 bytes.
Every write the handler issues carries this value, on the event's connection; when the
connection is in the table with its clock-correction handle discovered and the completed
procedure succeeded, the handler issues exactly this write and stores the correction in
`offset`. For `W = 1000` and `T1 = 1050` the correction is 25. -/
theorem set_clock_correction_value (env : GatewayEnv) (s : GatewayState)
    (connection result : Nat) :
    let d := u32 ((env.tick_count : Int) - s.wall_clock_time)
    let correction := (d + 1) / 2
    let o := gateway_node_bt_set_clock_correction env s connection result
    (2 * correction = d ∨ 2 * correction = d + 1) ∧
    correction < 4294967296 ∧ read_u32 (le32_bytes correction) = correction ∧
    (∀ c ∈ o.cmds, ∃ characteristic,
      c = GatewayCmd.gatt_write_characteristic_value connection characteristic
        (le32_bytes correction)) ∧
    (∀ node, find_index_by_connection_handle s connection ≠ INVALID_TABLE_INDEX →
      s.peripheral_nodes[find_index_by_connection_handle s connection]? = some node →
      node.clock_correction_characteristic_handle ≠ INVALID_NODE_CHAR_HANDLE →
      result = SL_STATUS_OK →
      o.cmds = [GatewayCmd.gatt_write_characteristic_value connection
        node.clock_correction_characteristic_handle (le32_bytes correction)] ∧
      o.state.offset = correction) ∧
    clock_correction 1050 1000 = 25 := by
  intro d correction o
  have hd : d < 4294967296 := by
    show u32 ((env.tick_count : Int) - s.wall_clock_time) < 4294967296
    unfold u32; omega
  have hc : clock_correction env.tick_count s.wall_clock_time = correction :=
    clock_correction_eq _ _
  have ho : o = gateway_node_bt_set_clock_correction env s connection result := rfl
  have hcd : correction = (d + 1) / 2 := rfl
  clear_value o correction d
  have hlt : correction < 4294967296 := by omega
  refine ⟨by omega, hlt, read_u32_le32_bytes _ hlt, ?_, ?_, by decide⟩
  · intro c hmem
    rw [ho] at hmem
    unfold gateway_node_bt_set_clock_correction at hmem
    simp only [hc] at hmem
    split at hmem
    · split at hmem
      · split at hmem
        · split at hmem
          · simp at hmem
          · simp only [g_call, Outcome.andThen, Outcome.pure] at hmem
            split at hmem
            · simp only [List.mem_singleton] at hmem
              exact ⟨_, hmem⟩
            · simp only [List.append_nil, List.mem_singleton] at hmem
              exact ⟨_, hmem⟩
        · simp [Outcome.pure] at hmem
      · simp [Outcome.pure] at hmem
    · simp [Outcome.pure] at hmem
  · intro node hidx hnode hh hres
    rw [ho]
    unfold gateway_node_bt_set_clock_correction
    simp only [hc, hnode, hidx, hh, hres, ne_eq, not_true_eq_false, not_false_eq_true,
      if_true, if_false, g_call, Outcome.andThen, Outcome.pure]
    split <;> simp

/-- Witness of C6: wall-clock value 1000 sent, acknowledgment handled at tick 1050 on
connection 1: the handler writes the bytes of 25 to the clock-correction handle 23. -/
theorem set_clock_correction_value_witness :
    find_index_by_connection_handle gateway_state_example 1 ≠ INVALID_TABLE_INDEX ∧
    (gateway_node_bt_set_clock_correction (genv_at 1050) gateway_state_example 1
      SL_STATUS_OK).cmds
      = [GatewayCmd.gatt_write_characteristic_value 1 23 (le32_bytes 25)] := by
  have hidx : find_index_by_connection_handle gateway_state_example 1 ≠ INVALID_TABLE_INDEX := by
    decide
  refine ⟨hidx, ?_⟩
  have h := ((set_clock_correction_value (genv_at 1050) gateway_state_example 1
    SL_STATUS_OK).2.2.2.2.1 node_example hidx (by decide) (by decide) rfl).1
  rw [h]; decide

/-! ## Gateway: lemmas on the table of peripheral nodes -/

theorem getElem?_of_lt (nodes : List peripheral_node_t) (i : Nat) (h : i < nodes.length) :
    ∃ node, nodes[i]? = some node :=
  ⟨nodes[i], List.getElem?_eq_getElem h⟩

theorem getElem?_set_node (nodes : List peripheral_node_t) (i j : Nat)
    (f : peripheral_node_t → peripheral_node_t) :
    (set_node nodes i f)[j]? = if i = j then (nodes[j]?).map f else nodes[j]? := by
  unfold set_node
  cases h : nodes[i]? with
  | none =>
      by_cases hij : i = j
      · subst hij; simp [h]
      · simp [hij]
  | some node =>
      simp only [List.getElem?_set]
      by_cases hij : i = j
      · subst hij
        have hlt : i < nodes.length := by
          by_contra hge
          rw [List.getElem?_eq_none (by omega)] at h
          cases h
        simp [h, hlt]
      · simp [hij]

theorem length_set_node (nodes : List peripheral_node_t) (i : Nat)
    (f : peripheral_node_t → peripheral_node_t) :
    (set_node nodes i f).length = nodes.length := by
  unfold set_node
  cases nodes[i]? <;> simp

theorem length_clear_entries (n : Nat) :
    ∀ (nodes : List peripheral_node_t) (i : Nat),
      (clear_entries nodes n i).length = nodes.length := by
  induction n with
  | zero => intro nodes i; rfl
  | succ n ih =>
      intro nodes i
      show (clear_entries (set_node nodes i reset_node) n (i + 1)).length = _
      rw [ih, length_set_node]

theorem getElem?_clear_entries (n : Nat) :
    ∀ (nodes : List peripheral_node_t) (i j : Nat),
      (clear_entries nodes n i)[j]?
        = if i ≤ j ∧ j < i + n then (nodes[j]?).map reset_node else nodes[j]? := by
  induction n with
  | zero =>
      intro nodes i j
      have : ¬ (i ≤ j ∧ j < i + 0) := by omega
      rw [if_neg this]; rfl
  | succ n ih =>
      intro nodes i j
      show (clear_entries (set_node nodes i reset_node) n (i + 1))[j]? = _
      rw [ih, getElem?_set_node]
      by_cases h1 : i = j
      · subst h1
        have h2 : ¬ (i + 1 ≤ i ∧ i < i + 1 + n) := by omega
        have h3 : i ≤ i ∧ i < i + (n + 1) := by omega
        rw [if_neg h2, if_pos rfl, if_pos h3]
      · rw [if_neg h1]
        by_cases h2 : i + 1 ≤ j ∧ j < i + 1 + n
        · have h3 : i ≤ j ∧ j < i + (n + 1) := by omega
          rw [if_pos h2, if_pos h3]
        · have h3 : ¬ (i ≤ j ∧ j < i + (n + 1)) := by omega
          rw [if_neg h2, if_neg h3]

theorem length_shift_entries (n : Nat) :
    ∀ (nodes : List peripheral_node_t) (i : Nat),
      (shift_entries nodes n i).length = nodes.length := by
  induction n with
  | zero => intro nodes i; rfl
  | succ n ih =>
      intro nodes i
      unfold shift_entries
      cases nodes[i + 1]? with
      | none => exact ih nodes (i + 1)
      | some next => simp only []; rw [ih, List.length_set]

theorem getElem?_shift_entries (n : Nat) :
    ∀ (nodes : List peripheral_node_t) (i j : Nat), i + n < nodes.length →
      (shift_entries nodes n i)[j]?
        = if i ≤ j ∧ j < i + n then nodes[j + 1]? else nodes[j]? := by
  induction n with
  | zero =>
      intro nodes i j _
      have : ¬ (i ≤ j ∧ j < i + 0) := by omega
      rw [if_neg this]; rfl
  | succ n ih =>
      intro nodes i j hlen
      obtain ⟨next, hnext⟩ := getElem?_of_lt nodes (i + 1) (by omega)
      unfold shift_entries
      rw [hnext]
      simp only []
      rw [ih _ _ _ (by rw [List.length_set]; omega)]
      by_cases h1 : i = j
      · subst h1
        have h2 : ¬ (i + 1 ≤ i ∧ i < i + 1 + n) := by omega
        have h3 : i ≤ i ∧ i < i + (n + 1) := by omega
        rw [if_neg h2, if_pos h3, List.getElem?_set, if_pos rfl, if_pos (by omega), hnext]
      · by_cases h2 : i + 1 ≤ j ∧ j < i + 1 + n
        · have h3 : i ≤ j ∧ j < i + (n + 1) := by omega
          rw [if_pos h2, if_pos h3, List.getElem?_set_ne (by omega)]
        · have h3 : ¬ (i ≤ j ∧ j < i + (n + 1)) := by omega
          rw [if_neg h2, if_neg h3, List.getElem?_set_ne h1]

/-! ## Gateway: lemmas on the linear scan -/

/-- What the scan returns: the invalid index, or the first matching slot of its range. -/
theorem find_index_from_spec (nodes : List peripheral_node_t) (connection : Nat) (n : Nat) :
    ∀ i : Nat,
      (find_index_from nodes connection n i = INVALID_TABLE_INDEX ∧
        ∀ j node, i ≤ j → j < i + n → nodes[j]? = some node →
          node.connection_handle ≠ connection) ∨
      (i ≤ find_index_from nodes connection n i ∧
        find_index_from nodes connection n i < i + n ∧
        (∃ node, nodes[find_index_from nodes connection n i]? = some node ∧
          node.connection_handle = connection) ∧
        ∀ j node, i ≤ j → j < find_index_from nodes connection n i →
          nodes[j]? = some node → node.connection_handle ≠ connection) := by
  induction n with
  | zero =>
      intro i
      left
      exact ⟨rfl, fun j node h1 h2 => by omega⟩
  | succ n ih =>
      intro i
      unfold find_index_from
      cases hi : nodes[i]? with
      | none =>
          simp only []
          rcases ih (i + 1) with ⟨h1, h2⟩ | ⟨h1, h2, h3, h4⟩
          · left
            refine ⟨h1, fun j node hj1 hj2 hj => ?_⟩
            by_cases hij : j = i
            · subst hij; rw [hi] at hj; cases hj
            · exact h2 j node (by omega) (by omega) hj
          · right
            refine ⟨by omega, by omega, h3, fun j node hj1 hj2 hj => ?_⟩
            by_cases hij : j = i
            · subst hij; rw [hi] at hj; cases hj
            · exact h4 j node (by omega) hj2 hj
      | some node0 =>
          simp only []
          by_cases hc : node0.connection_handle = connection
          · rw [if_pos hc]
            right
            exact ⟨Nat.le_refl i, by omega, ⟨node0, hi, hc⟩, fun j node hj1 hj2 => by omega⟩
          · rw [if_neg hc]
            rcases ih (i + 1) with ⟨h1, h2⟩ | ⟨h1, h2, h3, h4⟩
            · left
              refine ⟨h1, fun j node hj1 hj2 hj => ?_⟩
              by_cases hij : j = i
              · subst hij; rw [hi] at hj; cases hj; exact hc
              · exact h2 j node (by omega) (by omega) hj
            · right
              refine ⟨by omega, by omega, h3, fun j node hj1 hj2 hj => ?_⟩
              by_cases hij : j = i
              · subst hij; rw [hi] at hj; cases hj; exact hc
              · exact h4 j node (by omega) hj2 hj

/-- An index returned by the scan other than the invalid one is an active slot that holds
the connection, and no earlier slot does. -/
theorem find_index_found (s : GatewayState) (connection : Nat)
    (h : find_index_by_connection_handle s connection ≠ INVALID_TABLE_INDEX) :
    find_index_by_connection_handle s connection < s.active_connections_num ∧
    (∃ node, s.peripheral_nodes[find_index_by_connection_handle s connection]? = some node ∧
      node.connection_handle = connection) ∧
    ∀ j node, j < find_index_by_connection_handle s connection →
      s.peripheral_nodes[j]? = some node → node.connection_handle ≠ connection := by
  unfold find_index_by_connection_handle at h ⊢
  rcases find_index_from_spec s.peripheral_nodes connection s.active_connections_num 0 with
    ⟨h1, _⟩ | ⟨_, h2, h3, h4⟩
  · exact absurd h1 h
  · exact ⟨by omega, h3, fun j node hj => h4 j node (Nat.zero_le j) hj⟩

/-- C16. With an active length that fits the `uint8_t` index (at most 255, as for every
capacity of at most 255), `find_index_by_connection_handle(c)` returns the smallest index
below the active length whose entry has connection handle `c` when such an entry exists,
and returns `INVALID_TABLE_INDEX` (255) exactly when no active entry has connection
handle `c`. -/
theorem find_index_first_match (s : GatewayState) (connection : Nat)
    (h255 : s.active_connections_num ≤ 255) :
    let r := find_index_by_connection_handle s connection
    (∀ k node, k < s.active_connections_num → s.peripheral_nodes[k]? = some node →
      node.connection_handle = connection →
      r < s.active_connections_num ∧ r ≤ k ∧
      (∃ first, s.peripheral_nodes[r]? = some first ∧ first.connection_handle = connection) ∧
      ∀ j earlier, j < r → s.peripheral_nodes[j]? = some earlier →
        earlier.connection_handle ≠ connection) ∧
    (r = INVALID_TABLE_INDEX ↔
      ¬ ∃ k node, k < s.active_connections_num ∧ s.peripheral_nodes[k]? = some node ∧
        node.connection_handle = connection) := by
  intro r
  have hr : r = find_index_from s.peripheral_nodes connection s.active_connections_num 0 := rfl
  clear_value r
  rcases find_index_from_spec s.peripheral_nodes connection s.active_connections_num 0 with
    ⟨h1, h2⟩ | ⟨_, h2, h3, h4⟩
  · rw [← hr] at h1
    refine ⟨fun k node hk hnode hc => ?_, ?_⟩
    · exact absurd hc (h2 k node (Nat.zero_le k) (by omega) hnode)
    · refine ⟨fun _ => ?_, fun _ => h1⟩
      rintro ⟨k, node, hk, hnode, hc⟩
      exact h2 k node (Nat.zero_le k) (by omega) hnode hc
  · rw [← hr] at h2 h3 h4
    refine ⟨fun k node hk hnode hc => ?_, ?_⟩
    · refine ⟨by omega, ?_, h3, fun j earlier hj => h4 j earlier (Nat.zero_le j) hj⟩
      by_contra hlt
      exact h4 k node (Nat.zero_le k) (by omega) hnode hc
    · have hne : r ≠ INVALID_TABLE_INDEX := by unfold INVALID_TABLE_INDEX; omega
      refine ⟨fun h => absurd h hne, fun h => ?_⟩
      obtain ⟨first, hfirst, hc⟩ := h3
      exact absurd ⟨r, first, by omega, hfirst, hc⟩ h

/-- Witness of C16: connection 1 is found at index 0 of the example directory. -/
theorem find_index_first_match_witness :
    gateway_state_example.active_connections_num ≤ 255 ∧
    find_index_by_connection_handle gateway_state_example 1 ≤ 0 :=
  ⟨by decide, ((find_index_first_match gateway_state_example 1 (by decide)).1 0 node_example
    (by decide) (by decide) (by decide)).2.1⟩

/-! ## Gateway: removing a connection -/

theorem remove_connection_active (cfg : gateway_config) (s : GatewayState) (connection : Nat) :
    (remove_connection cfg s connection).active_connections_num
      = s.active_connections_num - 1 := by
  unfold remove_connection
  by_cases h : s.active_connections_num > 0
  · simp only [h, if_true]
  · simp only [h, if_false]; omega

theorem remove_connection_nodes (cfg : gateway_config) (s : GatewayState)
    (connection : Nat) :
    (remove_connection cfg s connection).peripheral_nodes
      = clear_entries
          (shift_entries s.peripheral_nodes
            (s.active_connections_num - 1 - find_index_by_connection_handle s connection)
            (find_index_by_connection_handle s connection))
          (cfg.MAX_NUM_PERIPHERAL_NODES - (s.active_connections_num - 1))
          (s.active_connections_num - 1) := by
  unfold remove_connection
  by_cases h : s.active_connections_num > 0
  · simp only [h, if_true]
  · have h0 : s.active_connections_num = 0 := by omega
    simp only [h0, gt_iff_lt, Nat.lt_irrefl, if_false, Nat.zero_sub]

/-- Removal of a connection that the scan finds at index `k`: the entries below `k` stay,
the later active entries move down by one. -/
theorem remove_connection_found (cfg : gateway_config) (s : GatewayState)
    (connection k : Nat) (hn : s.active_connections_num ≤ s.peripheral_nodes.length)
    (hk : find_index_by_connection_handle s connection = k)
    (hf : k ≠ INVALID_TABLE_INDEX) :
    k < s.active_connections_num ∧
    (∀ i, i < k →
      (remove_connection cfg s connection).peripheral_nodes[i]? = s.peripheral_nodes[i]?) ∧
    (∀ i, k ≤ i → i < s.active_connections_num - 1 →
      (remove_connection cfg s connection).peripheral_nodes[i]?
        = s.peripheral_nodes[i + 1]?) := by
  have hfound := (find_index_found s connection (by rw [hk]; exact hf)).1
  rw [hk] at hfound
  have hlen : k + (s.active_connections_num - 1 - k) < s.peripheral_nodes.length := by omega
  refine ⟨hfound, fun i hi => ?_, fun i hi1 hi2 => ?_⟩
  · rw [remove_connection_nodes, hk, getElem?_clear_entries, if_neg (by omega),
      getElem?_shift_entries _ _ _ _ hlen, if_neg (by omega)]
  · rw [remove_connection_nodes, hk, getElem?_clear_entries, if_neg (by omega),
      getElem?_shift_entries _ _ _ _ hlen, if_pos (by omega)]

/-- Removal of a connection that the scan does not find: the entries below the new active
length stay. -/
theorem remove_connection_absent (cfg : gateway_config) (s : GatewayState)
    (connection : Nat) (h255 : s.active_connections_num ≤ 255)
    (hk : find_index_by_connection_handle s connection = INVALID_TABLE_INDEX) :
    ∀ i, i < s.active_connections_num - 1 →
      (remove_connection cfg s connection).peripheral_nodes[i]? = s.peripheral_nodes[i]? := by
  intro i hi
  have h0 : s.active_connections_num - 1 - INVALID_TABLE_INDEX = 0 := by
    unfold INVALID_TABLE_INDEX; omega
  rw [remove_connection_nodes, hk, h0, getElem?_clear_entries, if_neg (by omega)]
  rfl

/-- After a removal every slot from the new active length to the end of the table is in
the sentinel state. -/
theorem remove_connection_tail (cfg : gateway_config) (s : GatewayState) (connection : Nat)
    (hlen : s.peripheral_nodes.length = cfg.MAX_NUM_PERIPHERAL_NODES) :
    tail_is_sentinel (remove_connection cfg s connection) := by
  intro i node hi hnode
  rw [remove_connection_active] at hi
  rw [remove_connection_nodes, getElem?_clear_entries] at hnode
  have hlt : i < cfg.MAX_NUM_PERIPHERAL_NODES := by
    by_contra hge
    have hnone : (remove_connection cfg s connection).peripheral_nodes[i]? = none := by
      apply List.getElem?_eq_none
      rw [remove_connection_nodes, length_clear_entries, length_shift_entries]
      omega
    rw [remove_connection_nodes, getElem?_clear_entries] at hnone
    rw [hnone] at hnode
    cases hnode
  rw [if_pos (by omega)] at hnode
  cases hshift : (shift_entries s.peripheral_nodes
      (s.active_connections_num - 1 - find_index_by_connection_handle s connection)
      (find_index_by_connection_handle s connection))[i]? with
  | none => rw [hshift] at hnode; cases hnode
  | some old =>
      rw [hshift] at hnode
      simp only [Option.map_some', Option.some.injEq] at hnode
      rw [← hnode]
      exact ⟨rfl, rfl, rfl, rfl, rfl, rfl, rfl⟩

/-- C11 fails on the code. Connection 2 matches no entry of the example directory (one
active entry, for connection 1), yet `remove_connection(2)` takes the active length from 1
to 0 and resets slot 0, the entry of connection 1. -/
theorem remove_absent_connection_drops_last_entry :
    find_index_by_connection_handle gateway_state_example 2 = INVALID_TABLE_INDEX ∧
    gateway_state_example.active_connections_num = 1 ∧
    gateway_state_example.peripheral_nodes[0]? = some node_example ∧
    (remove_connection cfg_example gateway_state_example 2).active_connections_num = 0 ∧
    (remove_connection cfg_example gateway_state_example 2).peripheral_nodes[0]?
      = some (reset_node node_example) ∧
    reset_node node_example ≠ node_example := by
  decide

/-- C12. In a directory with active length `n` within the table, in which the scan finds
connection `c` at index `k`, `remove_connection(c)` yields active length `n − 1`, leaves
the entries at indices below `k` unchanged, and makes each entry at index `i` with
`k ≤ i < n − 1` equal to the former entry at index `i + 1`, all fields included (so also
the stored node id): the surviving entries keep their relative order. -/
theorem remove_connection_shifts (cfg : gateway_config) (s : GatewayState)
    (connection k : Nat) (hn : s.active_connections_num ≤ s.peripheral_nodes.length)
    (hk : find_index_by_connection_handle s connection = k)
    (hf : k ≠ INVALID_TABLE_INDEX) :
    let s' := remove_connection cfg s connection
    k < s.active_connections_num ∧
    s'.active_connections_num = s.active_connections_num - 1 ∧
    (∀ i, i < k → s'.peripheral_nodes[i]? = s.peripheral_nodes[i]?) ∧
    (∀ i, k ≤ i → i < s.active_connections_num - 1 →
      s'.peripheral_nodes[i]? = s.peripheral_nodes[i + 1]?) ∧
    (∀ i node, i < s'.active_connections_num → s'.peripheral_nodes[i]? = some node →
      ∃ j, j < s.active_connections_num ∧ j ≠ k ∧ s.peripheral_nodes[j]? = some node ∧
        (i < k → j = i) ∧ (k ≤ i → j = i + 1)) := by
  intro s'
  obtain ⟨h1, h2, h3⟩ := remove_connection_found cfg s connection k hn hk hf
  have ha : s'.active_connections_num = s.active_connections_num - 1 :=
    remove_connection_active cfg s connection
  refine ⟨h1, ha, h2, h3, fun i node hi hnode => ?_⟩
  rw [ha] at hi
  by_cases hik : i < k
  · exact ⟨i, by omega, by omega, by rw [← h2 i hik]; exact hnode, fun _ => rfl,
      fun h => by omega⟩
  · exact ⟨i + 1, by omega, by omega, by rw [← h3 i (by omega) hi]; exact hnode,
      fun h => absurd h hik, fun _ => rfl⟩

/-- Witness of C12: removing connection 2, found at index 1 of a directory of three
entries, moves the entry of connection 3 from index 2 to index 1. -/
theorem remove_connection_shifts_witness :
    gateway_state_three.active_connections_num ≤ gateway_state_three.peripheral_nodes.length ∧
    find_index_by_connection_handle gateway_state_three 2 = 1 ∧
    (1 : Nat) ≠ INVALID_TABLE_INDEX ∧
    (remove_connection cfg_three gateway_state_three 2).peripheral_nodes[1]?
      = gateway_state_three.peripheral_nodes[1 + 1]? :=
  ⟨by decide, by decide, by decide,
    (remove_connection_shifts cfg_three gateway_state_three 2 1 (by decide) (by decide)
      (by decide)).2.2.2.1 1 (by decide) (by decide)⟩

/-! ## Gateway: the directory invariant -/

theorem init_sensor_nodes_invariant (cfg : gateway_config) (s : GatewayState)
    (hlen : s.peripheral_nodes.length = cfg.MAX_NUM_PERIPHERAL_NODES)
    (h0 : s.active_connections_num = 0) :
    directory_invariant cfg (init_sensor_nodes cfg s) := by
  refine ⟨?_, ?_, ?_⟩
  · show (clear_entries s.peripheral_nodes cfg.MAX_NUM_PERIPHERAL_NODES 0).length = _
    rw [length_clear_entries, hlen]
  · show s.active_connections_num ≤ _
    omega
  · intro i node _ hnode
    have hnode' : (clear_entries s.peripheral_nodes cfg.MAX_NUM_PERIPHERAL_NODES 0)[i]?
        = some node := hnode
    rw [getElem?_clear_entries] at hnode'
    by_cases hi : i < cfg.MAX_NUM_PERIPHERAL_NODES
    · rw [if_pos (by omega)] at hnode'
      cases hold : s.peripheral_nodes[i]? with
      | none => rw [hold] at hnode'; cases hnode'
      | some old =>
          rw [hold] at hnode'
          simp only [Option.map_some', Option.some.injEq] at hnode'
          rw [← hnode']
          exact ⟨rfl, rfl, rfl, rfl, rfl, rfl, rfl⟩
    · rw [if_neg (by omega), List.getElem?_eq_none (by omega)] at hnode'
      cases hnode'

theorem add_connection_invariant (cfg : gateway_config) (s : GatewayState)
    (connection address : Nat) (hinv : directory_invariant cfg s)
    (hcap : cfg.MAX_NUM_PERIPHERAL_NODES ≤ 255)
    (hadd : s.active_connections_num < cfg.MAX_NUM_PERIPHERAL_NODES) :
    directory_invariant cfg (add_connection s connection address) := by
  obtain ⟨hlen, _, htail⟩ := hinv
  have hact : (add_connection s connection address).active_connections_num
      = s.active_connections_num + 1 := by
    show (s.active_connections_num + 1) % 256 = _
    omega
  refine ⟨?_, ?_, ?_⟩
  · show (set_node s.peripheral_nodes s.active_connections_num _).length = _
    rw [length_set_node, hlen]
  · rw [hact]; omega
  · intro i node hi hnode
    rw [hact] at hi
    have hnode' : (set_node s.peripheral_nodes s.active_connections_num _)[i]? = some node :=
      hnode
    rw [getElem?_set_node, if_neg (by omega)] at hnode'
    exact htail i node (by omega) hnode'

theorem remove_connection_invariant (cfg : gateway_config) (s : GatewayState)
    (connection : Nat) (hinv : directory_invariant cfg s) :
    directory_invariant cfg (remove_connection cfg s connection) := by
  obtain ⟨hlen, hact, _⟩ := hinv
  refine ⟨?_, ?_, remove_connection_tail cfg s connection hlen⟩
  · rw [remove_connection_nodes, length_clear_entries, length_shift_entries, hlen]
  · rw [remove_connection_active]; omega

theorem service_invariant_any_state (cfg : gateway_config) (s : GatewayState)
    (connection service : Nat) (hinv : directory_invariant cfg s) :
    directory_invariant cfg (gateway_node_bt_service s connection service) := by
  obtain ⟨hlen, hact, htail⟩ := hinv
  unfold gateway_node_bt_service
  dsimp only
  split
  · rename_i hcond
    have hfound := (find_index_found s connection hcond.1).1
    refine ⟨?_, hact, ?_⟩
    · show (set_node s.peripheral_nodes _ _).length = _
      rw [length_set_node, hlen]
    · intro i node hi hnode
      have hi' : s.active_connections_num ≤ i := hi
      have hnode' : (set_node s.peripheral_nodes
          (find_index_by_connection_handle s connection) _)[i]? = some node := hnode
      rw [getElem?_set_node, if_neg (by omega)] at hnode'
      exact htail i node hi' hnode'
  · exact ⟨hlen, hact, htail⟩

theorem service_invariant (cfg : gateway_config) (s : GatewayState)
    (connection_state : bt_connection_state_enum) (connection service : Nat)
    (hinv : directory_invariant cfg s) :
    directory_invariant cfg
      (gateway_node_bt_service { s with connection_state := connection_state } connection
        service) :=
  service_invariant_any_state cfg { s with connection_state := connection_state } connection
    service hinv

theorem characteristic_invariant (cfg : gateway_config) (s : GatewayState)
    (connection characteristic : Nat) (uuid : List Nat) (hinv : directory_invariant cfg s) :
    directory_invariant cfg (gateway_node_bt_characteristic s connection characteristic uuid) := by
  obtain ⟨hlen, hact, htail⟩ := hinv
  unfold gateway_node_bt_characteristic
  dsimp only
  split
  · rename_i hcond
    have hfound := (find_index_found s connection hcond).1
    refine ⟨?_, hact, ?_⟩
    · show (set_node s.peripheral_nodes _ _).length = _
      rw [length_set_node, hlen]
    · intro i node hi hnode
      have hi' : s.active_connections_num ≤ i := hi
      have hnode' : (set_node s.peripheral_nodes
          (find_index_by_connection_handle s connection) _)[i]? = some node := hnode
      rw [getElem?_set_node, if_neg (by omega)] at hnode'
      exact htail i node hi' hnode'
  · exact ⟨hlen, hact, htail⟩

theorem directory_run_invariant (cfg : gateway_config)
    (hcap : cfg.MAX_NUM_PERIPHERAL_NODES ≤ 255) (ops : List DirectoryOp) :
    ∀ s : GatewayState, directory_invariant cfg s → adds_within_capacity cfg s ops →
      directory_invariant cfg (directory_run cfg s ops) := by
  induction ops with
  | nil => intro s hinv _; exact hinv
  | cons op rest ih =>
      intro s hinv hadd
      cases op with
      | add connection address =>
          obtain ⟨h1, h2⟩ : s.active_connections_num < cfg.MAX_NUM_PERIPHERAL_NODES ∧
              adds_within_capacity cfg (add_connection s connection address) rest := hadd
          exact ih _ (add_connection_invariant cfg s connection address hinv hcap h1) h2
      | remove connection =>
          exact ih _ (remove_connection_invariant cfg s connection hinv) hadd
      | service connection_state connection service =>
          exact ih _ (service_invariant cfg s connection_state connection service hinv) hadd
      | characteristic connection characteristic uuid =>
          exact ih _ (characteristic_invariant cfg s connection characteristic uuid hinv) hadd

/-- C13. In every directory state reached from `init_sensor_nodes` (on a table of
`MAX_NUM_PERIPHERAL_NODES ≤ 255` slots with active length 0) by `add_connection` (each with
the active length below the capacity), service and characteristic discovery events and
`remove_connection`, every entry at an index not below the active length is in the
sentinel state: service handle and the four characteristic handles not discovered,
connection handle invalid, not synchronised. The same holds after any further remove,
and a node added next starts with nothing discovered. -/
theorem directory_tail_sentinel (cfg : gateway_config) (s0 : GatewayState)
    (ops : List DirectoryOp)
    (hlen : s0.peripheral_nodes.length = cfg.MAX_NUM_PERIPHERAL_NODES)
    (hcap : cfg.MAX_NUM_PERIPHERAL_NODES ≤ 255) (h0 : s0.active_connections_num = 0)
    (hadd : adds_within_capacity cfg (init_sensor_nodes cfg s0) ops) :
    let s := directory_run cfg (init_sensor_nodes cfg s0) ops
    (∀ i node, s.active_connections_num ≤ i → s.peripheral_nodes[i]? = some node →
      is_sentinel node) ∧
    s.active_connections_num ≤ cfg.MAX_NUM_PERIPHERAL_NODES ∧
    (∀ connection i node,
      (remove_connection cfg s connection).active_connections_num ≤ i →
      (remove_connection cfg s connection).peripheral_nodes[i]? = some node →
      is_sentinel node) ∧
    (∀ connection address, s.active_connections_num < cfg.MAX_NUM_PERIPHERAL_NODES →
      ∃ node,
        (add_connection s connection address).peripheral_nodes[s.active_connections_num]?
          = some node ∧
        node.connection_handle = connection ∧ node.device_address = address ∧
        node.pawr_configuration_service_handle = INVALID_NODE_SERV_HANDLE ∧
        node.peripheral_node_id_characteristic_handle = INVALID_NODE_CHAR_HANDLE ∧
        node.subevent_id_characteristic_handle = INVALID_NODE_CHAR_HANDLE ∧
        node.wall_clock_time_characteristic_handle = INVALID_NODE_CHAR_HANDLE ∧
        node.clock_correction_characteristic_handle = INVALID_NODE_CHAR_HANDLE ∧
        node.is_synchronized = false) := by
  intro s
  have hinv : directory_invariant cfg s :=
    directory_run_invariant cfg hcap ops _ (init_sensor_nodes_invariant cfg s0 hlen h0) hadd
  clear_value s
  obtain ⟨hl, ha, ht⟩ := hinv
  refine ⟨ht, ha, fun connection => remove_connection_tail cfg s connection hl, ?_⟩
  intro connection address hlt
  obtain ⟨old, hold⟩ := getElem?_of_lt s.peripheral_nodes s.active_connections_num (by omega)
  obtain ⟨h1, h2, h3, h4, h5, _, h7⟩ := ht _ _ (Nat.le_refl _) hold
  refine ⟨{ old with
      connection_handle := connection
      device_address := address
      id := s.active_connections_num }, ?_, rfl, rfl, h1, h2, h3, h4, h5, h7⟩
  show (set_node s.peripheral_nodes s.active_connections_num _)[s.active_connections_num]? = _
  rw [getElem?_set_node, if_pos rfl, hold]
  rfl

/-- Witness of C13: two adds, a service and a characteristic discovery and a remove on a
table of three slots. -/
theorem directory_tail_sentinel_witness :
    (GatewayState.init cfg_three).peripheral_nodes.length = cfg_three.MAX_NUM_PERIPHERAL_NODES ∧
    cfg_three.MAX_NUM_PERIPHERAL_NODES ≤ 255 ∧
    (GatewayState.init cfg_three).active_connections_num = 0 ∧
    adds_within_capacity cfg_three (init_sensor_nodes cfg_three (GatewayState.init cfg_three))
      [DirectoryOp.add 1 11, DirectoryOp.add 2 12,
       DirectoryOp.service bt_connection_state_enum.discover_service 2 10,
       DirectoryOp.characteristic 2 23 pawr_clock_correction_characteristic_uuid,
       DirectoryOp.remove 1] ∧
    (directory_run cfg_three (init_sensor_nodes cfg_three (GatewayState.init cfg_three))
      [DirectoryOp.add 1 11, DirectoryOp.add 2 12,
       DirectoryOp.service bt_connection_state_enum.discover_service 2 10,
       DirectoryOp.characteristic 2 23 pawr_clock_correction_characteristic_uuid,
       DirectoryOp.remove 1]).active_connections_num ≤ cfg_three.MAX_NUM_PERIPHERAL_NODES := by
  have hadd : adds_within_capacity cfg_three
      (init_sensor_nodes cfg_three (GatewayState.init cfg_three))
      [DirectoryOp.add 1 11, DirectoryOp.add 2 12,
       DirectoryOp.service bt_connection_state_enum.discover_service 2 10,
       DirectoryOp.characteristic 2 23 pawr_clock_correction_characteristic_uuid,
       DirectoryOp.remove 1] := by
    refine ⟨by decide, by decide, ?_⟩
    trivial
  exact ⟨by decide, by decide, by decide, hadd,
    (directory_tail_sentinel cfg_three (GatewayState.init cfg_three) _ (by decide) (by decide)
      (by decide) hadd).2.1⟩

/-! ## Gateway: the active length -/

theorem directory_step_active (cfg : gateway_config) (s : GatewayState) (op : DirectoryOp) :
    (∀ connection address, op ≠ DirectoryOp.add connection address) →
    (directory_step cfg s op).active_connections_num ≤ s.active_connections_num := by
  intro hop
  cases op with
  | add connection address => exact absurd rfl (hop connection address)
  | remove connection =>
      show (remove_connection cfg s connection).active_connections_num ≤ _
      rw [remove_connection_active]; omega
  | service connection_state connection service =>
      show (gateway_node_bt_service _ connection service).active_connections_num ≤ _
      unfold gateway_node_bt_service
      dsimp only
      split <;> exact Nat.le_refl _
  | characteristic connection characteristic uuid =>
      show (gateway_node_bt_characteristic s connection characteristic uuid).active_connections_num
        ≤ _
      unfold gateway_node_bt_characteristic
      dsimp only
      split <;> exact Nat.le_refl _

theorem directory_run_active (cfg : gateway_config) (ops : List DirectoryOp) :
    ∀ (s : GatewayState) (k : Nat),
      s.active_connections_num ≤ cfg.MAX_NUM_PERIPHERAL_NODES →
      adds_within_capacity cfg s ops →
      (directory_run cfg s (ops.take k)).active_connections_num
        ≤ cfg.MAX_NUM_PERIPHERAL_NODES := by
  induction ops with
  | nil => intro s k hs _; simpa [directory_run] using hs
  | cons op rest ih =>
      intro s k hs hadd
      cases k with
      | zero => simpa [directory_run] using hs
      | succ k =>
          show (directory_run cfg (directory_step cfg s op) (rest.take k)).active_connections_num
            ≤ _
          cases op with
          | add connection address =>
              obtain ⟨h1, h2⟩ : s.active_connections_num < cfg.MAX_NUM_PERIPHERAL_NODES ∧
                  adds_within_capacity cfg (add_connection s connection address) rest := hadd
              refine ih _ k ?_ h2
              show (s.active_connections_num + 1) % 256 ≤ _
              omega
          | remove connection =>
              refine ih _ k ?_ hadd
              have := directory_step_active cfg s (DirectoryOp.remove connection)
                (fun _ _ h => by cases h)
              omega
          | service connection_state connection service =>
              refine ih _ k ?_ hadd
              have := directory_step_active cfg s
                (DirectoryOp.service connection_state connection service)
                (fun _ _ h => by cases h)
              omega
          | characteristic connection characteristic uuid =>
              refine ih _ k ?_ hadd
              have := directory_step_active cfg s
                (DirectoryOp.characteristic connection characteristic uuid)
                (fun _ _ h => by cases h)
              omega

/-- Counterexample to C14 as stated. With a capacity of two slots and a stack that allows
four connections, after boot three matching advertisements are each answered with
`sl_bt_connection_open` (the handler compares the active length with
`SL_BT_CONFIG_MAX_CONNECTIONS`, the third time with a full directory) and each followed by
its link-opened event: no handler fails and the active length ends at 3. Likewise three
`add_connection` calls on the empty directory: nothing in `add_connection` or in the
link-opened handler compares the active length with the capacity. -/
theorem active_length_exceeds_capacity :
    cfg_more_connections.MAX_NUM_PERIPHERAL_NODES = 2 ∧
    (gateway_initialized cfg_more_connections).active_connections_num = 0 ∧
    (gateway_run cfg_more_connections (gateway_initialized cfg_more_connections)
      [(genv_at 0, GatewayEvent.system_boot),
       (genv_at 1, GatewayEvent.scanner_legacy_advertisement_report 3 address_example 0
         advertisement_example),
       (genv_at 2, GatewayEvent.connection_opened 1 address_example),
       (genv_at 3, GatewayEvent.scanner_legacy_advertisement_report 3 address_example 0
         advertisement_example),
       (genv_at 4, GatewayEvent.connection_opened 2 address_example),
       (genv_at 5, GatewayEvent.scanner_legacy_advertisement_report 3 address_example 0
         advertisement_example),
       (genv_at 6, GatewayEvent.connection_opened 3 address_example)]).halted = false ∧
    (gateway_run cfg_more_connections (gateway_initialized cfg_more_connections)
      [(genv_at 0, GatewayEvent.system_boot),
       (genv_at 1, GatewayEvent.scanner_legacy_advertisement_report 3 address_example 0
         advertisement_example),
       (genv_at 2, GatewayEvent.connection_opened 1 address_example),
       (genv_at 3, GatewayEvent.scanner_legacy_advertisement_report 3 address_example 0
         advertisement_example),
       (genv_at 4, GatewayEvent.connection_opened 2 address_example),
       (genv_at 5, GatewayEvent.scanner_legacy_advertisement_report 3 address_example 0
         advertisement_example),
       (genv_at 6, GatewayEvent.connection_opened 3 address_example)]).cmds.count
        (GatewayCmd.connection_open address_example 0) = 3 ∧
    (gateway_run cfg_more_connections (gateway_initialized cfg_more_connections)
      [(genv_at 0, GatewayEvent.system_boot),
       (genv_at 1, GatewayEvent.scanner_legacy_advertisement_report 3 address_example 0
         advertisement_example),
       (genv_at 2, GatewayEvent.connection_opened 1 address_example),
       (genv_at 3, GatewayEvent.scanner_legacy_advertisement_report 3 address_example 0
         advertisement_example),
       (genv_at 4, GatewayEvent.connection_opened 2 address_example),
       (genv_at 5, GatewayEvent.scanner_legacy_advertisement_report 3 address_example 0
         advertisement_example),
       (genv_at 6,
         GatewayEvent.connection_opened 3 address_example)]).state.active_connections_num = 3 ∧
    (directory_run cfg_more_connections (gateway_initialized cfg_more_connections)
      (add_all [(1, 11), (2, 12), (3, 13)])).active_connections_num = 3 ∧
    ¬ (directory_run cfg_more_connections (gateway_initialized cfg_more_connections)
      (add_all [(1, 11), (2, 12), (3, 13)])).active_connections_num
        ≤ cfg_more_connections.MAX_NUM_PERIPHERAL_NODES := by
  decide

/-- C14, amended. For all sequences of directory operations (add, remove, discovery)
applied from the empty directory in which every add is applied with the active length
below the capacity `MAX_NUM_PERIPHERAL_NODES`, the active length never exceeds the
capacity: it is within it after every prefix of the sequence. -/
theorem active_length_within_capacity (cfg : gateway_config) (s0 : GatewayState)
    (ops : List DirectoryOp) (h0 : s0.active_connections_num = 0)
    (hadd : adds_within_capacity cfg s0 ops) (k : Nat) :
    (directory_run cfg s0 (ops.take k)).active_connections_num
      ≤ cfg.MAX_NUM_PERIPHERAL_NODES :=
  directory_run_active cfg ops s0 k (by omega) hadd

/-- Witness of C14 (amended): two adds and a remove on a table of two slots. -/
theorem active_length_within_capacity_witness :
    (gateway_initialized cfg_example).active_connections_num = 0 ∧
    adds_within_capacity cfg_example (gateway_initialized cfg_example)
      [DirectoryOp.add 1 11, DirectoryOp.add 2 12, DirectoryOp.remove 1] ∧
    (directory_run cfg_example (gateway_initialized cfg_example)
      ([DirectoryOp.add 1 11, DirectoryOp.add 2 12, DirectoryOp.remove 1].take
        2)).active_connections_num ≤ cfg_example.MAX_NUM_PERIPHERAL_NODES := by
  have hadd : adds_within_capacity cfg_example (gateway_initialized cfg_example)
      [DirectoryOp.add 1 11, DirectoryOp.add 2 12, DirectoryOp.remove 1] := by
    refine ⟨by decide, by decide, ?_⟩
    trivial
  exact ⟨by decide, hadd,
    active_length_within_capacity cfg_example (gateway_initialized cfg_example) _ (by decide)
      hadd 2⟩

/-! ## Gateway: node ids -/

theorem add_connection_entries (s : GatewayState) (connection address : Nat)
    (hact : s.active_connections_num < s.peripheral_nodes.length)
    (hcap : s.peripheral_nodes.length ≤ 255) :
    (add_connection s connection address).active_connections_num
      = s.active_connections_num + 1 ∧
    (add_connection s connection address).peripheral_nodes.length
      = s.peripheral_nodes.length ∧
    (∃ old, s.peripheral_nodes[s.active_connections_num]? = some old ∧
      (add_connection s connection address).peripheral_nodes[s.active_connections_num]?
        = some { old with
            connection_handle := connection
            device_address := address
            id := s.active_connections_num }) ∧
    (∀ j, j ≠ s.active_connections_num →
      (add_connection s connection address).peripheral_nodes[j]? = s.peripheral_nodes[j]?) := by
  obtain ⟨old, hold⟩ := getElem?_of_lt s.peripheral_nodes s.active_connections_num hact
  refine ⟨?_, ?_, ⟨old, hold, ?_⟩, fun j hj => ?_⟩
  · show (s.active_connections_num + 1) % 256 = _
    omega
  · show (set_node s.peripheral_nodes s.active_connections_num _).length = _
    rw [length_set_node]
  · show (set_node s.peripheral_nodes s.active_connections_num _)[s.active_connections_num]?
      = _
    rw [getElem?_set_node, if_pos rfl, hold]
    rfl
  · show (set_node s.peripheral_nodes s.active_connections_num _)[j]? = _
    rw [getElem?_set_node, if_neg (Ne.symm hj)]

/-- Successive adds: the `k`-th added connection is stored at index `active length + k`
with that index as node id. -/
theorem add_all_entries (cfg : gateway_config) (connections : List (Nat × Nat)) :
    ∀ s : GatewayState,
      s.active_connections_num + connections.length ≤ s.peripheral_nodes.length →
      s.peripheral_nodes.length ≤ 255 →
      (directory_run cfg s (add_all connections)).active_connections_num
        = s.active_connections_num + connections.length ∧
      (directory_run cfg s (add_all connections)).peripheral_nodes.length
        = s.peripheral_nodes.length ∧
      (∀ j, j < s.active_connections_num →
        (directory_run cfg s (add_all connections)).peripheral_nodes[j]?
          = s.peripheral_nodes[j]?) ∧
      (∀ k connection address, connections[k]? = some (connection, address) →
        ∃ node,
          (directory_run cfg s (add_all connections)).peripheral_nodes[
              s.active_connections_num + k]? = some node ∧
          node.id = s.active_connections_num + k ∧
          node.connection_handle = connection ∧ node.device_address = address) := by
  induction connections with
  | nil =>
      intro s _ _
      refine ⟨rfl, rfl, fun _ _ => rfl, fun k connection address h => ?_⟩
      simp at h
  | cons p rest ih =>
      intro s hlen hcap
      have hlen' : s.active_connections_num + (rest.length + 1) ≤ s.peripheral_nodes.length := by
        simpa using hlen
      obtain ⟨h1, h2, ⟨old, _, h3⟩, h4⟩ :=
        add_connection_entries s p.1 p.2 (by omega) hcap
      obtain ⟨i1, i2, i3, i4⟩ := ih (add_connection s p.1 p.2) (by rw [h1, h2]; omega)
        (by rw [h2]; exact hcap)
      have hrun : directory_run cfg s (add_all (p :: rest))
          = directory_run cfg (add_connection s p.1 p.2) (add_all rest) := rfl
      rw [hrun]
      refine ⟨?_, ?_, fun j hj => ?_, fun k connection address hk => ?_⟩
      · rw [i1, h1]; simp only [List.length_cons]; omega
      · rw [i2, h2]
      · rw [i3 j (by rw [h1]; omega), h4 j (by omega)]
      · cases k with
        | zero =>
            simp only [List.getElem?_cons_zero, Option.some.injEq] at hk
            rw [Nat.add_zero, i3 _ (by rw [h1]; omega), h3]
            refine ⟨_, rfl, rfl, ?_, ?_⟩
            · show p.1 = connection
              rw [hk]
            · show p.2 = address
              rw [hk]
        | succ k =>
            simp only [List.getElem?_cons_succ] at hk
            obtain ⟨node, hn1, hn2, hn3, hn4⟩ := i4 k connection address hk
            rw [h1] at hn1 hn2
            have hidx : s.active_connections_num + (k + 1) = s.active_connections_num + 1 + k := by
              omega
            rw [hidx]
            exact ⟨node, hn1, hn2, hn3, hn4⟩

/-- Every active entry left by a removal is a former active entry, unchanged. -/
theorem remove_connection_survivors (cfg : gateway_config) (s : GatewayState)
    (connection : Nat) (hn : s.active_connections_num ≤ s.peripheral_nodes.length)
    (h255 : s.active_connections_num ≤ 255) :
    ∀ i node, i < (remove_connection cfg s connection).active_connections_num →
      (remove_connection cfg s connection).peripheral_nodes[i]? = some node →
      ∃ j, j < s.active_connections_num ∧ (j = i ∨ j = i + 1) ∧
        s.peripheral_nodes[j]? = some node := by
  intro i node hi hnode
  rw [remove_connection_active] at hi
  by_cases hf : find_index_by_connection_handle s connection = INVALID_TABLE_INDEX
  · rw [remove_connection_absent cfg s connection h255 hf i hi] at hnode
    exact ⟨i, by omega, Or.inl rfl, hnode⟩
  · obtain ⟨_, h2, h3⟩ := remove_connection_found cfg s connection _ hn rfl hf
    by_cases hik : i < find_index_by_connection_handle s connection
    · rw [h2 i hik] at hnode
      exact ⟨i, by omega, Or.inl rfl, hnode⟩
    · rw [h3 i (by omega) hi] at hnode
      exact ⟨i + 1, by omega, Or.inr rfl, hnode⟩

/-- C15. With the active length below a capacity of at most 255, `add_connection` stores
the new entry at index = old active length with node id = old active length and the given
connection handle and address, leaves the other entries alone, and increases the active
length by one; so the successive adds of a list of connections to the empty directory
receive the ids 0, 1, 2, … in order. `remove_connection` never changes the node id stored
in a surviving entry: every active entry after it is a former active entry (at the same
index or the next one) with all its fields, the id included. -/
theorem add_connection_assigns_ids (cfg : gateway_config) (s : GatewayState)
    (connection address : Nat)
    (hact : s.active_connections_num < s.peripheral_nodes.length)
    (hcap : s.peripheral_nodes.length ≤ 255) :
    let s' := add_connection s connection address
    s'.active_connections_num = s.active_connections_num + 1 ∧
    (∃ node, s'.peripheral_nodes[s.active_connections_num]? = some node ∧
      node.id = s.active_connections_num ∧ node.connection_handle = connection ∧
      node.device_address = address) ∧
    (∀ j, j ≠ s.active_connections_num → s'.peripheral_nodes[j]? = s.peripheral_nodes[j]?) ∧
    (∀ (connections : List (Nat × Nat)) (s0 : GatewayState),
      s0.active_connections_num = 0 → s0.peripheral_nodes.length = s.peripheral_nodes.length →
      connections.length ≤ s0.peripheral_nodes.length →
      ∀ k c a, connections[k]? = some (c, a) →
        ∃ node : peripheral_node_t,
          (directory_run cfg s0 (add_all connections)).peripheral_nodes[k]? = some node ∧
          node.id = k ∧ node.connection_handle = c ∧ node.device_address = a) ∧
    (∀ c i node, i < (remove_connection cfg s c).active_connections_num →
      (remove_connection cfg s c).peripheral_nodes[i]? = some node →
      ∃ j old, j < s.active_connections_num ∧ (j = i ∨ j = i + 1) ∧
        s.peripheral_nodes[j]? = some old ∧ node = old ∧ node.id = old.id) := by
  intro s'
  obtain ⟨h1, _, ⟨old, _, h3⟩, h4⟩ := add_connection_entries s connection address hact hcap
  refine ⟨h1, ⟨_, h3, rfl, rfl, rfl⟩, h4, ?_, ?_⟩
  · intro connections s0 h0 hlen0 hfit k c a hk
    obtain ⟨_, _, _, i4⟩ := add_all_entries cfg connections s0 (by omega)
      (by rw [hlen0]; exact hcap)
    obtain ⟨node, hn1, hn2, hn3, hn4⟩ := i4 k c a hk
    rw [h0, Nat.zero_add] at hn1 hn2
    exact ⟨node, hn1, hn2, hn3, hn4⟩
  · intro c i node hi hnode
    obtain ⟨j, hj1, hj2, hj3⟩ :=
      remove_connection_survivors cfg s c (by omega) (by omega) i node hi hnode
    exact ⟨j, node, hj1, hj2, hj3, rfl, rfl⟩

/-- Witness of C15: the third add on a table of three slots stores connection 3 at index 2
with node id 2. -/
theorem add_connection_assigns_ids_witness :
    (directory_run cfg_three (gateway_initialized cfg_three)
      (add_all [(1, 11), (2, 12)])).active_connections_num
      < (directory_run cfg_three (gateway_initialized cfg_three)
          (add_all [(1, 11), (2, 12)])).peripheral_nodes.length ∧
    (directory_run cfg_three (gateway_initialized cfg_three)
      (add_all [(1, 11), (2, 12)])).peripheral_nodes.length ≤ 255 ∧
    (add_connection (directory_run cfg_three (gateway_initialized cfg_three)
      (add_all [(1, 11), (2, 12)])) 3 13).active_connections_num
      = (directory_run cfg_three (gateway_initialized cfg_three)
          (add_all [(1, 11), (2, 12)])).active_connections_num + 1 :=
  ⟨by decide, by decide,
    (add_connection_assigns_ids cfg_three (directory_run cfg_three
      (gateway_initialized cfg_three) (add_all [(1, 11), (2, 12)])) 3 13 (by decide)
      (by decide)).1⟩

/-! ## Gateway: link close and link open -/

/-- C18. For every provisioning state and every link-closed event for connection `c`,
`gateway_node_bt_connection_closed` leaves the directory as `remove_connection(c)` does
(when the scan finds `c` at index `k` of a directory whose active length is within the
table: active length one less, entries below `k` unchanged, later active entries moved
down by one), issues a scan-start command exactly when the state before the event was not
scanning, and ends with provisioning state scanning. The handler halts only when that
scan-start command fails. -/
theorem connection_closed_resumes_scanning (cfg : gateway_config) (env : GatewayEnv)
    (s : GatewayState) (connection : Nat) :
    let o := gateway_node_bt_connection_closed cfg env s connection
    o.state.peripheral_nodes = (remove_connection cfg s connection).peripheral_nodes ∧
    o.state.active_connections_num = s.active_connections_num - 1 ∧
    (GatewayCmd.scanner_start ∈ o.cmds ↔
      s.connection_state ≠ bt_connection_state_enum.scanning) ∧
    (o.cmds = if s.connection_state ≠ bt_connection_state_enum.scanning
      then [GatewayCmd.scanner_start] else []) ∧
    (o.halted = false → o.state.connection_state = bt_connection_state_enum.scanning) ∧
    (o.halted = true ↔
      (s.connection_state ≠ bt_connection_state_enum.scanning ∧
        env.status GatewayCmd.scanner_start ≠ SL_STATUS_OK)) ∧
    (∀ k, s.active_connections_num ≤ s.peripheral_nodes.length →
      find_index_by_connection_handle s connection = k → k ≠ INVALID_TABLE_INDEX →
      k < s.active_connections_num ∧
      (∀ i, i < k → o.state.peripheral_nodes[i]? = s.peripheral_nodes[i]?) ∧
      (∀ i, k ≤ i → i < s.active_connections_num - 1 →
        o.state.peripheral_nodes[i]? = s.peripheral_nodes[i + 1]?)) := by
  intro o
  have hstate : (remove_connection cfg s connection).connection_state = s.connection_state := by
    unfold remove_connection; rfl
  have ho : o = gateway_node_bt_connection_closed cfg env s connection := rfl
  clear_value o
  unfold gateway_node_bt_connection_closed at ho
  simp only [hstate] at ho
  have hact := remove_connection_active cfg s connection
  by_cases hsc : s.connection_state = bt_connection_state_enum.scanning
  · simp only [hsc, ne_eq, not_true_eq_false, if_false] at ho
    have h1 : o.state = remove_connection cfg s connection := by rw [ho]; rfl
    have h2 : o.cmds = [] := by rw [ho]; rfl
    have h3 : o.halted = false := by rw [ho]; rfl
    rw [h1, h2, h3]
    refine ⟨rfl, hact, by simp [hsc], by simp [hsc], fun _ => by rw [hstate, hsc],
      by simp [hsc], fun k hn hk hf => remove_connection_found cfg s connection k hn hk hf⟩
  · simp only [ne_eq, hsc, not_false_eq_true, if_true, g_call, Outcome.andThen,
      Outcome.pure] at ho
    by_cases hst : env.status GatewayCmd.scanner_start = SL_STATUS_OK
    · simp only [hst, ne_eq, not_true_eq_false, decide_False, Bool.false_eq_true,
        if_false, List.append_nil] at ho
      have h1 : o.state = { remove_connection cfg s connection with
          connection_state := bt_connection_state_enum.scanning } := by rw [ho]
      have h2 : o.cmds = [GatewayCmd.scanner_start] := by rw [ho]
      have h3 : o.halted = false := by rw [ho]
      rw [h1, h2, h3]
      refine ⟨rfl, hact, by simp [hsc], by simp [hsc], fun _ => rfl, by simp [hst],
        fun k hn hk hf => remove_connection_found cfg s connection k hn hk hf⟩
    · simp only [hst, ne_eq, not_false_eq_true, decide_True, if_true] at ho
      have h1 : o.state = remove_connection cfg s connection := by rw [ho]
      have h2 : o.cmds = [GatewayCmd.scanner_start] := by rw [ho]
      have h3 : o.halted = true := by rw [ho]
      rw [h1, h2, h3]
      refine ⟨rfl, hact, by simp [hsc], by simp [hsc], (fun h => by cases h),
        by simp [hsc, hst],
        fun k hn hk hf => remove_connection_found cfg s connection k hn hk hf⟩

/-- Witness of C18: closing connection 2 of three while the gateway waits for a write
acknowledgment issues scan-start and moves the entry of connection 3 down. -/
theorem connection_closed_resumes_scanning_witness :
    gateway_state_three.active_connections_num ≤ gateway_state_three.peripheral_nodes.length ∧
    find_index_by_connection_handle gateway_state_three 2 = 1 ∧
    (1 : Nat) ≠ INVALID_TABLE_INDEX ∧
    (gateway_node_bt_connection_closed cfg_three (genv_at 0) gateway_state_three
      2).state.peripheral_nodes[1]? = gateway_state_three.peripheral_nodes[1 + 1]? :=
  ⟨by decide, by decide, by decide,
    ((connection_closed_resumes_scanning cfg_three (genv_at 0) gateway_state_three 2).2.2.2.2.2.2
      1 (by decide) (by decide) (by decide)).2.2 1 (by decide) (by decide)⟩

/-- C20 fails on the code. A link-opened event for connection 1 arrives at the booted
gateway and the service-discovery command fails with `SL_STATUS_INVALID_HANDLE`: the
handler issues scan-start (and sets the state to scanning), but then goes on to add the
connection to the directory and to set the provisioning state to `discover_service`,
which is the state after the event. -/
theorem invalid_handle_does_not_end_scanning :
    genv_invalid_handle.status
      (GatewayCmd.gatt_discover_primary_services_by_uuid 1 pawr_configuration_service_uuid)
      = SL_STATUS_INVALID_HANDLE ∧
    (gateway_booted cfg_example).connection_state = bt_connection_state_enum.scanning ∧
    (gateway_booted cfg_example).active_connections_num = 0 ∧
    (gateway_node_on_bt_event cfg_example genv_invalid_handle (gateway_booted cfg_example)
      (GatewayEvent.connection_opened 1 address_example)).cmds
      = [GatewayCmd.gatt_discover_primary_services_by_uuid 1 pawr_configuration_service_uuid,
         GatewayCmd.scanner_start] ∧
    (gateway_node_on_bt_event cfg_example genv_invalid_handle (gateway_booted cfg_example)
      (GatewayEvent.connection_opened 1 address_example)).halted = false ∧
    (gateway_node_on_bt_event cfg_example genv_invalid_handle (gateway_booted cfg_example)
      (GatewayEvent.connection_opened 1 address_example)).state.connection_state
      = bt_connection_state_enum.discover_service ∧
    (gateway_node_on_bt_event cfg_example genv_invalid_handle (gateway_booted cfg_example)
      (GatewayEvent.connection_opened 1 address_example)).state.connection_state
      ≠ bt_connection_state_enum.scanning ∧
    (gateway_node_on_bt_event cfg_example genv_invalid_handle (gateway_booted cfg_example)
      (GatewayEvent.connection_opened 1 address_example)).state.active_connections_num = 1 ∧
    find_index_by_connection_handle
      (gateway_node_on_bt_event cfg_example genv_invalid_handle (gateway_booted cfg_example)
        (GatewayEvent.connection_opened 1 address_example)).state 1 = 0 := by
  decide

/-! ## Gateway: what no handler changes -/

theorem andThen_satisfies {σ κ : Type} {P : σ → Prop} {Q : κ → Prop} {o : Outcome σ κ}
    {f : σ → Outcome σ κ} (ho : o.satisfies P Q) (hf : ∀ s1, P s1 → (f s1).satisfies P Q) :
    (o.andThen f).satisfies P Q := by
  unfold Outcome.andThen
  by_cases hh : o.halted = true
  · rw [if_pos hh]; exact ho
  · rw [if_neg hh]
    obtain ⟨h1, h2⟩ := hf o.state ho.1
    refine ⟨h1, fun c hc => ?_⟩
    rcases List.mem_append.mp hc with h | h
    · exact ho.2 c h
    · exact h2 c h

theorem g_call_satisfies {P : GatewayState → Prop} {Q : GatewayCmd → Prop} {env : GatewayEnv}
    {s : GatewayState} {c : GatewayCmd} (hs : P s) (hc : Q c) :
    (g_call env s c).satisfies P Q :=
  ⟨hs, fun c' h => by rw [List.mem_singleton.mp h]; exact hc⟩

theorem g_issue_satisfies {P : GatewayState → Prop} {Q : GatewayCmd → Prop}
    {s : GatewayState} {c : GatewayCmd} (hs : P s) (hc : Q c) :
    (g_issue s c).satisfies P Q :=
  ⟨hs, fun c' h => by rw [List.mem_singleton.mp h]; exact hc⟩

theorem pure_satisfies {P : GatewayState → Prop} {Q : GatewayCmd → Prop} {s : GatewayState}
    (hs : P s) : (Outcome.pure s : GOutcome).satisfies P Q :=
  ⟨hs, fun c h => by cases h⟩

theorem g_halt_satisfies {P : GatewayState → Prop} {Q : GatewayCmd → Prop} {s : GatewayState}
    (hs : P s) : (g_halt s).satisfies P Q :=
  ⟨hs, fun c h => by cases h⟩

theorem boot_evt_counter (cfg : gateway_config) (env : GatewayEnv) (s : GatewayState)
    (k : Nat) (hs : evt_counter_is k s) :
    (gateway_node_bt_boot cfg env s).satisfies (evt_counter_is k) (payload_is k) := by
  unfold gateway_node_bt_boot
  refine andThen_satisfies (g_call_satisfies hs (fun _ _ _ _ _ h => by cases h)) ?_
  intro s1 hs1
  dsimp only
  split
  · refine andThen_satisfies (andThen_satisfies
      (g_call_satisfies hs1 (fun _ _ _ _ _ h => by cases h)) ?_) ?_
    · intro s2 hs2
      exact g_call_satisfies hs2 (fun _ _ _ _ _ h => by cases h)
    · intro s3 hs3
      exact pure_satisfies hs3
  · exact g_halt_satisfies hs1

theorem advertisement_evt_counter (cfg : gateway_config) (env : GatewayEnv)
    (s : GatewayState) (event_flags : Nat) (address : List Nat) (address_type : Nat)
    (data : List Nat) (k : Nat) (hs : evt_counter_is k s) :
    (gateway_node_bt_legacy_advertisement_report cfg env s event_flags address address_type
      data).satisfies (evt_counter_is k) (payload_is k) := by
  unfold gateway_node_bt_legacy_advertisement_report
  split
  · split
    · exact g_halt_satisfies hs
    · split
      · refine andThen_satisfies (g_call_satisfies hs (fun _ _ _ _ _ h => by cases h)) ?_
        intro s1 hs1
        split
        · exact g_call_satisfies hs1 (fun _ _ _ _ _ h => by cases h)
        · exact pure_satisfies hs1
      · exact pure_satisfies hs
  · exact pure_satisfies hs

theorem connection_opened_evt_counter (env : GatewayEnv) (s : GatewayState)
    (connection : Nat) (address : List Nat) (k : Nat) (hs : evt_counter_is k s) :
    (gateway_node_bt_connection_opened env s connection address).satisfies
      (evt_counter_is k) (payload_is k) := by
  unfold gateway_node_bt_connection_opened
  dsimp only
  refine andThen_satisfies ?_ ?_
  · split
    · refine andThen_satisfies (g_issue_satisfies hs (fun _ _ _ _ _ h => by cases h)) ?_
      intro s1 hs1
      refine andThen_satisfies (g_call_satisfies hs1 (fun _ _ _ _ _ h => by cases h)) ?_
      intro s2 hs2
      exact pure_satisfies hs2
    · exact g_call_satisfies hs (fun _ _ _ _ _ h => by cases h)
  · intro s3 hs3
    exact pure_satisfies hs3

theorem discover_service_evt_counter (env : GatewayEnv) (s : GatewayState)
    (connection : Nat) (k : Nat) (hs : evt_counter_is k s) :
    (gateway_node_bt_discover_service env s connection).satisfies
      (evt_counter_is k) (payload_is k) := by
  unfold gateway_node_bt_discover_service
  dsimp only
  split
  · split
    · split
      · refine andThen_satisfies (g_call_satisfies hs (fun _ _ _ _ _ h => by cases h)) ?_
        intro s1 hs1
        exact pure_satisfies hs1
      · exact pure_satisfies hs
    · exact pure_satisfies hs
  · exact pure_satisfies hs

theorem set_peripheral_node_id_evt_counter (env : GatewayEnv) (s : GatewayState)
    (connection : Nat) (k : Nat) (hs : evt_counter_is k s) :
    (gateway_node_bt_set_peripheral_node_id env s connection).satisfies
      (evt_counter_is k) (payload_is k) := by
  unfold gateway_node_bt_set_peripheral_node_id
  dsimp only
  split
  · split
    · split
      · refine andThen_satisfies (g_issue_satisfies hs (fun _ _ _ _ _ h => by cases h)) ?_
        intro s1 hs1
        refine andThen_satisfies (g_call_satisfies hs1 (fun _ _ _ _ _ h => by cases h)) ?_
        intro s2 hs2
        exact pure_satisfies hs2
      · exact pure_satisfies hs
    · exact pure_satisfies hs
  · exact pure_satisfies hs

theorem set_subevent_id_evt_counter (env : GatewayEnv) (s : GatewayState)
    (connection : Nat) (k : Nat) (hs : evt_counter_is k s) :
    (gateway_node_bt_set_subevent_id env s connection).satisfies
      (evt_counter_is k) (payload_is k) := by
  unfold gateway_node_bt_set_subevent_id
  dsimp only
  split
  · split
    · split
      · refine andThen_satisfies (g_call_satisfies hs (fun _ _ _ _ _ h => by cases h)) ?_
        intro s1 hs1
        exact pure_satisfies hs1
      · exact pure_satisfies hs
    · exact pure_satisfies hs
  · exact pure_satisfies hs

theorem set_wall_clock_time_evt_counter (env : GatewayEnv) (s : GatewayState)
    (connection : Nat) (k : Nat) (hs : evt_counter_is k s) :
    (gateway_node_bt_set_wall_clock_time env s connection).satisfies
      (evt_counter_is k) (payload_is k) := by
  unfold gateway_node_bt_set_wall_clock_time
  dsimp only
  split
  · split
    · split
      · refine andThen_satisfies (g_call_satisfies hs (fun _ _ _ _ _ h => by cases h)) ?_
        intro s1 hs1
        exact pure_satisfies hs1
      · exact pure_satisfies hs
    · exact pure_satisfies hs
  · exact pure_satisfies hs

theorem set_clock_correction_evt_counter (env : GatewayEnv) (s : GatewayState)
    (connection result : Nat) (k : Nat) (hs : evt_counter_is k s) :
    (gateway_node_bt_set_clock_correction env s connection result).satisfies
      (evt_counter_is k) (payload_is k) := by
  unfold gateway_node_bt_set_clock_correction
  dsimp only
  split
  · split
    · split
      · split
        · exact ⟨hs, fun c h => by cases h⟩
        · refine andThen_satisfies (g_call_satisfies hs (fun _ _ _ _ _ h => by cases h)) ?_
          intro s1 hs1
          exact pure_satisfies hs1
      · exact pure_satisfies hs
    · exact pure_satisfies hs
  · exact pure_satisfies hs

theorem sync_process_finished_evt_counter (cfg : gateway_config) (env : GatewayEnv)
    (s : GatewayState) (connection result : Nat) (k : Nat) (hs : evt_counter_is k s) :
    (gateway_node_bt_sync_process_finished cfg env s connection result).satisfies
      (evt_counter_is k) (payload_is k) := by
  unfold gateway_node_bt_sync_process_finished
  dsimp only
  split
  · split
    · exact g_halt_satisfies hs
    · refine andThen_satisfies (andThen_satisfies
        (g_call_satisfies hs (fun _ _ _ _ _ h => by cases h)) ?_) ?_
      · intro s1 hs1
        split
        · exact g_issue_satisfies hs1 (fun _ _ _ _ _ h => by cases h)
        · exact pure_satisfies hs1
      · intro s3 hs3
        split
        · refine andThen_satisfies (g_call_satisfies hs3 (fun _ _ _ _ _ h => by cases h)) ?_
          intro s4 hs4
          exact pure_satisfies hs4
        · exact pure_satisfies hs3
  · exact pure_satisfies hs

theorem data_request_evt_counter (cfg : gateway_config) (env : GatewayEnv)
    (s : GatewayState) (k : Nat) (hs : evt_counter_is k s) :
    (gateway_node_bt_advertiser_subevent_data_request cfg env s).satisfies
      (evt_counter_is k) (payload_is k) := by
  unfold gateway_node_bt_advertiser_subevent_data_request
  refine g_call_satisfies hs ?_
  intro data a b e f h
  cases h
  have hk : s.evt_counter = k := hs
  rw [hk]
  rfl

theorem connection_closed_evt_counter (cfg : gateway_config) (env : GatewayEnv)
    (s : GatewayState) (connection : Nat) (k : Nat) (hs : evt_counter_is k s) :
    (gateway_node_bt_connection_closed cfg env s connection).satisfies
      (evt_counter_is k) (payload_is k) := by
  have hr : evt_counter_is k (remove_connection cfg s connection) := hs
  unfold gateway_node_bt_connection_closed
  dsimp only
  split
  · refine andThen_satisfies (g_call_satisfies hr (fun _ _ _ _ _ h => by cases h)) ?_
    intro s1 hs1
    exact pure_satisfies hs1
  · exact pure_satisfies hr

theorem service_evt_counter (s : GatewayState) (connection service : Nat) :
    (gateway_node_bt_service s connection service).evt_counter = s.evt_counter := by
  unfold gateway_node_bt_service
  dsimp only
  split <;> rfl

theorem characteristic_evt_counter (s : GatewayState) (connection characteristic : Nat)
    (uuid : List Nat) :
    (gateway_node_bt_characteristic s connection characteristic uuid).evt_counter
      = s.evt_counter := by
  unfold gateway_node_bt_characteristic
  dsimp only
  split <;> rfl

/-- No handler changes `evt_counter`, and any data command issued carries it. -/
theorem event_evt_counter (cfg : gateway_config) (env : GatewayEnv) (s : GatewayState)
    (evt : GatewayEvent) (k : Nat) (hs : evt_counter_is k s) :
    (gateway_node_on_bt_event cfg env s evt).satisfies (evt_counter_is k) (payload_is k) := by
  unfold gateway_node_on_bt_event
  split
  · cases evt with
    | system_boot => exact boot_evt_counter cfg env s k hs
    | scanner_legacy_advertisement_report event_flags address address_type data =>
        exact advertisement_evt_counter cfg env s event_flags address address_type data k hs
    | connection_opened connection address =>
        exact connection_opened_evt_counter env s connection address k hs
    | gatt_service connection service =>
        refine pure_satisfies ?_
        show (gateway_node_bt_service s connection service).evt_counter = k
        rw [service_evt_counter]; exact hs
    | gatt_characteristic connection characteristic uuid =>
        refine pure_satisfies ?_
        show (gateway_node_bt_characteristic s connection characteristic uuid).evt_counter = k
        rw [characteristic_evt_counter]; exact hs
    | gatt_procedure_completed connection result =>
        show (gateway_node_bt_procedure_completed cfg env s connection result).satisfies _ _
        unfold gateway_node_bt_procedure_completed
        split
        · exact discover_service_evt_counter env s connection k hs
        · exact set_peripheral_node_id_evt_counter env s connection k hs
        · exact set_subevent_id_evt_counter env s connection k hs
        · exact set_wall_clock_time_evt_counter env s connection k hs
        · exact set_clock_correction_evt_counter env s connection result k hs
        · exact sync_process_finished_evt_counter cfg env s connection result k hs
        · exact pure_satisfies hs
    | pawr_advertiser_subevent_data_request => exact data_request_evt_counter cfg env s k hs
    | connection_closed connection => exact connection_closed_evt_counter cfg env s connection k hs
    | other => exact pure_satisfies hs
  · exact g_halt_satisfies hs

theorem run_evt_counter (cfg : gateway_config) (events : List (GatewayEnv × GatewayEvent)) :
    ∀ (s : GatewayState) (k : Nat), evt_counter_is k s →
      (gateway_run cfg s events).satisfies (evt_counter_is k) (payload_is k) := by
  induction events with
  | nil => intro s k hs; exact pure_satisfies hs
  | cons p rest ih =>
      intro s k hs
      obtain ⟨env, evt⟩ := p
      show ((gateway_node_on_bt_event cfg env s evt).andThen
        fun s1 => gateway_run cfg s1 rest).satisfies _ _
      exact andThen_satisfies (event_evt_counter cfg env s evt k hs)
        (fun s1 hs1 => ih s1 k hs1)

theorem payload_is_byte (k : Nat) (c : GatewayCmd) (h : payload_is k c) (b : Nat)
    (hb : payload_byte c = some b) : b = k % 256 := by
  cases c with
  | pawr_advertiser_set_subevent_data a1 a2 a3 a4 data =>
      have h1 := h data a1 a2 a3 a4 rfl
      have h2 : data.head? = some b := hb
      rw [h1] at h2
      exact (Option.some.inj h2).symm
  | _ => cases hb

/-- Counterexample to C19 as stated. After boot, two data requests in a row both supply
the payload bytes 0, 0: the byte of the second request is the byte of the first, not that
byte plus 1. -/
theorem heartbeat_byte_not_incremented :
    (gateway_run cfg_example (gateway_initialized cfg_example)
      [(genv_at 0, GatewayEvent.system_boot),
       (genv_at 1, GatewayEvent.pawr_advertiser_subevent_data_request),
       (genv_at 2, GatewayEvent.pawr_advertiser_subevent_data_request)]).cmds
      = [GatewayCmd.advertiser_create_set,
         GatewayCmd.pawr_advertiser_start 0 800 800 2,
         GatewayCmd.scanner_start,
         GatewayCmd.pawr_advertiser_set_subevent_data 0 0 0 2 [0, 0],
         GatewayCmd.pawr_advertiser_set_subevent_data 0 0 0 2 [0, 0]] ∧
    (gateway_run cfg_example (gateway_initialized cfg_example)
      [(genv_at 0, GatewayEvent.system_boot),
       (genv_at 1, GatewayEvent.pawr_advertiser_subevent_data_request),
       (genv_at 2, GatewayEvent.pawr_advertiser_subevent_data_request)]).cmds.filterMap
        payload_byte = [0, 0] ∧
    (0 : Nat) ≠ (0 + 1) % 256 := by
  decide

/-- C19, amended. On each periodic-train data-request the gateway supplies two payload
bytes, the first of which is `evt_counter`; no handler ever changes `evt_counter`. So over
every event sequence the counter keeps its value and every data-request supplies the
same first byte, `evt_counter mod 256` (0 from the static initialiser): the payload byte
of the (k+1)-th request equals that of the k-th. -/
theorem heartbeat_byte_constant (cfg : gateway_config) (s : GatewayState)
    (events : List (GatewayEnv × GatewayEvent)) (env : GatewayEnv) :
    (gateway_run cfg s events).state.evt_counter = s.evt_counter ∧
    (∀ c ∈ (gateway_run cfg s events).cmds, ∀ b, payload_byte c = some b →
      b = s.evt_counter % 256) ∧
    (gateway_node_bt_advertiser_subevent_data_request cfg env s).cmds
      = [GatewayCmd.pawr_advertiser_set_subevent_data s.advertising_set_handle SUBEVENT_ID 0
          cfg.MAX_NUM_PERIPHERAL_NODES
          [s.evt_counter % 256, env.byte_after_evt_counter % 256]] ∧
    (gateway_node_bt_advertiser_subevent_data_request cfg env s).state = s ∧
    (GatewayState.init cfg).evt_counter = 0 := by
  obtain ⟨h1, h2⟩ := run_evt_counter cfg events s s.evt_counter rfl
  exact ⟨h1, fun c hc b hb => payload_is_byte _ c (h2 c hc) b hb, rfl, rfl, rfl⟩

/-! ## Gateway: the full network -/

/-- C30 fails on the code. In the booted gateway (two slots, empty directory) connection
handle 1 matches no active entry: the scan returns `INVALID_TABLE_INDEX = 255`, which is not
below the capacity 2, and `get_current_peripheral_node` reads `peripheral_nodes[255]`,
outside the table. The same holds with one active entry (connection 1) and handle 2. A
handle that is in the directory is read at its index. -/
theorem get_current_peripheral_node_reads_outside_table :
    cfg_example.MAX_NUM_PERIPHERAL_NODES = 2 ∧
    (gateway_booted cfg_example).peripheral_nodes.length = 2 ∧
    (gateway_booted cfg_example).active_connections_num = 0 ∧
    find_index_by_connection_handle (gateway_booted cfg_example) 1 = 255 ∧
    ¬ find_index_by_connection_handle (gateway_booted cfg_example) 1
        < cfg_example.MAX_NUM_PERIPHERAL_NODES ∧
    get_current_peripheral_node (gateway_booted cfg_example) 1 = none ∧
    gateway_state_example.peripheral_nodes.length = 2 ∧
    find_index_by_connection_handle gateway_state_example 2 = 255 ∧
    get_current_peripheral_node gateway_state_example 2 = none ∧
    get_current_peripheral_node gateway_state_example 1 = some node_example := by
  decide

/-! ## Gateway: the advertisement scan -/

/-- C29 fails on the code. For the two-byte payload `FF 00` and `len = 2` the first field
announces the length 255: the type byte `00` is not an identifier list, and the 8-bit index
becomes `(0 + 255 + 1) mod 256 = 0`, the value it had. The index does not increase, the
loop condition `0 < 2` holds again, and the loop has not ended after any number of
iterations. -/
theorem find_service_by_uuid_does_not_terminate :
    advertisement_length_255.length = 2 ∧
    (0 + byte_at advertisement_length_255 0 + 1) % 256 = 0 ∧
    (∀ fuel, find_service_by_uuid_loop advertisement_length_255 2 fuel 0 = none) ∧
    find_service_by_uuid advertisement_length_255 2 = none := by
  have h : ∀ fuel, find_service_by_uuid_loop advertisement_length_255 2 fuel 0 = none := by
    intro fuel
    induction fuel with
    | zero => rfl
    | succ n ih =>
        unfold find_service_by_uuid_loop
        have h1 : (0 + byte_at advertisement_length_255 0 + 1) % 256 = 0 := by decide
        have h2 : ¬ ((byte_at advertisement_length_255 (0 + 1) = 0x02 ∨
            byte_at advertisement_length_255 (0 + 1) = 0x03) ∧
            byte_at advertisement_length_255 (0 + 2) = 0xC7 ∧
            byte_at advertisement_length_255 (0 + 3) = 0x98) := by decide
        simp only [show (0 : Nat) < 2 by decide, if_true, if_neg h2, h1, ih]
  exact ⟨by decide, by decide, h, h 256⟩

/-! ## Gateway: boot -/

/-- C22 fails on the code. With a configured interval of 6 units (0.0075 s, the lower end
of the range the assertion message names) the boot handler creates the advertising set and
then halts on `pawr_interval > 0x06`: the periodic broadcast is not started and the state
stays `inactive`. With 7 units it starts the broadcast with 7 as minimum and maximum
interval, starts scanning and moves to state `scanning`. -/
theorem boot_rejects_interval_of_6_units :
    cfg_interval_6.pawr_interval_units = 6 ∧
    (gateway_node_on_bt_event cfg_interval_6 (genv_at 0) (gateway_initialized cfg_interval_6)
      GatewayEvent.system_boot).halted = true ∧
    (gateway_node_on_bt_event cfg_interval_6 (genv_at 0) (gateway_initialized cfg_interval_6)
      GatewayEvent.system_boot).cmds = [GatewayCmd.advertiser_create_set] ∧
    (gateway_node_on_bt_event cfg_interval_6 (genv_at 0) (gateway_initialized cfg_interval_6)
      GatewayEvent.system_boot).state.connection_state = bt_connection_state_enum.inactive ∧
    (gateway_node_on_bt_event cfg_interval_7 (genv_at 0) (gateway_initialized cfg_interval_7)
      GatewayEvent.system_boot).halted = false ∧
    (gateway_node_on_bt_event cfg_interval_7 (genv_at 0) (gateway_initialized cfg_interval_7)
      GatewayEvent.system_boot).cmds
      = [GatewayCmd.advertiser_create_set, GatewayCmd.pawr_advertiser_start 0 7 7 2,
         GatewayCmd.scanner_start] ∧
    (gateway_node_on_bt_event cfg_interval_7 (genv_at 0) (gateway_initialized cfg_interval_7)
      GatewayEvent.system_boot).state.connection_state = bt_connection_state_enum.scanning := by
  decide

/-! ## Peripheral: the virtual clock -/

theorem andThen_state_cases {σ κ : Type} (o : Outcome σ κ) (f : σ → Outcome σ κ) :
    (o.andThen f).state = o.state ∨ (o.andThen f).state = (f o.state).state := by
  unfold Outcome.andThen
  by_cases h : o.halted = true
  · left; rw [if_pos h]
  · right; rw [if_neg h]

/-- An event that is neither a report nor a write of the wall clock or of the clock
correction leaves `clock_offset` unchanged. -/
theorem event_keeps_clock_offset (db : gatt_db) (env : PeripheralEnv) (s : PeripheralState)
    (evt : PeripheralEvent) (h : keeps_clock_offset db evt) :
    (peripheral_node_on_bt_event db env s evt).state.time_sync_handle.clock_offset
      = s.time_sync_handle.clock_offset := by
  cases evt with
  | system_boot =>
      simp only [peripheral_node_on_bt_event, peripheral_node_bt_boot, p_call, Outcome.andThen]
      split_ifs <;> rfl
  | connection_parameters connection => rfl
  | connection_opened connection => rfl
  | gatt_server_user_write_request connection characteristic att_opcode value =>
      obtain ⟨h1, h2⟩ := h
      simp only [peripheral_node_on_bt_event]
      rw [write_request_state]
      unfold write_request_update
      simp only [if_neg h1, if_neg h2]
      split_ifs <;> rfl
  | pawr_sync_transfer_received status sync adv_interval =>
      simp only [peripheral_node_on_bt_event, peripheral_node_bt_sync_transfer_received]
      split_ifs <;> rfl
  | pawr_sync_subevent_report data_status => exact absurd h (by simp [keeps_clock_offset])
  | connection_closed =>
      simp only [peripheral_node_on_bt_event, peripheral_node_bt_connection_closed, p_call,
        Outcome.andThen]
      split_ifs <;> rfl
  | sync_closed => rfl
  | other => rfl

theorem run_keeps_clock_offset (db : gatt_db)
    (evts : List (PeripheralEnv × PeripheralEvent)) :
    ∀ s : PeripheralState, (∀ p ∈ evts, keeps_clock_offset db p.2) →
      (peripheral_run db s evts).state.time_sync_handle.clock_offset
        = s.time_sync_handle.clock_offset := by
  induction evts with
  | nil => intro s _; rfl
  | cons p rest ih =>
      intro s h
      obtain ⟨env, evt⟩ := p
      have h1 := event_keeps_clock_offset db env s evt (h (env, evt) (List.mem_cons_self _ _))
      have h2 := ih (peripheral_node_on_bt_event db env s evt).state
        (fun q hq => h q (List.mem_cons_of_mem _ hq))
      show ((peripheral_node_on_bt_event db env s evt).andThen
        fun s1 => peripheral_run db s1 rest).state.time_sync_handle.clock_offset = _
      rcases andThen_state_cases (peripheral_node_on_bt_event db env s evt)
        (fun s1 => peripheral_run db s1 rest) with hc | hc
      · rw [hc, h1]
      · rw [hc, h2, h1]

theorem virtual_clock_sum (W C t t0 : Nat) :
    u32 ((t : Int) + i32 (i32 ((W : Int) - t0) + C)) = u32 ((W : Int) + C + ((t : Int) - t0)) := by
  unfold u32 i32; omega

theorem virtual_clock_sum_nat (W C t t0 : Nat) (h : t0 ≤ t) :
    u32 ((W : Int) + C + ((t : Int) - t0)) = (W + C + (t - t0)) % 4294967296 := by
  unfold u32; omega

theorem virtual_clock_at_write (W t0 : Nat) (hW : W < 4294967296) :
    u32 ((t0 : Int) + i32 ((W : Int) - t0)) = W := by
  unfold u32 i32; omega

/-- C26. The peripheral handles a wall-clock write of `W` at local tick `t0`, later a
clock-correction write of `C`, and between and after them only events that are neither
periodic reports nor further wall-clock or clock-correction writes. Then at every local
tick `t` the query `get_timestamp` returns `W + C + (t - t0)` modulo `2^32` (for `t0 ≤ t`
with the natural-number difference), and queried at tick `t0` right after the wall-clock
write alone it returns `W`. The attribute identifiers are pairwise different. -/
theorem virtual_clock_after_writes (db : gatt_db) (s : PeripheralState)
    (env0 env1 env : PeripheralEnv) (connection att_opcode W C : Nat)
    (between after : List (PeripheralEnv × PeripheralEvent))
    (hdb : db.distinct) (hW : W < 4294967296) (hC : C < 4294967296)
    (hbetween : ∀ p ∈ between, keeps_clock_offset db p.2)
    (hafter : ∀ p ∈ after, keeps_clock_offset db p.2) :
    let s1 := (peripheral_node_on_bt_event db env0 s
      (PeripheralEvent.gatt_server_user_write_request connection db.gattdb_wall_clock_time
        att_opcode (le32_bytes W))).state
    let s2 := (peripheral_run db s1 between).state
    let s3 := (peripheral_node_on_bt_event db env1 s2
      (PeripheralEvent.gatt_server_user_write_request connection db.gattdb_clock_correction
        att_opcode (le32_bytes C))).state
    let s4 := (peripheral_run db s3 after).state
    get_timestamp env s4
      = u32 ((W : Int) + C + ((env.tick_count : Int) - env0.tick_count)) ∧
    (env0.tick_count ≤ env.tick_count →
      get_timestamp env s4 = (W + C + (env.tick_count - env0.tick_count)) % 4294967296) ∧
    get_timestamp env0 s1 = W := by
  intro s1 s2 s3 s4
  have h1 : s1.time_sync_handle.clock_offset = i32 ((W : Int) - env0.tick_count) := by
    show (peripheral_node_bt_write_request db env0 s connection db.gattdb_wall_clock_time
      att_opcode (le32_bytes W)).state.time_sync_handle.clock_offset = _
    rw [write_request_state, write_wall_clock_update db env0 s _ hdb, read_u32_le32_bytes W hW]
  have h2 : s2.time_sync_handle.clock_offset = s1.time_sync_handle.clock_offset :=
    run_keeps_clock_offset db between s1 hbetween
  have h3 : s3.time_sync_handle.clock_offset = i32 (s2.time_sync_handle.clock_offset + C) := by
    show (peripheral_node_bt_write_request db env1 s2 connection db.gattdb_clock_correction
      att_opcode (le32_bytes C)).state.time_sync_handle.clock_offset = _
    rw [write_request_state, write_clock_correction_update db env1 s2 _ hdb,
      read_u32_le32_bytes C hC]
  have h4 : s4.time_sync_handle.clock_offset = s3.time_sync_handle.clock_offset :=
    run_keeps_clock_offset db after s3 hafter
  clear_value s1 s2 s3 s4
  have h5 : get_timestamp env s4
      = u32 ((W : Int) + C + ((env.tick_count : Int) - env0.tick_count)) := by
    unfold get_timestamp
    rw [h4, h3, h2, h1]
    exact virtual_clock_sum W C env.tick_count env0.tick_count
  refine ⟨h5, fun ht => ?_, ?_⟩
  · rw [h5]; exact virtual_clock_sum_nat W C _ _ ht
  · unfold get_timestamp
    rw [h1]; exact virtual_clock_at_write W _ hW

/-- Witness of C26: wall clock 1000 written at tick 400, a sync-closed event, correction 25
written at tick 450, a link-closed event, then the clock read at tick 500 is 1125. -/
theorem virtual_clock_after_writes_witness :
    get_timestamp (env_at 500)
      (peripheral_run db_example
        (peripheral_node_on_bt_event db_example (env_at 450)
          (peripheral_run db_example
            (peripheral_node_on_bt_event db_example (env_at 400) state_example
              (PeripheralEvent.gatt_server_user_write_request 1
                db_example.gattdb_wall_clock_time sl_bt_gatt_write_request
                (le32_bytes 1000))).state
            [(env_at 420, PeripheralEvent.sync_closed)]).state
          (PeripheralEvent.gatt_server_user_write_request 1
            db_example.gattdb_clock_correction sl_bt_gatt_write_request
            (le32_bytes 25))).state
        [(env_at 470, PeripheralEvent.connection_closed)]).state
      = (1000 + 25 + (500 - 400)) % 4294967296 :=
  (virtual_clock_after_writes db_example state_example (env_at 400) (env_at 450) (env_at 500)
    1 sl_bt_gatt_write_request 1000 25 [(env_at 420, PeripheralEvent.sync_closed)]
    [(env_at 470, PeripheralEvent.connection_closed)] (by decide) (by decide) (by decide)
    (by simp [keeps_clock_offset]) (by simp [keeps_clock_offset])).2.1 (by decide)

/-! ## Gateway: the node id sent to a peripheral -/

/-- C24 fails on the code. Two advertisement reports are handled before the scan stops, so
two links open one after the other: connection 1 gets the stored id 0 and connection 2 the
stored id 1. When the characteristic discovery of connection 1 completes in state
`set_peripheral_node_id`, the handler writes the byte `active_connections_num - 1 = 1` to
connection 1, whose directory entry stores the id 0. -/
theorem node_id_written_differs_from_stored_id :
    (gateway_run cfg_example (gateway_initialized cfg_example)
      trace_two_links_opened).halted = false ∧
    gateway_two_links_opened.connection_state
      = bt_connection_state_enum.set_peripheral_node_id ∧
    gateway_two_links_opened.active_connections_num = 2 ∧
    find_index_by_connection_handle gateway_two_links_opened 1 = 0 ∧
    (gateway_two_links_opened.peripheral_nodes[0]?).map peripheral_node_t.id = some 0 ∧
    (gateway_two_links_opened.peripheral_nodes[0]?).map peripheral_node_t.connection_handle
      = some 1 ∧
    (gateway_node_on_bt_event cfg_example (genv_at 60) gateway_two_links_opened
      (GatewayEvent.gatt_procedure_completed 1 0)).cmds
      = [GatewayCmd.scanner_stop, GatewayCmd.gatt_write_characteristic_value 1 25 [1]] ∧
    (gateway_node_on_bt_event cfg_example (genv_at 60) gateway_two_links_opened
      (GatewayEvent.gatt_procedure_completed 1 0)).state.connection_state
      = bt_connection_state_enum.set_subevent_id := by
  decide

/-! ## Gateway: the provisioning steps -/

theorem provisioning_step_pure (env : GatewayEnv) (s : GatewayState) (connection : Nat) :
    provisioning_step env s connection (Outcome.pure s) := by
  unfold provisioning_step Outcome.pure
  simp

theorem discover_service_step (env : GatewayEnv) (s : GatewayState) (connection : Nat)
    (hst : s.connection_state = bt_connection_state_enum.discover_service) :
    provisioning_step env s connection (gateway_node_bt_discover_service env s connection) := by
  unfold gateway_node_bt_discover_service
  dsimp only
  by_cases hidx : find_index_by_connection_handle s connection = INVALID_TABLE_INDEX
  · rw [if_neg (not_not.mpr hidx)]; exact provisioning_step_pure env s connection
  · obtain ⟨_, ⟨node, hnode, hconn⟩, _⟩ := find_index_found s connection hidx
    rw [if_pos hidx, hnode]; dsimp only
    by_cases hh : node.pawr_configuration_service_handle = INVALID_NODE_SERV_HANDLE
    · rw [if_neg (not_not.mpr hh)]; exact provisioning_step_pure env s connection
    · rw [if_pos hh]
      unfold provisioning_step
      by_cases hs : env.status (GatewayCmd.gatt_discover_characteristics connection
          node.pawr_configuration_service_handle) = SL_STATUS_OK
      · simp [g_call, Outcome.andThen, Outcome.pure, hs, hst, provisioning_successors,
          step_handle_discovered, hconn, hh, hidx, hnode]
      · simp [g_call, Outcome.andThen, Outcome.pure, hs, hst]

theorem set_peripheral_node_id_step (env : GatewayEnv) (s : GatewayState) (connection : Nat)
    (hst : s.connection_state = bt_connection_state_enum.set_peripheral_node_id) :
    provisioning_step env s connection
      (gateway_node_bt_set_peripheral_node_id env s connection) := by
  unfold gateway_node_bt_set_peripheral_node_id
  dsimp only
  by_cases hidx : find_index_by_connection_handle s connection = INVALID_TABLE_INDEX
  · rw [if_neg (not_not.mpr hidx)]; exact provisioning_step_pure env s connection
  · obtain ⟨_, ⟨node, hnode, hconn⟩, _⟩ := find_index_found s connection hidx
    rw [if_pos hidx, hnode]; dsimp only
    by_cases hh : node.peripheral_node_id_characteristic_handle = INVALID_NODE_CHAR_HANDLE
    · rw [if_neg (not_not.mpr hh)]; exact provisioning_step_pure env s connection
    · rw [if_pos hh]
      unfold provisioning_step
      by_cases hs : env.status (GatewayCmd.gatt_write_characteristic_value connection
          node.peripheral_node_id_characteristic_handle
          [u32 ((s.active_connections_num : Int) - 1) % 256]) = SL_STATUS_OK
      · simp [g_call, g_issue, Outcome.andThen, Outcome.pure, hs, hst,
          provisioning_successors, step_handle_discovered, hconn, hh, hidx, hnode]
      · simp [g_call, g_issue, Outcome.andThen, Outcome.pure, hs, hst]

theorem set_subevent_id_step (env : GatewayEnv) (s : GatewayState) (connection : Nat)
    (hst : s.connection_state = bt_connection_state_enum.set_subevent_id) :
    provisioning_step env s connection (gateway_node_bt_set_subevent_id env s connection) := by
  unfold gateway_node_bt_set_subevent_id
  dsimp only
  by_cases hidx : find_index_by_connection_handle s connection = INVALID_TABLE_INDEX
  · rw [if_neg (not_not.mpr hidx)]; exact provisioning_step_pure env s connection
  · obtain ⟨_, ⟨node, hnode, hconn⟩, _⟩ := find_index_found s connection hidx
    rw [if_pos hidx, hnode]; dsimp only
    by_cases hh : node.subevent_id_characteristic_handle = INVALID_NODE_CHAR_HANDLE
    · rw [if_neg (not_not.mpr hh)]; exact provisioning_step_pure env s connection
    · rw [if_pos hh]
      unfold provisioning_step
      by_cases hs : env.status (GatewayCmd.gatt_write_characteristic_value connection
          node.subevent_id_characteristic_handle [s.subevent_id]) = SL_STATUS_OK
      · simp [g_call, Outcome.andThen, Outcome.pure, hs, hst, provisioning_successors,
          step_handle_discovered, hconn, hh, hidx, hnode]
      · simp [g_call, Outcome.andThen, Outcome.pure, hs, hst]

theorem set_wall_clock_time_step (env : GatewayEnv) (s : GatewayState) (connection : Nat)
    (hst : s.connection_state = bt_connection_state_enum.set_wall_clock_time) :
    provisioning_step env s connection
      (gateway_node_bt_set_wall_clock_time env s connection) := by
  unfold gateway_node_bt_set_wall_clock_time
  dsimp only
  by_cases hidx : find_index_by_connection_handle s connection = INVALID_TABLE_INDEX
  · rw [if_neg (not_not.mpr hidx)]; exact provisioning_step_pure env s connection
  · obtain ⟨_, ⟨node, hnode, hconn⟩, _⟩ := find_index_found s connection hidx
    rw [if_pos hidx, hnode]; dsimp only
    by_cases hh : node.wall_clock_time_characteristic_handle = INVALID_NODE_CHAR_HANDLE
    · rw [if_neg (not_not.mpr hh)]; exact provisioning_step_pure env s connection
    · rw [if_pos hh]
      unfold provisioning_step
      by_cases hs : env.status (GatewayCmd.gatt_write_characteristic_value connection
          node.wall_clock_time_characteristic_handle (le32_bytes env.tick_count))
          = SL_STATUS_OK
      · simp [g_call, Outcome.andThen, Outcome.pure, hs, hst, provisioning_successors,
          step_handle_discovered, hconn, hh, hidx, hnode]
      · simp [g_call, Outcome.andThen, Outcome.pure, hs, hst]

theorem set_clock_correction_step (env : GatewayEnv) (s : GatewayState)
    (connection result : Nat)
    (hst : s.connection_state = bt_connection_state_enum.set_clock_correction) :
    provisioning_step env s connection
      (gateway_node_bt_set_clock_correction env s connection result) := by
  unfold gateway_node_bt_set_clock_correction
  dsimp only
  by_cases hidx : find_index_by_connection_handle s connection = INVALID_TABLE_INDEX
  · rw [if_neg (not_not.mpr hidx)]; exact provisioning_step_pure env s connection
  · obtain ⟨_, ⟨node, hnode, hconn⟩, _⟩ := find_index_found s connection hidx
    rw [if_pos hidx, hnode]; dsimp only
    by_cases hh : node.clock_correction_characteristic_handle = INVALID_NODE_CHAR_HANDLE
    · rw [if_neg (not_not.mpr hh)]; exact provisioning_step_pure env s connection
    · rw [if_pos hh]
      unfold provisioning_step
      by_cases hr : result = SL_STATUS_OK
      · rw [if_neg (not_not.mpr hr)]
        by_cases hs : env.status (GatewayCmd.gatt_write_characteristic_value connection
            node.clock_correction_characteristic_handle
            (le32_bytes (clock_correction env.tick_count s.wall_clock_time))) = SL_STATUS_OK
        · simp [g_call, Outcome.andThen, Outcome.pure, hs, hst, provisioning_successors,
            step_handle_discovered, hconn, hh, hidx, hnode]
        · simp [g_call, Outcome.andThen, Outcome.pure, hs, hst]
      · rw [if_pos hr]
        simp [hst]

theorem sync_process_finished_step (cfg : gateway_config) (env : GatewayEnv)
    (s : GatewayState) (connection result : Nat)
    (hst : s.connection_state = bt_connection_state_enum.sync_process_finished) :
    provisioning_step env s connection
      (gateway_node_bt_sync_process_finished cfg env s connection result) := by
  unfold gateway_node_bt_sync_process_finished
  dsimp only
  by_cases hidx : find_index_by_connection_handle s connection = INVALID_TABLE_INDEX
  · rw [if_neg (not_not.mpr hidx)]; exact provisioning_step_pure env s connection
  · obtain ⟨_, ⟨node, hnode, hconn⟩, _⟩ := find_index_found s connection hidx
    rw [if_pos hidx]
    unfold provisioning_step
    by_cases hr : result = SL_STATUS_OK
    · rw [if_neg (not_not.mpr hr)]
      by_cases hp : env.status (GatewayCmd.advertiser_past_transfer connection 0
          s.advertising_set_handle) = SL_STATUS_OK
      · by_cases hcb : s.sync_ready_callback = true
        · by_cases hact : s.active_connections_num < cfg.SL_BT_CONFIG_MAX_CONNECTIONS
          · by_cases hs : env.status GatewayCmd.scanner_start = SL_STATUS_OK
            · simp [g_call, g_issue, Outcome.andThen, Outcome.pure, g_halt, hp, hcb, hact, hs,
                hst, provisioning_successors, step_handle_discovered, hconn, hidx, hnode]
            · simp [g_call, g_issue, Outcome.andThen, Outcome.pure, g_halt, hp, hcb, hact, hs,
                hst]
          · simp [g_call, g_issue, Outcome.andThen, Outcome.pure, g_halt, hp, hcb, hact,
              hst, provisioning_successors, step_handle_discovered, hconn, hidx, hnode]
        · by_cases hact : s.active_connections_num < cfg.SL_BT_CONFIG_MAX_CONNECTIONS
          · by_cases hs : env.status GatewayCmd.scanner_start = SL_STATUS_OK
            · simp [g_call, g_issue, Outcome.andThen, Outcome.pure, g_halt, hp, hcb, hact, hs,
                hst, provisioning_successors, step_handle_discovered, hconn, hidx, hnode]
            · simp [g_call, g_issue, Outcome.andThen, Outcome.pure, g_halt, hp, hcb, hact, hs,
                hst]
          · simp [g_call, g_issue, Outcome.andThen, Outcome.pure, g_halt, hp, hcb, hact,
              hst, provisioning_successors, step_handle_discovered, hconn, hidx, hnode]
      · simp [g_call, g_issue, Outcome.andThen, Outcome.pure, g_halt, hp, hst]
    · rw [if_pos hr]
      simp [g_halt, hst]

/-- C23. In every gateway state `s`, the outcome `o` of a procedure-completed event for
`connection`: the provisioning state is unchanged or is the immediate successor of the state
before, in the order `discover_service → set_peripheral_node_id → set_subevent_id →
set_wall_clock_time → set_clock_correction → sync_process_finished → (scanning |
sensor_network_full)`, so no step is skipped. It advances only when the firmware does not
halt, the connection is in the directory and the handle needed for the step is discovered
in its entry. When it is unchanged and the firmware goes on, no command at all was issued;
when it is unchanged, every attribute write issued was refused by the stack (the failed
status halts the firmware). -/
theorem procedure_completed_steps (cfg : gateway_config) (env : GatewayEnv)
    (s : GatewayState) (connection result : Nat) :
    let o := gateway_node_on_bt_event cfg env s
      (GatewayEvent.gatt_procedure_completed connection result)
    (o.state.connection_state = s.connection_state ∨
      o.state.connection_state ∈ provisioning_successors s.connection_state) ∧
    (o.state.connection_state ≠ s.connection_state →
      o.halted = false ∧
      find_index_by_connection_handle s connection ≠ INVALID_TABLE_INDEX ∧
      ∃ node : peripheral_node_t,
        s.peripheral_nodes[find_index_by_connection_handle s connection]? = some node ∧
        node.connection_handle = connection ∧
        step_handle_discovered s.connection_state node) ∧
    (o.state.connection_state = s.connection_state → o.halted = false → o.cmds = []) ∧
    (o.state.connection_state = s.connection_state →
      ∀ c ∈ o.cmds, ∀ link characteristic value,
        c = GatewayCmd.gatt_write_characteristic_value link characteristic value →
        env.status c ≠ SL_STATUS_OK) := by
  intro o
  have ho : provisioning_step env s connection o := by
    show provisioning_step env s connection (gateway_node_on_bt_event cfg env s
      (GatewayEvent.gatt_procedure_completed connection result))
    unfold gateway_node_on_bt_event
    by_cases hinit : s.ble_time_sync_initialized = true
    · rw [if_pos hinit]
      dsimp only
      unfold gateway_node_bt_procedure_completed
      cases hst : s.connection_state with
      | inactive => exact provisioning_step_pure env s connection
      | scanning => exact provisioning_step_pure env s connection
      | discover_service => exact discover_service_step env s connection hst
      | set_peripheral_node_id => exact set_peripheral_node_id_step env s connection hst
      | set_subevent_id => exact set_subevent_id_step env s connection hst
      | set_wall_clock_time => exact set_wall_clock_time_step env s connection hst
      | set_clock_correction => exact set_clock_correction_step env s connection result hst
      | sync_process_finished =>
          exact sync_process_finished_step cfg env s connection result hst
      | sensor_network_full => exact provisioning_step_pure env s connection
    · rw [if_neg hinit]
      unfold provisioning_step g_halt
      simp
  exact ho

/-! ## Peripheral: the bound on the last accepted tick error -/

theorem drift_invariant_of_fields (s s' : PeripheralState) (h : drift_invariant s)
    (h1 : s'.last_subevent_tick_error = s.last_subevent_tick_error)
    (h2 : s'.tick_error_max = s.tick_error_max)
    (h3 : s'.time_sync_handle.clock_offset = s.time_sync_handle.clock_offset) :
    drift_invariant s' := by
  unfold drift_invariant at *
  rw [h1, h2, h3]; exact h

theorem write_request_update_drift (db : gatt_db) (env : PeripheralEnv) (s : PeripheralState)
    (characteristic : Nat) (value : List Nat) (h : drift_invariant s) :
    drift_invariant (write_request_update db env s characteristic value) ∧
    (write_request_update db env s characteristic value).tick_error_max = s.tick_error_max := by
  unfold drift_invariant at *
  obtain ⟨h1, h2, h3, h4⟩ := h
  unfold write_request_update
  dsimp only
  refine ⟨⟨h1, h2, ?_⟩, rfl⟩
  split_ifs <;>
    first
      | exact i32_range _
      | exact ⟨h3, h4⟩

/-- The state left by a complete report, in the two cases of the handler. -/
theorem report_drift (env : PeripheralEnv) (s : PeripheralState) (data_status : Nat)
    (h : drift_invariant s) :
    drift_invariant (peripheral_node_bt_sync_subevent_report env s data_status) ∧
    (peripheral_node_bt_sync_subevent_report env s data_status).tick_error_max
      = s.tick_error_max ∧
    ∃ d : Int, |d| ≤ s.tick_error_max ∧
      (peripheral_node_bt_sync_subevent_report env s data_status).time_sync_handle.clock_offset
        = i32 (s.time_sync_handle.clock_offset - d) := by
  obtain ⟨h1, h2, h3, h4⟩ := h
  have hM0 : 0 ≤ s.tick_error_max := le_trans (abs_nonneg _) h1
  by_cases hd : data_status = 0
  · rw [hd, report_complete env s ⟨by linarith, h2⟩]
    split_ifs with hacc
    · exact ⟨⟨hacc, h2, i32_range _⟩, rfl, _, hacc, rfl⟩
    · exact ⟨⟨h1, h2, i32_range _⟩, rfl, _, h1, rfl⟩
  · have hs : peripheral_node_bt_sync_subevent_report env s data_status = s := by
      unfold peripheral_node_bt_sync_subevent_report
      rw [if_neg hd]
    rw [hs]
    refine ⟨⟨h1, h2, h3, h4⟩, rfl, 0, ?_, ?_⟩
    · rw [abs_zero]; exact hM0
    · rw [sub_zero, i32_of_range _ ⟨h3, h4⟩]

/-- One event keeps the invariant, provided a sync-acquired event arrives while
`tick_error_max` is still 0; any other event leaves `tick_error_max` unchanged. -/
theorem event_drift_invariant (db : gatt_db) (env : PeripheralEnv) (s : PeripheralState)
    (evt : PeripheralEvent) (h : drift_invariant s)
    (hacq : count_acquisitions [(env, evt)] = 0 ∨ s.tick_error_max = 0) :
    drift_invariant (peripheral_node_on_bt_event db env s evt).state ∧
    (count_acquisitions [(env, evt)] = 0 →
      (peripheral_node_on_bt_event db env s evt).state.tick_error_max = s.tick_error_max) := by
  cases evt with
  | system_boot =>
      simp only [peripheral_node_on_bt_event, peripheral_node_bt_boot, p_call, Outcome.andThen]
      split_ifs <;> exact ⟨h, fun _ => rfl⟩
  | connection_parameters connection => exact ⟨h, fun _ => rfl⟩
  | connection_opened connection => exact ⟨h, fun _ => rfl⟩
  | gatt_server_user_write_request connection characteristic att_opcode value =>
      simp only [peripheral_node_on_bt_event]
      rw [write_request_state]
      have := write_request_update_drift db env s characteristic value h
      exact ⟨this.1, fun _ => this.2⟩
  | pawr_sync_transfer_received status sync adv_interval =>
      simp only [peripheral_node_on_bt_event]
      by_cases hst : status = SL_STATUS_OK
      · rw [hst, sync_transfer_received_ok_state]
        have hc : count_acquisitions [(env, PeripheralEvent.pawr_sync_transfer_received status
            sync adv_interval)] = 1 := by
          simp [count_acquisitions, hst]
        have hM : s.tick_error_max = 0 := by
          rcases hacq with h0 | h0
          · rw [hc] at h0; exact absurd h0 (by decide)
          · exact h0
        rw [hst] at hc
        obtain ⟨h1, h2, h3, h4⟩ := h
        rw [hM] at h1
        have hl : s.last_subevent_tick_error = 0 := abs_nonpos_iff.mp h1
        obtain ⟨-, hp0, hp1⟩ := tick_error_20_ppm_eq
          (correct_36_ppm (env.ms32_to_tick (10 * adv_interval / 8)))
        refine ⟨⟨?_, ?_, h3, h4⟩, fun h0 => ?_⟩
        · show |s.last_subevent_tick_error| ≤ tick_error_20_ppm _
          rw [hl, abs_zero]; exact hp0
        · show tick_error_20_ppm _ < 2147483648
          linarith
        · rw [hc] at h0; exact absurd h0 (by decide)
      · have hs : peripheral_node_bt_sync_transfer_received env s status sync adv_interval
            = Outcome.pure s := by
          unfold peripheral_node_bt_sync_transfer_received
          rw [if_neg hst]
        rw [hs]; exact ⟨h, fun _ => rfl⟩
  | pawr_sync_subevent_report data_status =>
      have := report_drift env s data_status h
      exact ⟨this.1, fun _ => this.2.1⟩
  | connection_closed =>
      simp only [peripheral_node_on_bt_event, peripheral_node_bt_connection_closed, p_call,
        Outcome.andThen]
      split_ifs <;> exact ⟨h, fun _ => rfl⟩
  | sync_closed => exact ⟨h, fun _ => rfl⟩
  | other => exact ⟨h, fun _ => rfl⟩

theorem count_acquisitions_cons (p : PeripheralEnv × PeripheralEvent)
    (rest : List (PeripheralEnv × PeripheralEvent)) :
    count_acquisitions (p :: rest) = count_acquisitions [p] + count_acquisitions rest := by
  obtain ⟨env, evt⟩ := p
  cases evt <;> simp [count_acquisitions]

/-- From a state that satisfies the invariant, a run with no sync-acquired event, or with at
most one that arrives while `tick_error_max` is still 0, keeps the invariant; with none,
`tick_error_max` is unchanged. -/
theorem run_drift_invariant (db : gatt_db) (evts : List (PeripheralEnv × PeripheralEvent)) :
    ∀ s : PeripheralState, drift_invariant s →
      (count_acquisitions evts = 0 ∨ (count_acquisitions evts ≤ 1 ∧ s.tick_error_max = 0)) →
      drift_invariant (peripheral_run db s evts).state ∧
      (count_acquisitions evts = 0 →
        (peripheral_run db s evts).state.tick_error_max = s.tick_error_max) := by
  induction evts with
  | nil => intro s h _; exact ⟨h, fun _ => rfl⟩
  | cons p rest ih =>
      intro s h hacq
      obtain ⟨env, evt⟩ := p
      rw [count_acquisitions_cons] at hacq ⊢
      have hev := event_drift_invariant db env s evt h (by
        rcases hacq with h0 | ⟨_, h0⟩
        · left; omega
        · right; exact h0)
      have hrest := ih (peripheral_node_on_bt_event db env s evt).state hev.1 (by
        rcases hacq with h0 | ⟨h1, h0⟩
        · left; omega
        · by_cases ha : count_acquisitions [(env, evt)] = 0
          · right; exact ⟨by omega, by rw [hev.2 ha]; exact h0⟩
          · left; omega)
      show drift_invariant ((peripheral_node_on_bt_event db env s evt).andThen
          fun s1 => peripheral_run db s1 rest).state ∧
        (_ → ((peripheral_node_on_bt_event db env s evt).andThen
          fun s1 => peripheral_run db s1 rest).state.tick_error_max = _)
      rcases andThen_state_cases (peripheral_node_on_bt_event db env s evt)
        (fun s1 => peripheral_run db s1 rest) with hc | hc
      · rw [hc]; exact ⟨hev.1, fun h0 => hev.2 (by omega)⟩
      · rw [hc]
        exact ⟨hrest.1, fun h0 => by rw [hrest.2 (by omega), hev.2 (by omega)]⟩

theorem drift_invariant_init : drift_invariant PeripheralState.init := by
  unfold drift_invariant; decide

theorem i32_change (x d M : Int) (hd : |d| ≤ M) (hM : M < 2147483648) :
    |i32 (i32 (x - d) - x)| ≤ M := by
  obtain ⟨h1, h2⟩ := abs_le.mp hd
  have h : i32 (i32 (x - d) - x) = -d := by unfold i32; omega
  rw [h, abs_neg]; exact hd

theorem i32_change_in_range (x d M : Int) (hd : |d| ≤ M)
    (hlo : -2147483648 ≤ x - M) (hhi : x + M < 2147483648) :
    |i32 (x - d) - x| ≤ M := by
  obtain ⟨h1, h2⟩ := abs_le.mp hd
  have h : i32 (x - d) - x = -d := by unfold i32; omega
  rw [h, abs_neg]; exact hd

/-- C27. Let `s` be the state the peripheral reaches from its initial state after any event
sequence with at most one sync-acquired event (a sync-transfer event with status OK). Then
`|last accepted tick error| ≤ tick_error_max` holds in `s` and again after a periodic report
handled in `s`. The report subtracts from `clock_offset`, in `int32_t` arithmetic, an amount
`d` with `|d| ≤ tick_error_max`: the 32-bit change of `clock_offset` is at most
`tick_error_max` in absolute value, and so is the integer change whenever
`clock_offset ± tick_error_max` are `int32_t` values. With no sync-acquired event so far the
report leaves `clock_offset` unchanged. -/
theorem report_changes_offset_within_bound (db : gatt_db)
    (evts : List (PeripheralEnv × PeripheralEvent)) (env : PeripheralEnv) (data_status : Nat)
    (h : count_acquisitions evts ≤ 1) :
    let s := (peripheral_run db PeripheralState.init evts).state
    let s' := (peripheral_node_on_bt_event db env s
      (PeripheralEvent.pawr_sync_subevent_report data_status)).state
    |s.last_subevent_tick_error| ≤ s.tick_error_max ∧
    |s'.last_subevent_tick_error| ≤ s'.tick_error_max ∧
    s'.tick_error_max = s.tick_error_max ∧
    (∃ d : Int, |d| ≤ s.tick_error_max ∧
      s'.time_sync_handle.clock_offset = i32 (s.time_sync_handle.clock_offset - d)) ∧
    |i32 (s'.time_sync_handle.clock_offset - s.time_sync_handle.clock_offset)|
      ≤ s.tick_error_max ∧
    (-2147483648 ≤ s.time_sync_handle.clock_offset - s.tick_error_max →
      s.time_sync_handle.clock_offset + s.tick_error_max < 2147483648 →
      |s'.time_sync_handle.clock_offset - s.time_sync_handle.clock_offset|
        ≤ s.tick_error_max) ∧
    (count_acquisitions evts = 0 →
      s'.time_sync_handle.clock_offset = s.time_sync_handle.clock_offset) := by
  intro s s'
  have hrun := run_drift_invariant db evts PeripheralState.init drift_invariant_init (by
    by_cases h0 : count_acquisitions evts = 0
    · left; exact h0
    · right; exact ⟨h, rfl⟩)
  have hs : drift_invariant s := hrun.1
  have hM0 : count_acquisitions evts = 0 → s.tick_error_max = 0 := fun h0 => hrun.2 h0
  have hrep : drift_invariant s' ∧ s'.tick_error_max = s.tick_error_max ∧
      ∃ d : Int, |d| ≤ s.tick_error_max ∧
        s'.time_sync_handle.clock_offset = i32 (s.time_sync_handle.clock_offset - d) :=
    report_drift env s data_status hs
  clear_value s s'
  obtain ⟨hinv', hMeq, d, hd, hoff⟩ := hrep
  obtain ⟨h1, h2, h3, h4⟩ := hs
  refine ⟨h1, hinv'.1, hMeq, ⟨d, hd, hoff⟩, ?_, fun hlo hhi => ?_, fun h0 => ?_⟩
  · rw [hoff]; exact i32_change _ _ _ hd h2
  · rw [hoff]; exact i32_change_in_range _ _ _ hd hlo hhi
  · rw [hoff]
    have hd0 : d = 0 := by
      rw [hM0 h0] at hd; exact abs_nonpos_iff.mp hd
    rw [hd0, sub_zero, i32_of_range _ ⟨h3, h4⟩]

/-- Witness of C27: the initial state, a sync-acquired event at tick 0 with advertised
interval 40000 (50 s, `N = 1638342`, `tick_error_max = 32`), then a report at tick 1638352:
the offset changes from 0 to -10. -/
theorem report_changes_offset_within_bound_witness :
    count_acquisitions [(env_at 0, PeripheralEvent.pawr_sync_transfer_received 0 1 40000)] ≤ 1 ∧
    (peripheral_run db_example PeripheralState.init
      [(env_at 0, PeripheralEvent.pawr_sync_transfer_received 0 1 40000)]).state.tick_error_max
      = 32 ∧
    (peripheral_node_on_bt_event db_example (env_at 1638352)
      (peripheral_run db_example PeripheralState.init
        [(env_at 0, PeripheralEvent.pawr_sync_transfer_received 0 1 40000)]).state
      (PeripheralEvent.pawr_sync_subevent_report 0)).state.time_sync_handle.clock_offset
      = -10 ∧
    |i32 ((peripheral_node_on_bt_event db_example (env_at 1638352)
      (peripheral_run db_example PeripheralState.init
        [(env_at 0, PeripheralEvent.pawr_sync_transfer_received 0 1 40000)]).state
      (PeripheralEvent.pawr_sync_subevent_report 0)).state.time_sync_handle.clock_offset
      - (peripheral_run db_example PeripheralState.init
        [(env_at 0, PeripheralEvent.pawr_sync_transfer_received 0 1
          40000)]).state.time_sync_handle.clock_offset)|
      ≤ (peripheral_run db_example PeripheralState.init
        [(env_at 0, PeripheralEvent.pawr_sync_transfer_received 0 1
          40000)]).state.tick_error_max :=
  ⟨by decide, by decide, by decide,
    (report_changes_offset_within_bound db_example
      [(env_at 0, PeripheralEvent.pawr_sync_transfer_received 0 1 40000)] (env_at 1638352) 0
      (by decide)).2.2.2.2.1⟩

/-! ## Gateway: distinct node ids -/

/-- Counterexample to C28 as stated: from the empty directory of two slots, two adds, the
removal of the first connection and a third add (each add with the active length below the
capacity) leave two active entries, connections 2 and 3, that both have node id 1. -/
theorem node_ids_repeat_after_remove :
    (gateway_initialized cfg_example).active_connections_num = 0 ∧
    adds_within_capacity cfg_example (gateway_initialized cfg_example) ops_add_after_remove ∧
    (directory_run cfg_example (gateway_initialized cfg_example)
      ops_add_after_remove).active_connections_num = 2 ∧
    ((directory_run cfg_example (gateway_initialized cfg_example)
      ops_add_after_remove).peripheral_nodes[0]?).map
        (fun node => (node.connection_handle, node.id)) = some (2, 1) ∧
    ((directory_run cfg_example (gateway_initialized cfg_example)
      ops_add_after_remove).peripheral_nodes[1]?).map
        (fun node => (node.connection_handle, node.id)) = some (3, 1) ∧
    ¬ distinct_node_ids
      (directory_run cfg_example (gateway_initialized cfg_example) ops_add_after_remove) := by
  refine ⟨by decide, ⟨by decide, by decide, by decide, trivial⟩, by decide, by decide,
    by decide, fun h => ?_⟩
  exact h 0 1 _ _ (by decide) (by decide) rfl rfl rfl

theorem set_node_keeps_ids (nodes : List peripheral_node_t) (k : Nat)
    (f : peripheral_node_t → peripheral_node_t) (hf : ∀ node, (f node).id = node.id)
    (j : Nat) (b : peripheral_node_t) (h : (set_node nodes k f)[j]? = some b) :
    ∃ a : peripheral_node_t, nodes[j]? = some a ∧ a.id = b.id := by
  rw [getElem?_set_node] at h
  by_cases hk : k = j
  · rw [if_pos hk] at h
    cases hn : nodes[j]? with
    | none => rw [hn] at h; cases h
    | some a =>
        rw [hn] at h
        have hb : f a = b := by simpa using h
        exact ⟨a, rfl, by rw [← hb, hf]⟩
  · rw [if_neg hk] at h
    exact ⟨b, h, rfl⟩

theorem distinct_node_ids_of_same_ids (s s' : GatewayState)
    (hact : s'.active_connections_num = s.active_connections_num)
    (hids : ∀ (j : Nat) (b : peripheral_node_t), s'.peripheral_nodes[j]? = some b →
      ∃ a : peripheral_node_t, s.peripheral_nodes[j]? = some a ∧ a.id = b.id)
    (h : distinct_node_ids s) : distinct_node_ids s' := by
  intro i j a b hij hj ha hb
  obtain ⟨a0, ha0, hida⟩ := hids i a ha
  obtain ⟨b0, hb0, hidb⟩ := hids j b hb
  rw [hact] at hj
  rw [← hida, ← hidb]
  exact h i j a0 b0 hij hj ha0 hb0

theorem store_characteristic_id (uuid : List Nat) (characteristic : Nat)
    (node : peripheral_node_t) :
    (store_characteristic uuid characteristic node).id = node.id := by
  unfold store_characteristic
  dsimp only
  split_ifs <;> rfl

theorem service_distinct_node_ids (s : GatewayState) (connection service : Nat)
    (h : distinct_node_ids s) :
    distinct_node_ids (gateway_node_bt_service s connection service) := by
  unfold gateway_node_bt_service
  dsimp only
  split
  · refine distinct_node_ids_of_same_ids s _ rfl (fun j b hb => ?_) h
    exact set_node_keeps_ids s.peripheral_nodes _ _
      (fun node => by split_ifs <;> rfl) j b hb
  · exact h

theorem characteristic_distinct_node_ids (s : GatewayState)
    (connection characteristic : Nat) (uuid : List Nat) (h : distinct_node_ids s) :
    distinct_node_ids (gateway_node_bt_characteristic s connection characteristic uuid) := by
  unfold gateway_node_bt_characteristic
  dsimp only
  split
  · refine distinct_node_ids_of_same_ids s _ rfl (fun j b hb => ?_) h
    exact set_node_keeps_ids s.peripheral_nodes _ _
      (store_characteristic_id uuid characteristic) j b hb
  · exact h

/-- Removing a connection keeps the node ids of the active entries pairwise different:
the entries that remain keep their order. -/
theorem remove_connection_distinct_node_ids (cfg : gateway_config) (s : GatewayState)
    (connection : Nat) (hn : s.active_connections_num ≤ s.peripheral_nodes.length)
    (h255 : s.active_connections_num ≤ 255) (h : distinct_node_ids s) :
    distinct_node_ids (remove_connection cfg s connection) := by
  intro i j a b hij hj ha hb
  rw [remove_connection_active] at hj
  by_cases hk : find_index_by_connection_handle s connection = INVALID_TABLE_INDEX
  · have hkeep := remove_connection_absent cfg s connection h255 hk
    rw [hkeep i (by omega)] at ha
    rw [hkeep j hj] at hb
    exact h i j a b hij (by omega) ha hb
  · obtain ⟨hlt, hbelow, habove⟩ := remove_connection_found cfg s connection _ hn rfl hk
    by_cases hi : i < find_index_by_connection_handle s connection
    · rw [hbelow i hi] at ha
      by_cases hj' : j < find_index_by_connection_handle s connection
      · rw [hbelow j hj'] at hb
        exact h i j a b hij (by omega) ha hb
      · rw [habove j (by omega) hj] at hb
        exact h i (j + 1) a b (by omega) (by omega) ha hb
    · rw [habove i (by omega) (by omega)] at ha
      rw [habove j (by omega) hj] at hb
      exact h (i + 1) (j + 1) a b (by omega) (by omega) ha hb

/-- Adding a connection keeps the node ids pairwise different when no active entry has the
id it assigns. -/
theorem add_connection_distinct_node_ids (s : GatewayState) (connection address : Nat)
    (hact : s.active_connections_num < s.peripheral_nodes.length)
    (hcap : s.peripheral_nodes.length ≤ 255)
    (hfresh : ∀ node ∈ s.peripheral_nodes.take s.active_connections_num,
      node.id ≠ s.active_connections_num)
    (h : distinct_node_ids s) :
    distinct_node_ids (add_connection s connection address) := by
  obtain ⟨hnum, -, ⟨old, -, hnew⟩, hother⟩ := add_connection_entries s connection address hact hcap
  intro i j a b hij hj ha hb
  rw [hnum] at hj
  rw [hother i (by omega)] at ha
  by_cases hj' : j = s.active_connections_num
  · rw [hj', hnew] at hb
    have hbid : b.id = s.active_connections_num := by
      have := Option.some.inj hb
      rw [← this]
    rw [hbid]
    refine hfresh a (List.getElem?_mem (n := i) ?_)
    rw [List.getElem?_take_of_lt (by omega)]; exact ha
  · rw [hother j hj'] at hb
    exact h i j a b hij (by omega) ha hb

theorem run_distinct_node_ids (cfg : gateway_config)
    (hcap : cfg.MAX_NUM_PERIPHERAL_NODES ≤ 255) (ops : List DirectoryOp) :
    ∀ s : GatewayState, directory_invariant cfg s → distinct_node_ids s →
      adds_with_fresh_id cfg s ops → distinct_node_ids (directory_run cfg s ops) := by
  induction ops with
  | nil => intro s _ hd _; exact hd
  | cons op rest ih =>
      intro s hinv hd hadd
      cases op with
      | add connection address =>
          obtain ⟨h1, h2, h3⟩ : s.active_connections_num < cfg.MAX_NUM_PERIPHERAL_NODES ∧
              (∀ node ∈ s.peripheral_nodes.take s.active_connections_num,
                node.id ≠ s.active_connections_num) ∧
              adds_with_fresh_id cfg (add_connection s connection address) rest := hadd
          refine ih _ (add_connection_invariant cfg s connection address hinv hcap h1) ?_ h3
          exact add_connection_distinct_node_ids s connection address
            (by rw [hinv.1]; exact h1) (by rw [hinv.1]; exact hcap) h2 hd
      | remove connection =>
          refine ih _ (remove_connection_invariant cfg s connection hinv) ?_ hadd
          exact remove_connection_distinct_node_ids cfg s connection
            (by rw [hinv.1]; exact hinv.2.1) (le_trans hinv.2.1 hcap) hd
      | service connection_state connection service =>
          refine ih _ (service_invariant cfg s connection_state connection service hinv) ?_ hadd
          exact service_distinct_node_ids { s with connection_state := connection_state }
            connection service hd
      | characteristic connection characteristic uuid =>
          refine ih _ (characteristic_invariant cfg s connection characteristic uuid hinv) ?_
            hadd
          exact characteristic_distinct_node_ids s connection characteristic uuid hd

/-- C28, amended. In every directory state reached from the empty directory
(`init_sensor_nodes` on a table of `MAX_NUM_PERIPHERAL_NODES ≤ 255` slots with active length
0) by `add_connection`, `remove_connection` and discovery events, where every
`add_connection` is called with the active length below the capacity and while no active
entry has the id it assigns (the active length), the active entries have pairwise different
node ids. `remove_connection` never breaks this; an `add_connection` does when an active
entry already has that id. -/
theorem node_ids_distinct_with_fresh_adds (cfg : gateway_config) (s0 : GatewayState)
    (ops : List DirectoryOp)
    (hlen : s0.peripheral_nodes.length = cfg.MAX_NUM_PERIPHERAL_NODES)
    (hcap : cfg.MAX_NUM_PERIPHERAL_NODES ≤ 255) (h0 : s0.active_connections_num = 0)
    (hadd : adds_with_fresh_id cfg (init_sensor_nodes cfg s0) ops) :
    let s := directory_run cfg (init_sensor_nodes cfg s0) ops
    ∀ i j a b, i < j → j < s.active_connections_num →
      s.peripheral_nodes[i]? = some a → s.peripheral_nodes[j]? = some b → a.id ≠ b.id := by
  intro s
  have hempty : distinct_node_ids (init_sensor_nodes cfg s0) := by
    intro i j a b _ hj
    have : (init_sensor_nodes cfg s0).active_connections_num = 0 := h0
    omega
  exact run_distinct_node_ids cfg hcap ops _ (init_sensor_nodes_invariant cfg s0 hlen h0)
    hempty hadd

/-- Witness of C28 (amended): two adds, the removal of the last connection and a third add
on a table of two slots; the two active entries have the ids 0 and 1. -/
theorem node_ids_distinct_with_fresh_adds_witness :
    adds_with_fresh_id cfg_example (init_sensor_nodes cfg_example (GatewayState.init cfg_example))
      ops_add_after_remove_last ∧
    (directory_run cfg_example (init_sensor_nodes cfg_example (GatewayState.init cfg_example))
      ops_add_after_remove_last).active_connections_num = 2 ∧
    ∀ a b,
      (directory_run cfg_example (init_sensor_nodes cfg_example (GatewayState.init cfg_example))
        ops_add_after_remove_last).peripheral_nodes[0]? = some a →
      (directory_run cfg_example (init_sensor_nodes cfg_example (GatewayState.init cfg_example))
        ops_add_after_remove_last).peripheral_nodes[1]? = some b → a.id ≠ b.id := by
  have hadd : adds_with_fresh_id cfg_example
      (init_sensor_nodes cfg_example (GatewayState.init cfg_example))
      ops_add_after_remove_last :=
    ⟨by decide, by decide, by decide, by decide, by decide, by decide, trivial⟩
  exact ⟨hadd, by decide, fun a b =>
    node_ids_distinct_with_fresh_adds cfg_example (GatewayState.init cfg_example)
      ops_add_after_remove_last (by decide) (by decide) (by decide) hadd 0 1 a b (by decide)
      (by decide)⟩

/-! ## Gateway: what the advertisement scan finds -/

theorem byte_at_append_right (pre x : List Nat) (k : Nat) :
    byte_at (pre ++ x) (pre.length + k) = byte_at x k := by
  unfold byte_at
  rw [List.getD_append_right _ _ _ _ (by omega)]
  simp

theorem encode_fields_cons (f : ad_field) (post : List ad_field) :
    encode_fields (f :: post) = (f.body.length + 1) :: f.type :: (f.body ++ encode_fields post) := by
  simp [encode_fields, ad_field.encode]

/-- Counterexample to C25 as stated: the payload `05 03 0A 18 C7 98` is one well-formed
field, a complete list of 16-bit identifiers that contains `C7 98` as its second entry, and
`find_service_by_uuid` returns 0 for it. -/
theorem find_service_misses_second_identifier :
    well_formed_fields fields_second_identifier ∧
    encode_fields fields_second_identifier = [0x05, 0x03, 0x0A, 0x18, 0xC7, 0x98] ∧
    (∃ f ∈ fields_second_identifier, (f.type = 0x02 ∨ f.type = 0x03) ∧
      spec_list_contains_identifier f.body) ∧
    find_service_by_uuid (encode_fields fields_second_identifier)
      (encode_fields fields_second_identifier).length = some 0 ∧
    ¬ (find_service_by_uuid (encode_fields fields_second_identifier)
        (encode_fields fields_second_identifier).length = some 1 ↔
      ∃ f ∈ fields_second_identifier, (f.type = 0x02 ∨ f.type = 0x03) ∧
        spec_list_contains_identifier f.body) := by
  have hex : ∃ f ∈ fields_second_identifier, (f.type = 0x02 ∨ f.type = 0x03) ∧
      spec_list_contains_identifier f.body :=
    ⟨{ type := 0x03, body := [0x0A, 0x18, 0xC7, 0x98] }, by simp [fields_second_identifier],
      Or.inr rfl, 1, rfl, rfl⟩
  have h0 : find_service_by_uuid (encode_fields fields_second_identifier)
      (encode_fields fields_second_identifier).length = some 0 := by decide
  refine ⟨?_, by decide, hex, h0, fun h => ?_⟩
  · intro f hf
    have : f = { type := 0x03, body := [0x0A, 0x18, 0xC7, 0x98] } := by
      simpa [fields_second_identifier] using hf
    rw [this]
    exact ⟨by decide, by decide, by decide⟩
  · have h1 := h.mpr hex
    rw [h0] at h1
    exact absurd h1 (by decide)

/-- The loop on a payload of well-formed fields, started at the first byte of a field. -/
theorem find_service_by_uuid_loop_fields (rest : List Nat) (fields : List ad_field) :
    ∀ (pre : List Nat) (fuel : Nat), well_formed_fields fields →
      pre.length + (encode_fields fields).length ≤ 255 → fields.length < fuel →
      (first_bytes_match rest fields →
        find_service_by_uuid_loop (pre ++ encode_fields fields ++ rest)
          (pre.length + (encode_fields fields).length) fuel pre.length = some 1) ∧
      (¬ first_bytes_match rest fields →
        find_service_by_uuid_loop (pre ++ encode_fields fields ++ rest)
          (pre.length + (encode_fields fields).length) fuel pre.length = some 0) := by
  induction fields with
  | nil =>
      intro pre fuel _ _ hfuel
      obtain ⟨n, rfl⟩ : ∃ n, fuel = n + 1 := ⟨fuel - 1, by simp at hfuel; omega⟩
      refine ⟨fun h => absurd h (by simp [first_bytes_match]), fun _ => ?_⟩
      unfold find_service_by_uuid_loop
      simp [encode_fields]
  | cons f post ih =>
      intro pre fuel hwf hlen hfuel
      obtain ⟨n, rfl⟩ : ∃ n, fuel = n + 1 := ⟨fuel - 1, by simp at hfuel; omega⟩
      obtain ⟨hty, hbl, hbody⟩ := hwf f (List.mem_cons_self _ _)
      have hwf' : well_formed_fields post := fun g hg => hwf g (List.mem_cons_of_mem _ hg)
      have henc := encode_fields_cons f post
      have hl : (encode_fields (f :: post)).length
          = f.body.length + 2 + (encode_fields post).length := by
        rw [henc]; simp; omega
      have hdata : pre ++ encode_fields (f :: post) ++ rest
          = pre ++ ((f.body.length + 1) :: f.type :: (f.body ++ encode_fields post ++ rest)) := by
        rw [henc]; simp
      have hb0 : byte_at (pre ++ encode_fields (f :: post) ++ rest) pre.length
          = f.body.length + 1 := by
        rw [hdata]
        have := byte_at_append_right pre
          ((f.body.length + 1) :: f.type :: (f.body ++ encode_fields post ++ rest)) 0
        simp only [Nat.add_zero] at this
        rw [this]; simp [byte_at]; omega
      have hb1 : byte_at (pre ++ encode_fields (f :: post) ++ rest) (pre.length + 1)
          = f.type := by
        rw [hdata, byte_at_append_right]; simp [byte_at]; omega
      have hb2 : byte_at (pre ++ encode_fields (f :: post) ++ rest) (pre.length + 2)
          = byte_at (f.body ++ encode_fields post ++ rest) 0 := by
        rw [hdata, byte_at_append_right]; simp [byte_at]
      have hb3 : byte_at (pre ++ encode_fields (f :: post) ++ rest) (pre.length + 3)
          = byte_at (f.body ++ encode_fields post ++ rest) 1 := by
        rw [hdata, byte_at_append_right]; simp [byte_at]
      have hnext : (pre.length + (f.body.length + 1) + 1) % 256 = (pre ++ f.encode).length := by
        simp [ad_field.encode]; omega
      have hdata' : pre ++ encode_fields (f :: post) ++ rest
          = (pre ++ f.encode) ++ encode_fields post ++ rest := by
        simp [encode_fields]
      have hlen' : pre.length + (encode_fields (f :: post)).length
          = (pre ++ f.encode).length + (encode_fields post).length := by
        rw [hl]; simp [ad_field.encode]; omega
      have hih := ih (pre ++ f.encode) n hwf' (by rw [← hlen']; exact hlen)
        (by simp at hfuel; omega)
      have hlt : pre.length < pre.length + (encode_fields (f :: post)).length := by
        rw [hl]; omega
      have hstep : find_service_by_uuid_loop (pre ++ encode_fields (f :: post) ++ rest)
          (pre.length + (encode_fields (f :: post)).length) (n + 1) pre.length
          = if (f.type = 0x02 ∨ f.type = 0x03) ∧
              byte_at (f.body ++ encode_fields post ++ rest) 0 = 0xC7 ∧
              byte_at (f.body ++ encode_fields post ++ rest) 1 = 0x98 then some 1
            else find_service_by_uuid_loop ((pre ++ f.encode) ++ encode_fields post ++ rest)
              ((pre ++ f.encode).length + (encode_fields post).length) n
              (pre ++ f.encode).length := by
        rw [find_service_by_uuid_loop]
        rw [if_pos hlt]
        simp only [hb0, hb1, hb2, hb3, hnext]
        rw [← hdata', ← hlen']
      rw [hstep]
      by_cases hm : (f.type = 0x02 ∨ f.type = 0x03) ∧
          byte_at (f.body ++ encode_fields post ++ rest) 0 = 0xC7 ∧
          byte_at (f.body ++ encode_fields post ++ rest) 1 = 0x98
      · rw [if_pos hm]
        exact ⟨fun _ => rfl, fun h => absurd (Or.inl hm) h⟩
      · rw [if_neg hm]
        refine ⟨fun h => hih.1 ?_, fun h => hih.2 fun hp => h (Or.inr hp)⟩
        rcases h with h | h
        · exact absurd h hm
        · exact h

theorem first_bytes_match_iff (rest : List Nat) (fields : List ad_field) :
    first_bytes_match rest fields ↔
      ∃ pre f post, fields = pre ++ f :: post ∧ (f.type = 0x02 ∨ f.type = 0x03) ∧
        byte_at (f.body ++ encode_fields post ++ rest) 0 = 0xC7 ∧
        byte_at (f.body ++ encode_fields post ++ rest) 1 = 0x98 := by
  induction fields with
  | nil =>
      constructor
      · intro h; exact absurd h (by simp [first_bytes_match])
      · rintro ⟨pre, f, post, h, -⟩
        exact absurd h (by simp)
  | cons g tl ih =>
      constructor
      · intro h
        rcases h with h | h
        · exact ⟨[], g, tl, rfl, h⟩
        · obtain ⟨pre, f, post, hsplit, hc⟩ := ih.mp h
          exact ⟨g :: pre, f, post, by rw [hsplit]; rfl, hc⟩
      · rintro ⟨pre, f, post, hsplit, hc⟩
        cases pre with
        | nil =>
            have h1 : g = f ∧ tl = post := by simpa using hsplit
            rw [h1.1, h1.2]
            exact Or.inl hc
        | cons p pre' =>
            have h1 : g = p ∧ tl = pre' ++ f :: post := by simpa using hsplit
            exact Or.inr (ih.mpr ⟨pre', f, post, h1.2, hc⟩)

theorem length_le_encode_fields (fields : List ad_field) :
    fields.length ≤ (encode_fields fields).length := by
  induction fields with
  | nil => simp
  | cons f post ih => rw [encode_fields_cons]; simp; omega

/-- For a field whose data has at least two bytes, the two bytes behind the type byte are
the first entry of its identifier list. -/
theorem first_entry_bytes (body tail : List Nat) (hlen : 2 ≤ body.length)
    (hbytes : ∀ b ∈ body, b < 256) :
    (byte_at (body ++ tail) 0 = 0xC7 ∧ byte_at (body ++ tail) 1 = 0x98) ↔
      body.take 2 = [0xC7, 0x98] := by
  match body, hlen, hbytes with
  | a :: b :: r, _, hbytes =>
      have ha : a < 256 := hbytes a (by simp)
      have hb : b < 256 := hbytes b (by simp)
      simp only [byte_at, List.cons_append, List.getD_cons_zero, List.getD_cons_succ,
        List.take_succ_cons, List.take_zero, Nat.mod_eq_of_lt ha, Nat.mod_eq_of_lt hb]
      constructor
      · rintro ⟨h1, h2⟩; rw [h1, h2]
      · intro h
        have h' : a = 0xC7 ∧ b = 0x98 := by simpa using h
        exact h'

/-- C25, amended. For every well-formed advertisement payload (length-prefixed fields that
fill exactly its `len ≤ 255` bytes, followed in the buffer by any bytes `rest`),
`find_service_by_uuid` returns 1 or 0, and it returns 1 if and only if some field of type
`0x02` or `0x03` has the bytes `C7 98` right behind its type byte. When every such field
holds at least one identifier, this says: the first entry of the identifier list of some
field of type `0x02` or `0x03` is `C7 98`. Later entries of a list are not compared. -/
theorem find_service_by_uuid_first_entry (fields : List ad_field) (rest : List Nat)
    (hwf : well_formed_fields fields) (hlen : (encode_fields fields).length ≤ 255) :
    let data := encode_fields fields ++ rest
    let len := (encode_fields fields).length
    (find_service_by_uuid data len = some 1 ∨ find_service_by_uuid data len = some 0) ∧
    (find_service_by_uuid data len = some 1 ↔
      ∃ pre f post, fields = pre ++ f :: post ∧ (f.type = 0x02 ∨ f.type = 0x03) ∧
        byte_at (f.body ++ encode_fields post ++ rest) 0 = 0xC7 ∧
        byte_at (f.body ++ encode_fields post ++ rest) 1 = 0x98) ∧
    ((∀ f ∈ fields, (f.type = 0x02 ∨ f.type = 0x03) → 2 ≤ f.body.length) →
      (find_service_by_uuid data len = some 1 ↔
        ∃ f ∈ fields, (f.type = 0x02 ∨ f.type = 0x03) ∧ f.body.take 2 = [0xC7, 0x98])) := by
  intro data len
  have hloop := find_service_by_uuid_loop_fields rest fields [] 256 hwf
    (by simp; exact hlen) (by have := length_le_encode_fields fields; omega)
  have hfind : find_service_by_uuid data len
      = find_service_by_uuid_loop ([] ++ encode_fields fields ++ rest)
          (([] : List Nat).length + (encode_fields fields).length) 256
          ([] : List Nat).length := by
    simp [find_service_by_uuid, data, len]
  rw [← hfind] at hloop
  clear_value data len
  have hiff : find_service_by_uuid data len = some 1 ↔ first_bytes_match rest fields := by
    constructor
    · intro h
      by_contra hn
      rw [hloop.2 hn] at h
      exact absurd h (by decide)
    · exact hloop.1
  refine ⟨?_, hiff.trans (first_bytes_match_iff rest fields), fun hproper => ?_⟩
  · by_cases hm : first_bytes_match rest fields
    · exact Or.inl (hloop.1 hm)
    · exact Or.inr (hloop.2 hm)
  · rw [hiff, first_bytes_match_iff]
    constructor
    · rintro ⟨pre, f, post, hsplit, hty, hb⟩
      have hf : f ∈ fields := by rw [hsplit]; simp
      refine ⟨f, hf, hty, ?_⟩
      rw [List.append_assoc] at hb
      exact (first_entry_bytes f.body _ (hproper f hf hty) (hwf f hf).2.2).mp hb
    · rintro ⟨f, hf, hty, htake⟩
      obtain ⟨pre, post, hsplit⟩ := List.append_of_mem hf
      refine ⟨pre, f, post, hsplit, hty, ?_⟩
      rw [List.append_assoc]
      exact (first_entry_bytes f.body _ (hproper f hf hty) (hwf f hf).2.2).mpr htake

/-- Witness of C25 (amended): the payload `02 01 06 03 03 C7 98`, a flags field and a
complete identifier list that starts with `C7 98`, is found. -/
theorem find_service_by_uuid_first_entry_witness :
    well_formed_fields fields_first_identifier ∧
    (encode_fields fields_first_identifier).length ≤ 255 ∧
    encode_fields fields_first_identifier = [0x02, 0x01, 0x06, 0x03, 0x03, 0xC7, 0x98] ∧
    find_service_by_uuid (encode_fields fields_first_identifier ++ [])
      (encode_fields fields_first_identifier).length = some 1 := by
  have hwf : well_formed_fields fields_first_identifier := by
    intro f hf
    have : f = { type := 0x01, body := [0x06] } ∨ f = { type := 0x03, body := [0xC7, 0x98] } := by
      simpa [fields_first_identifier] using hf
    rcases this with h | h <;> rw [h] <;> exact ⟨by decide, by decide, by decide⟩
  have hproper : ∀ f ∈ fields_first_identifier, (f.type = 0x02 ∨ f.type = 0x03) →
      2 ≤ f.body.length := by decide
  exact ⟨hwf, by decide, by decide,
    ((find_service_by_uuid_first_entry fields_first_identifier [] hwf (by decide)).2.2
      hproper).mpr (by decide)⟩

/-! ## Gateway: the sync-ready notification -/

/-- Counterexample to C21 as stated: with two slots, connection 1 is provisioned and the
callback is called for it; connection 2 is then provisioned up to its last write, which
leaves the gateway in state `sync_process_finished`; a further procedure-completed event
for connection 1, which is still open, calls the callback for connection 1 a second
time. -/
theorem sync_ready_callback_called_twice :
    (gateway_run cfg_example (gateway_initialized cfg_example)
      trace_second_notification).halted = false ∧
    callbacks_for 1 (gateway_run cfg_example (gateway_initialized cfg_example)
      trace_second_notification).cmds = 2 ∧
    callbacks_for 2 (gateway_run cfg_example (gateway_initialized cfg_example)
      trace_second_notification).cmds = 0 ∧
    find_index_by_connection_handle (gateway_run cfg_example (gateway_initialized cfg_example)
      trace_second_notification).state 1 = 0 ∧
    (∀ p ∈ trace_second_notification, is_connection_closed p.2 = false) := by
  refine ⟨by decide, by decide, by decide, by decide, by decide⟩

theorem boot_no_callback (cfg : gateway_config) (env : GatewayEnv) (s : GatewayState) :
    (gateway_node_bt_boot cfg env s).satisfies any_state not_sync_ready_callback := by
  unfold gateway_node_bt_boot
  refine andThen_satisfies (g_call_satisfies trivial (fun _ h => by cases h)) ?_
  intro s1 _
  dsimp only
  split
  · refine andThen_satisfies (andThen_satisfies
      (g_call_satisfies trivial (fun _ h => by cases h)) ?_) ?_
    · intro s2 _
      exact g_call_satisfies trivial (fun _ h => by cases h)
    · intro s3 _
      exact pure_satisfies trivial
  · exact g_halt_satisfies trivial

theorem advertisement_no_callback (cfg : gateway_config) (env : GatewayEnv)
    (s : GatewayState) (event_flags : Nat) (address : List Nat) (address_type : Nat)
    (data : List Nat) :
    (gateway_node_bt_legacy_advertisement_report cfg env s event_flags address address_type
      data).satisfies any_state not_sync_ready_callback := by
  unfold gateway_node_bt_legacy_advertisement_report
  split
  · split
    · exact g_halt_satisfies trivial
    · split
      · refine andThen_satisfies (g_call_satisfies trivial (fun _ h => by cases h)) ?_
        intro s1 _
        split
        · exact g_call_satisfies trivial (fun _ h => by cases h)
        · exact pure_satisfies trivial
      · exact pure_satisfies trivial
  · exact pure_satisfies trivial

theorem connection_opened_no_callback (env : GatewayEnv) (s : GatewayState)
    (connection : Nat) (address : List Nat) :
    (gateway_node_bt_connection_opened env s connection address).satisfies any_state
      not_sync_ready_callback := by
  unfold gateway_node_bt_connection_opened
  dsimp only
  refine andThen_satisfies ?_ (fun s3 _ => pure_satisfies trivial)
  split
  · refine andThen_satisfies (g_issue_satisfies trivial (fun _ h => by cases h)) ?_
    intro s1 _
    refine andThen_satisfies (g_call_satisfies trivial (fun _ h => by cases h)) ?_
    intro s2 _
    exact pure_satisfies trivial
  · exact g_call_satisfies trivial (fun _ h => by cases h)

theorem discover_service_no_callback (env : GatewayEnv) (s : GatewayState)
    (connection : Nat) :
    (gateway_node_bt_discover_service env s connection).satisfies any_state
      not_sync_ready_callback := by
  unfold gateway_node_bt_discover_service
  dsimp only
  split
  · split
    · split
      · exact andThen_satisfies (g_call_satisfies trivial (fun _ h => by cases h))
          (fun s1 _ => pure_satisfies trivial)
      · exact pure_satisfies trivial
    · exact pure_satisfies trivial
  · exact pure_satisfies trivial

theorem set_peripheral_node_id_no_callback (env : GatewayEnv) (s : GatewayState)
    (connection : Nat) :
    (gateway_node_bt_set_peripheral_node_id env s connection).satisfies any_state
      not_sync_ready_callback := by
  unfold gateway_node_bt_set_peripheral_node_id
  dsimp only
  split
  · split
    · split
      · refine andThen_satisfies (g_issue_satisfies trivial (fun _ h => by cases h)) ?_
        intro s1 _
        exact andThen_satisfies (g_call_satisfies trivial (fun _ h => by cases h))
          (fun s3 _ => pure_satisfies trivial)
      · exact pure_satisfies trivial
    · exact pure_satisfies trivial
  · exact pure_satisfies trivial

theorem set_subevent_id_no_callback (env : GatewayEnv) (s : GatewayState)
    (connection : Nat) :
    (gateway_node_bt_set_subevent_id env s connection).satisfies any_state
      not_sync_ready_callback := by
  unfold gateway_node_bt_set_subevent_id
  dsimp only
  split
  · split
    · split
      · exact andThen_satisfies (g_call_satisfies trivial (fun _ h => by cases h))
          (fun s1 _ => pure_satisfies trivial)
      · exact pure_satisfies trivial
    · exact pure_satisfies trivial
  · exact pure_satisfies trivial

theorem set_wall_clock_time_no_callback (env : GatewayEnv) (s : GatewayState)
    (connection : Nat) :
    (gateway_node_bt_set_wall_clock_time env s connection).satisfies any_state
      not_sync_ready_callback := by
  unfold gateway_node_bt_set_wall_clock_time
  dsimp only
  split
  · split
    · split
      · exact andThen_satisfies (g_call_satisfies trivial (fun _ h => by cases h))
          (fun s1 _ => pure_satisfies trivial)
      · exact pure_satisfies trivial
    · exact pure_satisfies trivial
  · exact pure_satisfies trivial

theorem set_clock_correction_no_callback (env : GatewayEnv) (s : GatewayState)
    (connection result : Nat) :
    (gateway_node_bt_set_clock_correction env s connection result).satisfies any_state
      not_sync_ready_callback := by
  unfold gateway_node_bt_set_clock_correction
  dsimp only
  split
  · split
    · split
      · split
        · exact ⟨trivial, fun c h => by cases h⟩
        · exact andThen_satisfies (g_call_satisfies trivial (fun _ h => by cases h))
            (fun s1 _ => pure_satisfies trivial)
      · exact pure_satisfies trivial
    · exact pure_satisfies trivial
  · exact pure_satisfies trivial

theorem connection_closed_no_callback (cfg : gateway_config) (env : GatewayEnv)
    (s : GatewayState) (connection : Nat) :
    (gateway_node_bt_connection_closed cfg env s connection).satisfies any_state
      not_sync_ready_callback := by
  unfold gateway_node_bt_connection_closed
  dsimp only
  split
  · exact andThen_satisfies (g_call_satisfies trivial (fun _ h => by cases h))
      (fun s1 _ => pure_satisfies trivial)
  · exact pure_satisfies trivial

theorem callbacks_for_of_no_callback (connection : Nat) (o : GOutcome)
    (h : o.satisfies any_state not_sync_ready_callback) :
    callbacks_for connection o.cmds = 0 := by
  unfold callbacks_for
  rw [List.count_eq_zero]
  intro hmem
  exact h.2 _ hmem connection rfl

/-- The last provisioning step calls the callback at most once, and only for the connection
of the event, after a successful result and transfer; the entry of the connection is then
marked synchronised and the provisioning state is left. -/
theorem sync_process_finished_callback (cfg : gateway_config) (env : GatewayEnv)
    (s : GatewayState) (connection result c : Nat) :
    callbacks_for c (gateway_node_bt_sync_process_finished cfg env s connection result).cmds
      ≤ 1 ∧
    (0 < callbacks_for c
        (gateway_node_bt_sync_process_finished cfg env s connection result).cmds →
      c = connection ∧ result = SL_STATUS_OK ∧
      find_index_by_connection_handle s connection ≠ INVALID_TABLE_INDEX ∧
      (∃ node : peripheral_node_t,
        (gateway_node_bt_sync_process_finished cfg env s connection
          result).state.peripheral_nodes[find_index_by_connection_handle s connection]?
          = some node ∧
        node.connection_handle = connection ∧ node.is_synchronized = true) ∧
      ((gateway_node_bt_sync_process_finished cfg env s connection result).halted = false →
        (gateway_node_bt_sync_process_finished cfg env s connection
          result).state.connection_state = bt_connection_state_enum.scanning ∨
        (gateway_node_bt_sync_process_finished cfg env s connection
          result).state.connection_state = bt_connection_state_enum.sensor_network_full)) := by
  unfold gateway_node_bt_sync_process_finished
  dsimp only
  by_cases hidx : find_index_by_connection_handle s connection = INVALID_TABLE_INDEX
  · rw [if_neg (not_not.mpr hidx)]
    simp [Outcome.pure, callbacks_for]
  · obtain ⟨_, ⟨node, hnode, hconn⟩, _⟩ := find_index_found s connection hidx
    have hsync : ∃ node' : peripheral_node_t,
        (set_node s.peripheral_nodes (find_index_by_connection_handle s connection)
          fun node => { node with is_synchronized := true })[find_index_by_connection_handle s
            connection]? = some node' ∧
        node'.connection_handle = connection ∧ node'.is_synchronized = true := by
      rw [getElem?_set_node, if_pos rfl, hnode]
      exact ⟨_, rfl, hconn, rfl⟩
    rw [if_pos hidx]
    by_cases hr : result = SL_STATUS_OK
    · rw [if_neg (not_not.mpr hr)]
      by_cases hp : env.status (GatewayCmd.advertiser_past_transfer connection 0
          s.advertising_set_handle) = SL_STATUS_OK
      · by_cases hcb : s.sync_ready_callback = true
        · by_cases hact : s.active_connections_num < cfg.SL_BT_CONFIG_MAX_CONNECTIONS
          · by_cases hs : env.status GatewayCmd.scanner_start = SL_STATUS_OK
            · simp only [g_call, g_issue, Outcome.andThen, Outcome.pure, hp, hcb, hact, hs,
                callbacks_for, ne_eq, not_true_eq_false, decide_False, Bool.false_eq_true,
                if_false, if_true, List.singleton_append, List.cons_append, List.nil_append,
                List.append_nil]
              by_cases hc : c = connection
              · subst hc
                simp [hr, hidx]
                exact hsync
              · have hc' : connection ≠ c := fun h => hc h.symm
                simp [hc, hc']
            · simp only [g_call, g_issue, Outcome.andThen, Outcome.pure, hp, hcb, hact, hs,
                callbacks_for, ne_eq, not_true_eq_false, not_false_eq_true, decide_False,
                decide_True, Bool.false_eq_true, if_false, if_true, List.singleton_append,
                List.cons_append, List.nil_append, List.append_nil]
              by_cases hc : c = connection
              · subst hc
                simp [hr, hidx]
                exact hsync
              · have hc' : connection ≠ c := fun h => hc h.symm
                simp [hc, hc']
          · simp only [g_call, g_issue, Outcome.andThen, Outcome.pure, hp, hcb, hact,
              callbacks_for, ne_eq, not_true_eq_false, decide_False, Bool.false_eq_true,
              if_false, if_true, List.singleton_append, List.cons_append, List.nil_append,
              List.append_nil]
            by_cases hc : c = connection
            · subst hc
              simp [hr, hidx]
              exact hsync
            · have hc' : connection ≠ c := fun h => hc h.symm
              simp [hc, hc']
        · by_cases hact : s.active_connections_num < cfg.SL_BT_CONFIG_MAX_CONNECTIONS
          · by_cases hs : env.status GatewayCmd.scanner_start = SL_STATUS_OK
            · simp [g_call, g_issue, Outcome.andThen, Outcome.pure, hp, hcb, hact, hs,
                callbacks_for]
            · simp [g_call, g_issue, Outcome.andThen, Outcome.pure, hp, hcb, hact, hs,
                callbacks_for]
          · simp [g_call, g_issue, Outcome.andThen, Outcome.pure, hp, hcb, hact,
              callbacks_for]
      · simp [g_call, g_issue, Outcome.andThen, Outcome.pure, hp, callbacks_for]
    · rw [if_pos hr]
      simp [g_halt, callbacks_for]

theorem callbacks_for_zero_bound (n bound : Nat) (Y : Prop) (h0 : n = 0) :
    n ≤ bound ∧ (0 < n → Y) := by
  rw [h0]; exact ⟨Nat.zero_le _, fun h => absurd h (by decide)⟩

/-- One event calls the callback for `c` at most once, and only when it is a successful
procedure-completed event for `c` handled in state `sync_process_finished`. -/
theorem event_callback (cfg : gateway_config) (env : GatewayEnv) (s : GatewayState)
    (evt : GatewayEvent) (c : Nat) :
    callbacks_for c (gateway_node_on_bt_event cfg env s evt).cmds
      ≤ (if s.connection_state = bt_connection_state_enum.sync_process_finished ∧
          is_completion_for c evt = true then 1 else 0) ∧
    (0 < callbacks_for c (gateway_node_on_bt_event cfg env s evt).cmds →
      s.connection_state = bt_connection_state_enum.sync_process_finished ∧
      evt = GatewayEvent.gatt_procedure_completed c SL_STATUS_OK ∧
      find_index_by_connection_handle s c ≠ INVALID_TABLE_INDEX ∧
      (∃ node : peripheral_node_t,
        (gateway_node_on_bt_event cfg env s
          evt).state.peripheral_nodes[find_index_by_connection_handle s c]? = some node ∧
        node.connection_handle = c ∧ node.is_synchronized = true) ∧
      ((gateway_node_on_bt_event cfg env s evt).halted = false →
        (gateway_node_on_bt_event cfg env s evt).state.connection_state
          = bt_connection_state_enum.scanning ∨
        (gateway_node_on_bt_event cfg env s evt).state.connection_state
          = bt_connection_state_enum.sensor_network_full)) := by
  unfold gateway_node_on_bt_event
  by_cases hinit : s.ble_time_sync_initialized = true
  · rw [if_pos hinit]
    cases evt with
    | system_boot =>
        exact callbacks_for_zero_bound _ _ _
          (callbacks_for_of_no_callback c _ (boot_no_callback cfg env s))
    | scanner_legacy_advertisement_report event_flags address address_type data =>
        exact callbacks_for_zero_bound _ _ _
          (callbacks_for_of_no_callback c _
            (advertisement_no_callback cfg env s event_flags address address_type data))
    | connection_opened connection address =>
        exact callbacks_for_zero_bound _ _ _
          (callbacks_for_of_no_callback c _
            (connection_opened_no_callback env s connection address))
    | gatt_service connection service => exact callbacks_for_zero_bound _ _ _ rfl
    | gatt_characteristic connection characteristic uuid =>
        exact callbacks_for_zero_bound _ _ _ rfl
    | gatt_procedure_completed connection result =>
        dsimp only
        unfold gateway_node_bt_procedure_completed
        cases hst : s.connection_state with
        | inactive => exact callbacks_for_zero_bound _ _ _ rfl
        | scanning => exact callbacks_for_zero_bound _ _ _ rfl
        | discover_service =>
            exact callbacks_for_zero_bound _ _ _
              (callbacks_for_of_no_callback c _ (discover_service_no_callback env s connection))
        | set_peripheral_node_id =>
            exact callbacks_for_zero_bound _ _ _
              (callbacks_for_of_no_callback c _
                (set_peripheral_node_id_no_callback env s connection))
        | set_subevent_id =>
            exact callbacks_for_zero_bound _ _ _
              (callbacks_for_of_no_callback c _ (set_subevent_id_no_callback env s connection))
        | set_wall_clock_time =>
            exact callbacks_for_zero_bound _ _ _
              (callbacks_for_of_no_callback c _
                (set_wall_clock_time_no_callback env s connection))
        | set_clock_correction =>
            exact callbacks_for_zero_bound _ _ _
              (callbacks_for_of_no_callback c _
                (set_clock_correction_no_callback env s connection result))
        | sync_process_finished =>
            dsimp only
            obtain ⟨h1, h2⟩ := sync_process_finished_callback cfg env s connection result c
            by_cases hpos : 0 < callbacks_for c
                (gateway_node_bt_sync_process_finished cfg env s connection result).cmds
            · obtain ⟨hc, hr, hidx, hnode, hnext⟩ := h2 hpos
              subst hc
              refine ⟨?_, fun _ => ⟨rfl, by rw [hr], hidx, hnode, hnext⟩⟩
              simp only [is_completion_for, beq_self_eq_true, and_self, if_true]
              exact h1
            · exact callbacks_for_zero_bound _ _ _ (by omega)
        | sensor_network_full => exact callbacks_for_zero_bound _ _ _ rfl
    | pawr_advertiser_subevent_data_request =>
        exact callbacks_for_zero_bound _ _ _
          (callbacks_for_of_no_callback c _ (g_call_satisfies trivial (fun _ h => by cases h)))
    | connection_closed connection =>
        exact callbacks_for_zero_bound _ _ _
          (callbacks_for_of_no_callback c _ (connection_closed_no_callback cfg env s connection))
    | other => exact callbacks_for_zero_bound _ _ _ rfl
  · rw [if_neg hinit]
    exact callbacks_for_zero_bound _ _ _ rfl

/-- Over a run the callback is called for `c` at most as often as the gateway handles a
procedure-completed event for `c` in state `sync_process_finished`. -/
theorem run_callbacks (cfg : gateway_config) (c : Nat)
    (evts : List (GatewayEnv × GatewayEvent)) :
    ∀ s : GatewayState,
      callbacks_for c (gateway_run cfg s evts).cmds ≤ completions_for cfg c s evts := by
  induction evts with
  | nil => intro s; exact Nat.le_refl 0
  | cons p rest ih =>
      intro s
      obtain ⟨env, evt⟩ := p
      have hev := (event_callback cfg env s evt c).1
      have hrest := ih (gateway_node_on_bt_event cfg env s evt).state
      show callbacks_for c ((gateway_node_on_bt_event cfg env s evt).andThen
        fun s1 => gateway_run cfg s1 rest).cmds ≤
        (if s.connection_state = bt_connection_state_enum.sync_process_finished ∧
            is_completion_for c evt = true then 1 else 0)
        + (if (gateway_node_on_bt_event cfg env s evt).halted then 0
           else completions_for cfg c (gateway_node_on_bt_event cfg env s evt).state rest)
      unfold Outcome.andThen
      by_cases hh : (gateway_node_on_bt_event cfg env s evt).halted = true
      · rw [if_pos hh, if_pos hh]; omega
      · rw [if_neg hh, if_neg hh]
        have happ : callbacks_for c ((gateway_node_on_bt_event cfg env s evt).cmds ++
            (gateway_run cfg (gateway_node_on_bt_event cfg env s evt).state rest).cmds)
            = callbacks_for c (gateway_node_on_bt_event cfg env s evt).cmds
              + callbacks_for c
                (gateway_run cfg (gateway_node_on_bt_event cfg env s evt).state rest).cmds := by
          unfold callbacks_for; exact List.count_append _ _ _
        show callbacks_for c ((gateway_node_on_bt_event cfg env s evt).cmds ++
          (gateway_run cfg (gateway_node_on_bt_event cfg env s evt).state rest).cmds) ≤ _
        rw [happ]; omega

/-- C21, amended. In every gateway state `s` an event calls the sync-ready callback for a
link `c` at most once, and only when it is a successful procedure-completed event for `c`
handled in state `sync_process_finished` with `c` in the directory; the directory entry of
`c` is then marked synchronised and, unless the firmware halts, the provisioning state
becomes `scanning` or `sensor_network_full`. Over every event sequence the callback is
called for `c` at most as often as a procedure-completed event for `c` is handled in state
`sync_process_finished`, hence at most once when there is at most one such event. -/
theorem sync_ready_callback_per_completion (cfg : gateway_config) (s : GatewayState)
    (evts : List (GatewayEnv × GatewayEvent)) (env : GatewayEnv) (evt : GatewayEvent)
    (c : Nat) :
    let o := gateway_node_on_bt_event cfg env s evt
    callbacks_for c o.cmds ≤ 1 ∧
    (0 < callbacks_for c o.cmds →
      s.connection_state = bt_connection_state_enum.sync_process_finished ∧
      evt = GatewayEvent.gatt_procedure_completed c SL_STATUS_OK ∧
      find_index_by_connection_handle s c ≠ INVALID_TABLE_INDEX ∧
      (∃ node : peripheral_node_t,
        o.state.peripheral_nodes[find_index_by_connection_handle s c]? = some node ∧
        node.connection_handle = c ∧ node.is_synchronized = true) ∧
      (o.halted = false →
        o.state.connection_state = bt_connection_state_enum.scanning ∨
        o.state.connection_state = bt_connection_state_enum.sensor_network_full)) ∧
    callbacks_for c (gateway_run cfg s evts).cmds ≤ completions_for cfg c s evts ∧
    (completions_for cfg c s evts ≤ 1 → callbacks_for c (gateway_run cfg s evts).cmds ≤ 1) := by
  intro o
  have hev := event_callback cfg env s evt c
  have hrun := run_callbacks cfg c evts s
  refine ⟨?_, hev.2, hrun, fun h => le_trans hrun h⟩
  refine le_trans hev.1 ?_
  split_ifs <;> omega

/-! ## Peripheral drift tracker: the last accepted tick error -/

end BleTimeSync
